import Mathlib

/-! # Medical-equipment plugin classes: a shallow embedding

Each C++ class of `src/extensions` becomes a Lean structure holding its data
members, and each member function becomes a function from the object state to
the new state paired with the output it produced (`Act`).

Conventions of the embedding:

* `float` members and arguments are rationals (`ℚ`): comparisons and the
  literals are exact, rounding of `+`, `-`, `*` is not modelled.
* `UtilityFunctions::print(a, b, ...)` becomes the event `Event.print [a, b, ...]`.
* An observer pointer is `Option Nat`: `none` is `nullptr`, `some i` the object
  with identity `i`.  A call of an observer's virtual callback is recorded as an
  event; callbacks of foreign observers are not assumed to call back into the
  notifying object.
* `std::string` and the engine's `String` are Lean strings.
-/

namespace MedicalEquipment

/-! ## Output events -/

/-- One argument of a `UtilityFunctions::print` call. -/
inductive Arg where
  | str (s : String)
  | num (x : ℚ)
  | int (n : Int)
  deriving DecidableEq, Repr

/-- Medical data structure `VitalSigns` (medical_devices.h). -/
structure VitalSigns where
  oxygenLevel : ℚ
  heartRate : ℚ
  bloodPressure : ℚ
  temperature : ℚ
  respirationRate : ℚ
  deriving DecidableEq, Repr

/-- Medical data structure `ScanData` (medical_devices.h). -/
structure ScanData where
  scanType : String
  imageData : String
  quality : ℚ
  isValid : Bool
  deriving DecidableEq, Repr

/-- What an operation does to the outside world: a print, or a call of a
virtual callback on the observer with the given identity. -/
inductive Event where
  | print (args : List Arg)
  | onEmergencyActivated (observer : Nat)
  | onEmergencyDeactivated (observer : Nat)
  | onScanCompleted (observer : Nat) (data : ScanData)
  | onVitalSignsUpdated (observer : Nat) (vitals : VitalSigns)
  | onPatientEntered (observer : Nat)
  | onPatientLeft (observer : Nat)
  deriving DecidableEq, Repr

/-- A member function with side effects: new object state and emitted output. -/
abbrev Act (σ : Type) := σ → σ × List Event

/-- Statements executed one after the other. -/
def Act.seq {σ : Type} : List (Act σ) → Act σ
  | [] => fun s => (s, [])
  | a :: rest => fun s => ((Act.seq rest (a s).1).1, (a s).2 ++ (Act.seq rest (a s).1).2)

/-- `UtilityFunctions::print` with the given arguments. -/
def say {σ : Type} (args : List Arg) : Act σ := fun s => (s, [Event.print args])

/-- `std::min(a, b)`: `(b < a) ? b : a`. -/
def stdMin (a b : ℚ) : ℚ := if b < a then b else a

/-- `std::max(a, b)`: `(a < b) ? b : a`. -/
def stdMax (a b : ℚ) : ℚ := if a < b then b else a

/-! ## light_strip.h -/

/-- Colour structure for RGB values. -/
structure LightColor where
  red : Int
  green : Int
  blue : Int
  deriving DecidableEq, Repr

/-- The two concrete `LightBehavior` classes with their data members. -/
inductive LightBehavior where
  | NormalLightBehavior (brightness : ℚ) (currentColor : LightColor) (isActive : Bool)
  | EmergencyLightBehavior (isBlinking : Bool) (isActive : Bool)
  deriving DecidableEq, Repr

namespace LightBehavior

/-- Constructor `NormalLightBehavior()`. -/
def newNormal : LightBehavior := NormalLightBehavior (1/2) ⟨255, 255, 255⟩ false

/-- Constructor `EmergencyLightBehavior()`. -/
def newEmergency : LightBehavior := EmergencyLightBehavior false false

def activate : Act LightBehavior
  | NormalLightBehavior br c _ =>
      (NormalLightBehavior br c true, [Event.print [Arg.str "Normal lights activated"]])
  | EmergencyLightBehavior _ _ =>
      (EmergencyLightBehavior true true,
        [Event.print [Arg.str "🚨 EMERGENCY LIGHTS ACTIVATED - RED BLINKING!"]])

def deactivate : Act LightBehavior
  | NormalLightBehavior br c _ =>
      (NormalLightBehavior br c false,
        [Event.print [Arg.str "Normal lights deactivated - gentle glow mode"]])
  | EmergencyLightBehavior _ _ =>
      (EmergencyLightBehavior false false, [Event.print [Arg.str "Emergency lights deactivated"]])

def setBrightness (intensity : ℚ) : Act LightBehavior
  | NormalLightBehavior _ c a =>
      (NormalLightBehavior (stdMax 0 (stdMin 1 intensity)) c a,
        [Event.print [Arg.str "Brightness set to: ", Arg.num (stdMax 0 (stdMin 1 intensity))]])
  | EmergencyLightBehavior bl a =>
      (EmergencyLightBehavior bl a,
        [Event.print [Arg.str "Emergency mode - brightness locked to maximum"]])

def setColor (color : LightColor) : Act LightBehavior
  | NormalLightBehavior br _ a =>
      (NormalLightBehavior br color a,
        [Event.print [Arg.str "Color set to RGB(", Arg.int color.red, Arg.str ",",
          Arg.int color.green, Arg.str ",", Arg.int color.blue, Arg.str ")"]])
  | EmergencyLightBehavior bl a =>
      (EmergencyLightBehavior bl a, [Event.print [Arg.str "Emergency mode - color locked to red"]])

def isEmergencyMode : LightBehavior → Bool
  | NormalLightBehavior _ _ _ => false
  | EmergencyLightBehavior _ _ => true

def getBehaviorType : LightBehavior → String
  | NormalLightBehavior _ _ _ => "Normal"
  | EmergencyLightBehavior _ _ => "Emergency"

end LightBehavior

/-- Class `LightStrip`: the owned behaviour (`none` is a null `unique_ptr`) and
the observer pointers in registration order. -/
structure LightStrip where
  lightBehavior : Option LightBehavior
  observers : List (Option Nat)
  deriving DecidableEq, Repr

namespace LightStrip

/-- Constructor `LightStrip()`. -/
def new : LightStrip := { lightBehavior := some LightBehavior.newNormal, observers := [] }

def setBehavior (behavior : Option LightBehavior) : Act LightStrip :=
  fun s => ({ s with lightBehavior := behavior }, [])

/-- The pattern `if (lightBehavior) { lightBehavior->f(...); }`. -/
def onBehavior (f : Act LightBehavior) : Act LightStrip := fun s =>
  match s.lightBehavior with
  | none => (s, [])
  | some b => ({ s with lightBehavior := some (f b).1 }, (f b).2)

def activate : Act LightStrip := onBehavior LightBehavior.activate

def deactivate : Act LightStrip := onBehavior LightBehavior.deactivate

def setBrightness (intensity : ℚ) : Act LightStrip :=
  onBehavior (LightBehavior.setBrightness intensity)

def setColor (color : LightColor) : Act LightStrip := onBehavior (LightBehavior.setColor color)

/-- The callbacks made by the loop of `notifyEmergencyActivated`. -/
def notifyEmergencyActivated : Act LightStrip := fun s =>
  (s, s.observers.filterMap (fun o => o.map Event.onEmergencyActivated))

/-- The callbacks made by the loop of `notifyEmergencyDeactivated`. -/
def notifyEmergencyDeactivated : Act LightStrip := fun s =>
  (s, s.observers.filterMap (fun o => o.map Event.onEmergencyDeactivated))

def activateEmergencyMode : Act LightStrip :=
  Act.seq [setBehavior (some LightBehavior.newEmergency), activate, notifyEmergencyActivated]

def deactivateEmergencyMode : Act LightStrip :=
  Act.seq [setBehavior (some LightBehavior.newNormal), notifyEmergencyDeactivated]

def isEmergencyMode (s : LightStrip) : Bool :=
  match s.lightBehavior with
  | none => false
  | some b => b.isEmergencyMode

def getCurrentMode (s : LightStrip) : String :=
  match s.lightBehavior with
  | none => "None"
  | some b => b.getBehaviorType

def addObserver (observer : Option Nat) : Act LightStrip :=
  fun s => ({ s with observers := s.observers ++ [observer] }, [])

/-- The erase-remove idiom: every element equal to `observer` is dropped. -/
def removeObserver (observer : Option Nat) : Act LightStrip :=
  fun s => ({ s with observers := s.observers.filter (fun o => o ≠ observer) }, [])

/-- The public member functions of `LightStrip` as calls. -/
inductive Op where
  | setBehavior (behavior : Option LightBehavior)
  | activate
  | deactivate
  | setBrightness (intensity : ℚ)
  | setColor (color : LightColor)
  | activateEmergencyMode
  | deactivateEmergencyMode
  | addObserver (observer : Option Nat)
  | removeObserver (observer : Option Nat)
  deriving DecidableEq, Repr

/-- One call on a strip. -/
def step : Op → Act LightStrip
  | Op.setBehavior b => setBehavior b
  | Op.activate => activate
  | Op.deactivate => deactivate
  | Op.setBrightness x => setBrightness x
  | Op.setColor c => setColor c
  | Op.activateEmergencyMode => activateEmergencyMode
  | Op.deactivateEmergencyMode => deactivateEmergencyMode
  | Op.addObserver o => addObserver o
  | Op.removeObserver o => removeObserver o

/-- A sequence of calls on a strip. -/
def run (ops : List Op) : Act LightStrip := Act.seq (ops.map step)

/-- The calls named by the emergency-persistence property: `activate`,
`deactivate`, `setBrightness`, `setColor`, `addObserver`, `removeObserver`. -/
def Op.keepsMode : Op → Bool
  | Op.activate => true
  | Op.deactivate => true
  | Op.setBrightness _ => true
  | Op.setColor _ => true
  | Op.addObserver _ => true
  | Op.removeObserver _ => true
  | _ => false

/-- The observers "currently registered" after a history of calls, read off the
history itself: a registration made by `addObserver o` counts when no later call
is `removeObserver o`; registrations are listed in the order they were made. -/
def registeredAfter : List Op → List (Option Nat)
  | [] => []
  | Op.addObserver o :: rest =>
      if Op.removeObserver o ∈ rest then registeredAfter rest else o :: registeredAfter rest
  | _ :: rest => registeredAfter rest

end LightStrip

/-! ## Statement combinators -/

/-- The empty statement. -/
def Act.skip {σ : Type} : Act σ := fun s => (s, [])

/-- An assignment to data members. -/
def Act.modify {σ : Type} (f : σ → σ) : Act σ := fun s => (f s, [])

/-- `UtilityFunctions::print` whose arguments read the object. -/
def Act.say {σ : Type} (args : σ → List Arg) : Act σ := fun s => (s, [Event.print (args s)])

/-- The statement `if (c) t else e`. -/
def Act.ite {σ : Type} (c : σ → Bool) (t e : Act σ) : Act σ := fun s => if c s then t s else e s

/-- The statement `if (c) t`. -/
def Act.when {σ : Type} (c : σ → Bool) (t : Act σ) : Act σ := Act.ite c t Act.skip

/-! ## bed.h, bed.cpp -/

/-- Enumeration `TemperatureControl::Mode`. -/
inductive Mode where
  | COLD
  | NEUTRAL
  | WARM
  deriving DecidableEq, Repr

/-- Class `StandardTemperatureControl`. -/
structure StandardTemperatureControl where
  currentMode : Mode
  temperature : ℚ
  deriving DecidableEq, Repr

namespace StandardTemperatureControl

/-- Constructor `StandardTemperatureControl()`. -/
def new : StandardTemperatureControl := { currentMode := Mode.NEUTRAL, temperature := 22 }

def setTemperature (mode : Mode) : Act StandardTemperatureControl := fun _ =>
  match mode with
  | Mode.COLD =>
      ({ currentMode := Mode.COLD, temperature := 18 },
        [Event.print [Arg.str "Temperature set to COLD (18°C)"]])
  | Mode.NEUTRAL =>
      ({ currentMode := Mode.NEUTRAL, temperature := 22 },
        [Event.print [Arg.str "Temperature set to NEUTRAL (22°C)"]])
  | Mode.WARM =>
      ({ currentMode := Mode.WARM, temperature := 26 },
        [Event.print [Arg.str "Temperature set to WARM (26°C)"]])

def getCurrentTemperature (t : StandardTemperatureControl) : Mode := t.currentMode

def getTemperatureValue (t : StandardTemperatureControl) : ℚ := t.temperature

end StandardTemperatureControl

/-! ### medical_devices.h -/

/-- Constructor `VitalSigns()`. -/
def VitalSigns.new : VitalSigns :=
  { oxygenLevel := 98, heartRate := 75, bloodPressure := 120, temperature := 37,
    respirationRate := 16 }

/-- Constructor `ScanData(type)`. -/
def ScanData.new (type : String) : ScanData :=
  { scanType := type, imageData := "", quality := 95 / 100, isValid := true }

/-- Enumeration `Scanner::ScanType`. -/
inductive ScanType where
  | FULL_BODY
  | BRAIN
  | HEART
  | LUNGS
  deriving DecidableEq, Repr

/-- Enumeration `Scanner::ScanState`. -/
inductive ScanState where
  | IDLE
  | SCANNING
  | PROCESSING
  | COMPLETE
  | ERROR
  deriving DecidableEq, Repr

/-- Class `Scanner`. -/
structure Scanner where
  currentState : ScanState
  currentScanType : ScanType
  scanProgress : ℚ
  observers : List (Option Nat)
  currentScan : ScanData
  deriving DecidableEq, Repr

namespace Scanner

/-- Constructor `Scanner()`; `currentScan` is default-constructed. -/
def new : Scanner :=
  { currentState := ScanState.IDLE, currentScanType := ScanType.FULL_BODY, scanProgress := 0,
    observers := [], currentScan := ScanData.new "full_body" }

def getScanTypeName : ScanType → String
  | ScanType.FULL_BODY => "full_body"
  | ScanType.BRAIN => "brain"
  | ScanType.HEART => "heart"
  | ScanType.LUNGS => "lungs"

/-- The loop `for (int i = 0; i <= 100; i += 20)` of `processScan`, entered with
the loop variable at `i`; `fuel` bounds the number of iterations. -/
def progressLoop : Nat → Nat → Act Scanner
  | 0, _ => Act.skip
  | fuel + 1, i =>
      Act.when (fun _ => decide (i ≤ 100))
        (Act.seq [
          Act.modify (fun s => { s with scanProgress := (i : ℚ) / 100 }),
          say [Arg.str "Scan progress: ", Arg.int i, Arg.str "%"],
          progressLoop fuel (i + 20)])

/-- The callbacks made by the loop over `observers` in `processScan`. -/
def notifyScanCompleted : Act Scanner := fun s =>
  (s, s.observers.filterMap (fun o => o.map (fun i => Event.onScanCompleted i s.currentScan)))

def processScan : Act Scanner :=
  Act.seq [
    Act.modify (fun s => { s with currentState := ScanState.PROCESSING }),
    progressLoop 101 0,
    Act.modify (fun s => { s with currentScan := ScanData.new (getScanTypeName s.currentScanType) }),
    Act.modify (fun s => { s with currentScan :=
      { s.currentScan with
        imageData := "scan_image_" ++ getScanTypeName s.currentScanType ++ "_data" } }),
    Act.modify (fun s => { s with currentState := ScanState.COMPLETE }),
    say [Arg.str "✅ Scan completed successfully"],
    notifyScanCompleted,
    Act.modify (fun s => { s with currentState := ScanState.IDLE })]

def startScan (type : ScanType) : Act Scanner :=
  Act.ite (fun s => decide (s.currentState ≠ ScanState.IDLE))
    (say [Arg.str "❌ Cannot start scan - scanner busy"])
    (Act.seq [
      Act.modify (fun s => { s with currentScanType := type }),
      Act.modify (fun s => { s with currentState := ScanState.SCANNING }),
      Act.modify (fun s => { s with scanProgress := 0 }),
      Act.modify (fun s => { s with currentScan := ScanData.new (getScanTypeName type) }),
      say [Arg.str "🔍 Starting ", Arg.str (getScanTypeName type), Arg.str " scan..."],
      processScan])

def stopScan : Act Scanner :=
  Act.when (fun s => decide (s.currentState = ScanState.SCANNING
      ∨ s.currentState = ScanState.PROCESSING))
    (Act.seq [
      Act.modify (fun s => { s with currentState := ScanState.IDLE }),
      Act.modify (fun s => { s with scanProgress := 0 }),
      say [Arg.str "🛑 Scan stopped"]])

def getState (s : Scanner) : ScanState := s.currentState

def getProgress (s : Scanner) : ℚ := s.scanProgress

def getCurrentScanType (s : Scanner) : ScanType := s.currentScanType

def addObserver (observer : Option Nat) : Act Scanner :=
  Act.modify (fun s => { s with observers := s.observers ++ [observer] })

def removeObserver (observer : Option Nat) : Act Scanner :=
  Act.modify (fun s => { s with observers := s.observers.filter (fun o => o ≠ observer) })

end Scanner

/-- Class `VitalSignMonitor`. -/
structure VitalSignMonitor where
  currentVitals : VitalSigns
  isMonitoring : Bool
  observers : List (Option Nat)
  deriving DecidableEq, Repr

namespace VitalSignMonitor

/-- Constructor `VitalSignMonitor()`. -/
def new : VitalSignMonitor :=
  { currentVitals := VitalSigns.new, isMonitoring := false, observers := [] }

def updateVitalSigns : Act VitalSignMonitor :=
  Act.seq [
    Act.say (fun m => [Arg.str "💓 Vitals: HR=", Arg.num m.currentVitals.heartRate,
      Arg.str " O2=", Arg.num m.currentVitals.oxygenLevel, Arg.str "%",
      Arg.str " BP=", Arg.num m.currentVitals.bloodPressure,
      Arg.str " Temp=", Arg.num m.currentVitals.temperature, Arg.str "°C"]),
    fun m => (m, m.observers.filterMap
      (fun o => o.map (fun i => Event.onVitalSignsUpdated i m.currentVitals)))]

def startMonitoring : Act VitalSignMonitor :=
  Act.when (fun m => !m.isMonitoring)
    (Act.seq [
      Act.modify (fun m => { m with isMonitoring := true }),
      say [Arg.str "💓 Vital signs monitoring started"],
      updateVitalSigns])

def stopMonitoring : Act VitalSignMonitor :=
  Act.when (fun m => m.isMonitoring)
    (Act.seq [
      Act.modify (fun m => { m with isMonitoring := false }),
      say [Arg.str "⏹️  Vital signs monitoring stopped"]])

/-- The vitals after the five perturbations and the five clamps of
`simulateVitalSigns`; `r1 … r5` are the values returned by the five calls of
`rand()`, in the order of the calls. The remainder and the subtraction are
`int` operations, the result is converted to `float`. -/
def perturb (r1 r2 r3 r4 r5 : Nat) (v : VitalSigns) : VitalSigns :=
  { heartRate := stdMax 60 (stdMin 100 (v.heartRate + (((r1 % 10 : Nat) : Int) - 5 : Int))),
    oxygenLevel :=
      stdMax 95 (stdMin 100 (v.oxygenLevel + ((((r2 % 4 : Nat) : Int) - 2 : Int) : ℚ) * (1 / 10))),
    bloodPressure :=
      stdMax 110 (stdMin 140 (v.bloodPressure + (((r3 % 6 : Nat) : Int) - 3 : Int))),
    temperature :=
      stdMax (365 / 10) (stdMin (375 / 10)
        (v.temperature + ((((r4 % 2 : Nat) : Int) - 1 : Int) : ℚ) * (1 / 10))),
    respirationRate :=
      stdMax 12 (stdMin 20 (v.respirationRate + (((r5 % 4 : Nat) : Int) - 2 : Int))) }

def simulateVitalSigns (r1 r2 r3 r4 r5 : Nat) : Act VitalSignMonitor :=
  Act.ite (fun m => !m.isMonitoring) Act.skip
    (Act.seq [
      Act.modify (fun m => { m with currentVitals := perturb r1 r2 r3 r4 r5 m.currentVitals }),
      updateVitalSigns])

def getCurrentVitals (m : VitalSignMonitor) : VitalSigns := m.currentVitals

def getMonitoringStatus (m : VitalSignMonitor) : Bool := m.isMonitoring

def addObserver (observer : Option Nat) : Act VitalSignMonitor :=
  Act.modify (fun m => { m with observers := m.observers ++ [observer] })

def removeObserver (observer : Option Nat) : Act VitalSignMonitor :=
  Act.modify (fun m => { m with observers := m.observers.filter (fun o => o ≠ observer) })

/-- The public member functions of `VitalSignMonitor` as calls. -/
inductive Op where
  | startMonitoring
  | stopMonitoring
  | simulateVitalSigns (r1 r2 r3 r4 r5 : Nat)
  | addObserver (observer : Option Nat)
  | removeObserver (observer : Option Nat)
  deriving DecidableEq, Repr

/-- One call on a monitor. -/
def step : Op → Act VitalSignMonitor
  | Op.startMonitoring => startMonitoring
  | Op.stopMonitoring => stopMonitoring
  | Op.simulateVitalSigns r1 r2 r3 r4 r5 => simulateVitalSigns r1 r2 r3 r4 r5
  | Op.addObserver o => addObserver o
  | Op.removeObserver o => removeObserver o

/-- A sequence of calls on a monitor. -/
def run (ops : List Op) : Act VitalSignMonitor := Act.seq (ops.map step)

end VitalSignMonitor

/-- The clamp ranges of `simulateVitalSigns`. -/
def VitalSigns.InRange (v : VitalSigns) : Prop :=
  (60 ≤ v.heartRate ∧ v.heartRate ≤ 100)
  ∧ (95 ≤ v.oxygenLevel ∧ v.oxygenLevel ≤ 100)
  ∧ (365 / 10 ≤ v.temperature ∧ v.temperature ≤ 375 / 10)
  ∧ (110 ≤ v.bloodPressure ∧ v.bloodPressure ≤ 140)
  ∧ (12 ≤ v.respirationRate ∧ v.respirationRate ≤ 20)

/-- Class `ScannerDevice`. The scanner and the monitor are owned by the device
and never null; `storedScans` (a `std::map`) is an association list whose first
entry for a key is the stored value. -/
structure ScannerDevice where
  scanner : Scanner
  vitalMonitor : VitalSignMonitor
  canSwivel : Bool
  swivelAngle : ℚ
  storedScans : List (String × ScanData)
  lastVitals : VitalSigns
  deriving DecidableEq, Repr

namespace ScannerDevice

/-- The identity under which the device registers itself (`this`) with its own
scanner and monitor. -/
def self : Nat := 0

/-- Constructor `ScannerDevice()`: the device is the one observer of both parts. -/
def new : ScannerDevice :=
  { scanner := { Scanner.new with observers := [some self] },
    vitalMonitor := { VitalSignMonitor.new with observers := [some self] },
    canSwivel := true, swivelAngle := 0, storedScans := [], lastVitals := VitalSigns.new }

/-- The assignment `storedScans[key] = data`. -/
def store (key : String) (data : ScanData) (m : List (String × ScanData)) :
    List (String × ScanData) :=
  (key, data) :: m.filter (fun e => e.1 ≠ key)

def onScanCompleted (data : ScanData) : Act ScannerDevice :=
  Act.seq [
    say [Arg.str "📊 Scan completed: ", Arg.str data.scanType],
    Act.modify (fun d => { d with storedScans := store data.scanType data d.storedScans })]

def checkCriticalVitals (vitals : VitalSigns) : Act ScannerDevice :=
  Act.seq [
    Act.when (fun _ => decide (vitals.oxygenLevel < 90))
      (say [Arg.str "🚨 CRITICAL: Low oxygen level!"]),
    Act.when (fun _ => decide (vitals.heartRate < 50 ∨ vitals.heartRate > 120))
      (say [Arg.str "🚨 CRITICAL: Abnormal heart rate!"]),
    Act.when (fun _ => decide (vitals.temperature > 385 / 10 ∨ vitals.temperature < 36))
      (say [Arg.str "⚠️  WARNING: Abnormal temperature!"]),
    Act.when (fun _ => decide (vitals.oxygenLevel < 90
        ∨ (vitals.heartRate < 50 ∨ vitals.heartRate > 120)))
      (say [Arg.str "🚨 CRITICAL STATUS: Patient requires immediate attention!"])]

def onVitalSignsUpdated (vitals : VitalSigns) : Act ScannerDevice :=
  Act.seq [Act.modify (fun d => { d with lastVitals := vitals }), checkCriticalVitals vitals]

def onDeviceError (error : String) : Act ScannerDevice :=
  say [Arg.str "❌ ScannerDevice error: ", Arg.str error]

/-- An output event of a part seen from the device: the event itself, and for a
callback addressed to the device the body of the device's override. -/
def deliver : Event → Act ScannerDevice
  | Event.onScanCompleted i data =>
      Act.seq [fun d => (d, [Event.onScanCompleted i data]),
        Act.when (fun _ => decide (i = self)) (onScanCompleted data)]
  | Event.onVitalSignsUpdated i vitals =>
      Act.seq [fun d => (d, [Event.onVitalSignsUpdated i vitals]),
        Act.when (fun _ => decide (i = self)) (onVitalSignsUpdated vitals)]
  | e => fun d => (d, [e])

/-- A call `scanner->f(...)`. -/
def onScanner (f : Act Scanner) : Act ScannerDevice := fun d =>
  Act.seq ((f d.scanner).2.map deliver) { d with scanner := (f d.scanner).1 }

/-- A call `vitalMonitor->f(...)`. -/
def onMonitor (f : Act VitalSignMonitor) : Act ScannerDevice := fun d =>
  Act.seq ((f d.vitalMonitor).2.map deliver) { d with vitalMonitor := (f d.vitalMonitor).1 }

def startFullBodyScan : Act ScannerDevice := onScanner (Scanner.startScan ScanType.FULL_BODY)

def startBrainScan : Act ScannerDevice := onScanner (Scanner.startScan ScanType.BRAIN)

def stopScan : Act ScannerDevice := onScanner Scanner.stopScan

def startVitalMonitoring : Act ScannerDevice := onMonitor VitalSignMonitor.startMonitoring

def stopVitalMonitoring : Act ScannerDevice := onMonitor VitalSignMonitor.stopMonitoring

def updateVitals (r1 r2 r3 r4 r5 : Nat) : Act ScannerDevice :=
  onMonitor (VitalSignMonitor.simulateVitalSigns r1 r2 r3 r4 r5)

def swivelLeft (angle : ℚ) : Act ScannerDevice :=
  Act.when (fun d => d.canSwivel)
    (Act.seq [
      Act.modify (fun d => { d with swivelAngle := stdMax (-90) (d.swivelAngle - angle) }),
      Act.say (fun d => [Arg.str "🔄 Device swiveled left to ", Arg.num d.swivelAngle,
        Arg.str "°"])])

def swivelRight (angle : ℚ) : Act ScannerDevice :=
  Act.when (fun d => d.canSwivel)
    (Act.seq [
      Act.modify (fun d => { d with swivelAngle := stdMin 90 (d.swivelAngle + angle) }),
      Act.say (fun d => [Arg.str "🔄 Device swiveled right to ", Arg.num d.swivelAngle,
        Arg.str "°"])])

def centerDevice : Act ScannerDevice :=
  Act.seq [Act.modify (fun d => { d with swivelAngle := 0 }), say [Arg.str "📍 Device centered"]]

def getSwivelAngle (d : ScannerDevice) : ℚ := d.swivelAngle

def isScannerBusy (d : ScannerDevice) : Bool := decide (d.scanner.getState ≠ ScanState.IDLE)

def isMonitoringVitals (d : ScannerDevice) : Bool := d.vitalMonitor.getMonitoringStatus

def getLastVitals (d : ScannerDevice) : VitalSigns := d.lastVitals

end ScannerDevice

/-! ### patient_bed.h: the occupancy sensor -/

/-- Class `OccupancySensor`. -/
structure OccupancySensor where
  isOccupied : Bool
  observers : List (Option Nat)
  deriving DecidableEq, Repr

namespace OccupancySensor

/-- Constructor `OccupancySensor()`. -/
def new : OccupancySensor := { isOccupied := false, observers := [] }

def addObserver (observer : Option Nat) : Act OccupancySensor :=
  Act.modify (fun s => { s with observers := s.observers ++ [observer] })

def removeObserver (observer : Option Nat) : Act OccupancySensor :=
  Act.modify (fun s => { s with observers := s.observers.filter (fun o => o ≠ observer) })

def notifyPatientEntered : Act OccupancySensor := fun s =>
  (s, s.observers.filterMap (fun o => o.map Event.onPatientEntered))

def notifyPatientLeft : Act OccupancySensor := fun s =>
  (s, s.observers.filterMap (fun o => o.map Event.onPatientLeft))

def setOccupied (occupied : Bool) : Act OccupancySensor :=
  Act.when (fun s => s.isOccupied != occupied)
    (Act.seq [
      Act.modify (fun s => { s with isOccupied := occupied }),
      Act.ite (fun _ => occupied) notifyPatientEntered notifyPatientLeft])

def getOccupied (s : OccupancySensor) : Bool := s.isOccupied

end OccupancySensor

/-! ### The bed classes -/

/-- The data members `PatientBed` adds to `Bed`. -/
structure PatientBedData where
  occupancySensor : OccupancySensor
  comfortMode : Bool
  lastOccupancyTime : ℚ
  deriving DecidableEq, Repr

/-- The data members `SurgicalBed` adds to `Bed`. -/
structure SurgicalBedData where
  medicalDevice : ScannerDevice
  sterileMode : Bool
  procedureInProgress : Bool
  maxSurgicalHeight : ℚ
  minSurgicalHeight : ℚ
  currentProcedure : String
  deriving DecidableEq, Repr

/-- The dynamic type of a bed object with the members of the derived class.
`TestBed` is the concrete subclass of the abstract `Bed` that overrides only
`getClassName` (src/tests/test_medical_equipment.cpp). -/
inductive BedClass where
  | TestBed
  | PatientBed (d : PatientBedData)
  | SurgicalBed (d : SurgicalBedData)
  deriving DecidableEq, Repr

/-- Class `Bed` with the derived part of the object. The light strip and the
temperature control are created by `initializeComponents` and never reset, so the
two `unique_ptr` members are never null and are held by value. -/
structure Bed where
  lightStrip : LightStrip
  temperatureControl : StandardTemperatureControl
  currentHeight : ℚ
  minHeight : ℚ
  maxHeight : ℚ
  isPoweredOn : Bool
  derived : BedClass
  deriving DecidableEq, Repr

namespace Bed

/-- The identity under which a bed registers itself (`this`) with its light
strip and its occupancy sensor. -/
def self : Nat := 0

/-- Constructor `Bed()` followed by `initializeComponents()`, for the dynamic
type `derived`. -/
def new (derived : BedClass) : Bed :=
  { lightStrip := (LightStrip.addObserver (some self) LightStrip.new).1,
    temperatureControl := StandardTemperatureControl.new,
    currentHeight := 50, minHeight := 30, maxHeight := 100, isPoweredOn := false,
    derived := derived }

/-- The virtual `getClassName()`. -/
def getClassName (b : Bed) : String :=
  match b.derived with
  | BedClass.TestBed => "TestBed"
  | BedClass.PatientBed _ => "PatientBed"
  | BedClass.SurgicalBed _ => "SurgicalBed"

def getHeight (b : Bed) : ℚ := b.currentHeight

def validateHeightRange (b : Bed) (height : ℚ) : Bool :=
  decide (height ≥ b.minHeight) && decide (height ≤ b.maxHeight)

def onEmergencyActivated : Act Bed :=
  Act.say (fun b => [Arg.str "🚨 ", Arg.str b.getClassName,
    Arg.str " responding to emergency activation"])

def onEmergencyDeactivated : Act Bed :=
  Act.say (fun b => [Arg.str "✅ ", Arg.str b.getClassName,
    Arg.str " emergency response deactivated"])

/-- An output event of the light strip seen from the bed: the event itself, and
for a callback addressed to the bed the body of the bed's override. -/
def deliver : Event → Act Bed
  | Event.onEmergencyActivated i =>
      Act.seq [fun b => (b, [Event.onEmergencyActivated i]),
        Act.when (fun _ => decide (i = self)) onEmergencyActivated]
  | Event.onEmergencyDeactivated i =>
      Act.seq [fun b => (b, [Event.onEmergencyDeactivated i]),
        Act.when (fun _ => decide (i = self)) onEmergencyDeactivated]
  | e => fun b => (b, [e])

/-- A call `lightStrip->f(...)`. -/
def onLight (f : Act LightStrip) : Act Bed := fun b =>
  Act.seq ((f b.lightStrip).2.map deliver) { b with lightStrip := (f b.lightStrip).1 }

/-- A call `temperatureControl->f(...)`. -/
def onTemperature (f : Act StandardTemperatureControl) : Act Bed := fun b =>
  ({ b with temperatureControl := (f b.temperatureControl).1 }, (f b.temperatureControl).2)

def raiseHeight (amount : ℚ) : Act Bed :=
  Act.ite (fun b => !b.isPoweredOn)
    (say [Arg.str "Cannot adjust height - bed is powered off"])
    (Act.ite (fun b => b.validateHeightRange (b.currentHeight + amount))
      (Act.seq [
        Act.modify (fun b => { b with currentHeight := b.currentHeight + amount }),
        Act.say (fun b => [Arg.str "Height raised to ", Arg.num b.currentHeight, Arg.str " cm"])])
      (Act.say (fun b => [Arg.str "Cannot raise height - would exceed maximum (",
        Arg.num b.maxHeight, Arg.str " cm)"])))

def lowerHeight (amount : ℚ) : Act Bed :=
  Act.ite (fun b => !b.isPoweredOn)
    (say [Arg.str "Cannot adjust height - bed is powered off"])
    (Act.ite (fun b => b.validateHeightRange (b.currentHeight - amount))
      (Act.seq [
        Act.modify (fun b => { b with currentHeight := b.currentHeight - amount }),
        Act.say (fun b => [Arg.str "Height lowered to ", Arg.num b.currentHeight, Arg.str " cm"])])
      (Act.say (fun b => [Arg.str "Cannot lower height - would go below minimum (",
        Arg.num b.minHeight, Arg.str " cm)"])))

def setHeight (height : ℚ) : Act Bed :=
  Act.ite (fun b => !b.isPoweredOn)
    (say [Arg.str "Cannot set height - bed is powered off"])
    (Act.ite (fun b => b.validateHeightRange height)
      (Act.seq [
        Act.modify (fun b => { b with currentHeight := height }),
        Act.say (fun b => [Arg.str "Height set to ", Arg.num b.currentHeight, Arg.str " cm"])])
      (Act.say (fun b => [Arg.str "Invalid height. Range: ", Arg.num b.minHeight, Arg.str " - ",
        Arg.num b.maxHeight, Arg.str " cm"])))

def activateLights : Act Bed := onLight LightStrip.activate

def deactivateLights : Act Bed := onLight LightStrip.deactivate

def setLightBrightness (intensity : ℚ) : Act Bed := onLight (LightStrip.setBrightness intensity)

def setLightColor (color : LightColor) : Act Bed := onLight (LightStrip.setColor color)

def triggerEmergency : Act Bed :=
  Act.seq [
    Act.say (fun b => [Arg.str "🚨 EMERGENCY TRIGGERED on ", Arg.str b.getClassName]),
    onLight LightStrip.activateEmergencyMode]

def clearEmergency : Act Bed :=
  Act.seq [
    Act.say (fun b => [Arg.str "Emergency cleared on ", Arg.str b.getClassName]),
    onLight LightStrip.deactivateEmergencyMode]

def setTemperature (mode : Mode) : Act Bed :=
  Act.ite (fun b => !b.isPoweredOn)
    (say [Arg.str "Cannot set temperature - bed is powered off"])
    (onTemperature (StandardTemperatureControl.setTemperature mode))

def TEMPERATURE_COLD : Int := 0

def TEMPERATURE_NEUTRAL : Int := 1

def TEMPERATURE_WARM : Int := 2

/-- The scripting-layer overload `setTemperature(int mode)`. -/
def setTemperatureInt (mode : Int) : Act Bed :=
  setTemperature
    (if mode = TEMPERATURE_COLD then Mode.COLD
     else if mode = TEMPERATURE_WARM then Mode.WARM
     else Mode.NEUTRAL)

def getCurrentTemperature (b : Bed) : Mode := b.temperatureControl.getCurrentTemperature

def getTemperatureValue (b : Bed) : ℚ := b.temperatureControl.getTemperatureValue

def checkPowerSystem : Act Bed :=
  Act.say (fun b => [Arg.str "Checking power system... ",
    Arg.str (if b.isPoweredOn then "OK" else "OFF")])

def checkHeightMechanism : Act Bed :=
  Act.say (fun b => [Arg.str "Checking height mechanism... ",
    Arg.str (if decide (b.currentHeight ≥ b.minHeight) && decide (b.currentHeight ≤ b.maxHeight)
      then "OK" else "ERROR")])

/-- The light strip pointer is never null, so `lightOK` is true. -/
def checkLightSystem : Act Bed :=
  say [Arg.str "Checking light system... ", Arg.str "OK"]

/-- The temperature control pointer is never null, so `tempOK` is true. -/
def checkTemperatureSystem : Act Bed :=
  say [Arg.str "Checking temperature system... ", Arg.str "OK"]

end Bed

/-! ### patient_bed.cpp -/

namespace PatientBed

/-- Constructor `PatientBed()`: the base constructor, then the patient-bed
height range and the occupancy sensor observed by the bed itself. -/
def new : Bed :=
  { Bed.new (BedClass.PatientBed
      { occupancySensor := (OccupancySensor.addObserver (some Bed.self) OccupancySensor.new).1,
        comfortMode := false, lastOccupancyTime := 0 }) with
    minHeight := 40, maxHeight := 90, currentHeight := 55 }

/-- An assignment to the members `PatientBed` adds. -/
def modify (f : PatientBedData → PatientBedData) : Act Bed :=
  Act.modify (fun b =>
    match b.derived with
    | BedClass.PatientBed d => { b with derived := BedClass.PatientBed (f d) }
    | _ => b)

def isOccupied (b : Bed) : Bool :=
  match b.derived with
  | BedClass.PatientBed d => d.occupancySensor.getOccupied
  | _ => false

def isComfortModeEnabled (b : Bed) : Bool :=
  match b.derived with
  | BedClass.PatientBed d => d.comfortMode
  | _ => false

def adjustForPatientComfort : Act Bed :=
  Act.ite (fun b => !b.isPoweredOn) Act.skip
    (Act.seq [
      say [Arg.str "Adjusting bed for patient comfort..."],
      Bed.setHeight 50,
      Bed.setTemperature Mode.WARM,
      Bed.onLight (LightStrip.setBrightness (4 / 10)),
      Bed.onLight (LightStrip.setColor ⟨255, 240, 200⟩)])

def resetToDefaultSettings : Act Bed :=
  Act.ite (fun b => !b.isPoweredOn) Act.skip
    (Act.seq [
      say [Arg.str "Resetting to default settings..."],
      Bed.setHeight 55,
      Bed.setTemperature Mode.NEUTRAL,
      Bed.onLight (LightStrip.setBrightness (5 / 10)),
      Bed.onLight (LightStrip.setColor ⟨255, 255, 255⟩)])

/-- The override `onPatientEntered()`; `now` is the value of `std::time(nullptr)`. -/
def onPatientEntered (now : ℚ) : Act Bed :=
  Act.seq [
    modify (fun d => { d with lastOccupancyTime := now }),
    say [Arg.str "👤 Patient detected on bed"],
    Act.when isComfortModeEnabled adjustForPatientComfort,
    Act.when (fun b => !b.lightStrip.isEmergencyMode)
      (Act.seq [
        Bed.onLight (LightStrip.setBrightness (3 / 10)),
        Bed.onLight (LightStrip.setColor ⟨255, 248, 220⟩)])]

def onPatientLeft : Act Bed :=
  Act.seq [
    say [Arg.str "👋 Patient left the bed"],
    resetToDefaultSettings,
    Act.when (fun b => !b.lightStrip.isEmergencyMode)
      (Act.seq [
        Bed.onLight (LightStrip.setBrightness (5 / 10)),
        Bed.onLight (LightStrip.setColor ⟨255, 255, 255⟩)])]

/-- An output event of the occupancy sensor seen from the bed: the event itself,
and for a callback addressed to the bed the body of the bed's override. -/
def deliver (now : ℚ) : Event → Act Bed
  | Event.onPatientEntered i =>
      Act.seq [fun b => (b, [Event.onPatientEntered i]),
        Act.when (fun _ => decide (i = Bed.self)) (onPatientEntered now)]
  | Event.onPatientLeft i =>
      Act.seq [fun b => (b, [Event.onPatientLeft i]),
        Act.when (fun _ => decide (i = Bed.self)) onPatientLeft]
  | e => fun b => (b, [e])

/-- A call `occupancySensor->f(...)`. -/
def onSensor (now : ℚ) (f : Act OccupancySensor) : Act Bed := fun b =>
  match b.derived with
  | BedClass.PatientBed d =>
      Act.seq ((f d.occupancySensor).2.map (deliver now))
        { b with derived := BedClass.PatientBed { d with occupancySensor := (f d.occupancySensor).1 } }
  | _ => (b, [])

/-- The call `simulatePatientEntry()`, made when the clock reads `now`. -/
def simulatePatientEntry (now : ℚ) : Act Bed :=
  Act.seq [say [Arg.str "Patient entering bed..."], onSensor now (OccupancySensor.setOccupied true)]

/-- The call `simulatePatientExit()`; the clock is not read on this path. -/
def simulatePatientExit : Act Bed :=
  Act.seq [say [Arg.str "Patient leaving bed..."], onSensor 0 (OccupancySensor.setOccupied false)]

def enableComfortMode : Act Bed :=
  Act.seq [
    modify (fun d => { d with comfortMode := true }),
    say [Arg.str "Comfort mode ENABLED"],
    Act.when isOccupied adjustForPatientComfort]

def disableComfortMode : Act Bed :=
  Act.seq [
    modify (fun d => { d with comfortMode := false }),
    say [Arg.str "Comfort mode DISABLED"],
    resetToDefaultSettings]

/-- The hook `performSpecificChecks()`; `now` is the value of `std::time(nullptr)`
and the sensor pointer is never null. -/
def performSpecificChecks (now : ℚ) : Act Bed :=
  Act.seq [
    say [Arg.str "Checking occupancy sensor..."],
    say [Arg.str "Occupancy sensor: ", Arg.str "OK"],
    say [Arg.str "Checking comfort settings..."],
    Act.say (fun b => [Arg.str "Comfort mode: ",
      Arg.str (if isComfortModeEnabled b then "ENABLED" else "DISABLED")]),
    Act.when isOccupied
      (Act.say (fun b => [Arg.str "Patient occupancy duration: ",
        Arg.num (now - (match b.derived with
          | BedClass.PatientBed d => d.lastOccupancyTime
          | _ => 0)),
        Arg.str " seconds"]))]

def onPowerOn : Act Bed :=
  Act.seq [
    say [Arg.str "PatientBed systems initializing..."],
    say [Arg.str "Occupancy monitoring activated"],
    Bed.setHeight 55,
    Bed.setTemperature Mode.NEUTRAL]

def onPowerOff : Act Bed :=
  Act.seq [
    say [Arg.str "PatientBed systems shutting down..."],
    Act.when isOccupied (say [Arg.str "⚠️  WARNING: Patient still on bed during shutdown!"]),
    disableComfortMode]

end PatientBed

/-! ### surgical_bed.cpp -/

namespace SurgicalBed

/-- Constructor `SurgicalBed()`: the base constructor, then the surgical height
range and `initializeSurgicalSystems()`. -/
def new : Bed :=
  { Bed.new (BedClass.SurgicalBed
      { medicalDevice := ScannerDevice.new, sterileMode := false, procedureInProgress := false,
        maxSurgicalHeight := 120, minSurgicalHeight := 70, currentProcedure := "" }) with
    minHeight := 60, maxHeight := 120, currentHeight := 85 }

/-- An assignment to the members `SurgicalBed` adds. -/
def modify (f : SurgicalBedData → SurgicalBedData) : Act Bed :=
  Act.modify (fun b =>
    match b.derived with
    | BedClass.SurgicalBed d => { b with derived := BedClass.SurgicalBed (f d) }
    | _ => b)

/-- A call `medicalDevice->f(...)`. -/
def onDevice (f : Act ScannerDevice) : Act Bed := fun b =>
  match b.derived with
  | BedClass.SurgicalBed d =>
      ({ b with derived := BedClass.SurgicalBed { d with medicalDevice := (f d.medicalDevice).1 } },
        (f d.medicalDevice).2)
  | _ => (b, [])

def isSterileMode (b : Bed) : Bool :=
  match b.derived with
  | BedClass.SurgicalBed d => d.sterileMode
  | _ => false

def isProcedureActive (b : Bed) : Bool :=
  match b.derived with
  | BedClass.SurgicalBed d => d.procedureInProgress
  | _ => false

def getCurrentProcedure (b : Bed) : String :=
  match b.derived with
  | BedClass.SurgicalBed d => d.currentProcedure
  | _ => ""

def isSurgicalPositioningValid (b : Bed) : Bool :=
  match b.derived with
  | BedClass.SurgicalBed d =>
      decide (b.currentHeight ≥ d.minSurgicalHeight) && decide (b.currentHeight ≤ d.maxSurgicalHeight)
  | _ => false

def setupSterileEnvironment : Act Bed :=
  Act.seq [
    Bed.onLight (LightStrip.setBrightness (9 / 10)),
    Bed.onLight (LightStrip.setColor ⟨255, 255, 255⟩),
    Bed.setTemperature Mode.COLD,
    say [Arg.str "✨ Sterile environment configured"]]

def enterSterileMode : Act Bed :=
  Act.ite (fun b => !b.isPoweredOn)
    (say [Arg.str "Cannot enter sterile mode - bed is powered off"])
    (Act.seq [
      modify (fun d => { d with sterileMode := true }),
      say [Arg.str "🔬 STERILE MODE ACTIVATED"],
      setupSterileEnvironment])

def exitSterileMode : Act Bed :=
  Act.seq [
    modify (fun d => { d with sterileMode := false }),
    say [Arg.str "🔬 Sterile mode deactivated"],
    Bed.onLight (LightStrip.setBrightness (5 / 10)),
    Bed.onLight (LightStrip.setColor ⟨255, 255, 255⟩)]

def setToSurgicalHeight : Act Bed :=
  Act.seq [
    Bed.setHeight 100,
    say [Arg.str "⚕️  Set to surgical height: ", Arg.num 100, Arg.str " cm"]]

def setToTransferHeight : Act Bed :=
  Act.seq [
    Bed.setHeight 75,
    say [Arg.str "🏨 Set to transfer height: ", Arg.num 75, Arg.str " cm"]]

def adjustLightingForProcedure : Act Bed :=
  Act.seq [
    Bed.onLight (LightStrip.setBrightness 1),
    Bed.onLight (LightStrip.setColor ⟨255, 255, 255⟩)]

def adjustTemperatureForProcedure : Act Bed := Bed.setTemperature Mode.COLD

def validateProcedureRequirements (procedureType : String) : Act Bed :=
  Act.seq [
    say [Arg.str "✅ Validating requirements for: ", Arg.str procedureType],
    Act.when (fun b => !isSterileMode b)
      (say [Arg.str "⚠️  Recommendation: Activate sterile mode for surgery"]),
    Act.when (fun b => !isSurgicalPositioningValid b)
      (Act.seq [say [Arg.str "⚠️  Adjusting to optimal surgical height"], setToSurgicalHeight]),
    say [Arg.str "✅ Procedure requirements validated"]]

def adjustForProcedure (procedureType : String) : Act Bed :=
  Act.seq [
    say [Arg.str "⚙️  Adjusting bed configuration for: ", Arg.str procedureType],
    Act.ite (fun _ => decide (procedureType = "brain_surgery"))
      (Act.seq [Bed.setHeight 110, adjustLightingForProcedure])
      (Act.ite (fun _ => decide (procedureType = "cardiac_surgery"))
        (Act.seq [Bed.setHeight 95, adjustLightingForProcedure])
        (Act.ite (fun _ => decide (procedureType = "general_surgery"))
          (Bed.setHeight 100)
          (Act.seq [say [Arg.str "Using default surgical configuration"], setToSurgicalHeight]))),
    adjustTemperatureForProcedure]

/-- The engine string `procedureType` holds no NUL character, so
`std::string(procedureType.utf8().get_data())` is its text. -/
def startProcedure (procedureType : String) : Act Bed :=
  Act.ite (fun b => !b.isPoweredOn)
    (say [Arg.str "Cannot start procedure - bed is powered off"])
    (Act.seq [
      Act.when (fun b => !isSterileMode b)
        (say [Arg.str "⚠️  WARNING: Starting procedure without sterile mode!"]),
      modify (fun d => { d with procedureInProgress := true }),
      modify (fun d => { d with currentProcedure := procedureType }),
      say [Arg.str "🏥 Starting surgical procedure: ", Arg.str procedureType],
      validateProcedureRequirements procedureType,
      adjustForProcedure procedureType,
      onDevice ScannerDevice.startVitalMonitoring])

def endProcedure : Act Bed :=
  Act.ite (fun b => !isProcedureActive b)
    (say [Arg.str "No active procedure to end"])
    (Act.seq [
      Act.say (fun b => [Arg.str "✅ Ending surgical procedure: ",
        Arg.str (getCurrentProcedure b)]),
      modify (fun d => { d with procedureInProgress := false }),
      modify (fun d => { d with currentProcedure := "" }),
      onDevice ScannerDevice.stopVitalMonitoring,
      onDevice ScannerDevice.stopScan,
      Bed.setHeight 85,
      exitSterileMode])

def startFullBodyScan : Act Bed :=
  Act.seq [say [Arg.str "🔍 Initiating full body scan..."], onDevice ScannerDevice.startFullBodyScan]

def startBrainScan : Act Bed :=
  Act.seq [say [Arg.str "🧠 Initiating brain scan..."], onDevice ScannerDevice.startBrainScan]

def stopScanning : Act Bed := onDevice ScannerDevice.stopScan

def startVitalMonitoring : Act Bed := onDevice ScannerDevice.startVitalMonitoring

def stopVitalMonitoring : Act Bed := onDevice ScannerDevice.stopVitalMonitoring

def updatePatientVitals (r1 r2 r3 r4 r5 : Nat) : Act Bed :=
  onDevice (ScannerDevice.updateVitals r1 r2 r3 r4 r5)

def swivelDeviceLeft (angle : ℚ) : Act Bed := onDevice (ScannerDevice.swivelLeft angle)

def swivelDeviceRight (angle : ℚ) : Act Bed := onDevice (ScannerDevice.swivelRight angle)

def centerDevice : Act Bed :=
  Act.seq [onDevice ScannerDevice.centerDevice, say [Arg.str "Medical device centered for procedure"]]

def positionForPatientAccess : Act Bed :=
  Act.seq [
    say [Arg.str "🚶 Positioning for patient access..."],
    onDevice (ScannerDevice.swivelRight 90),
    Bed.setHeight 70]

def positionForProcedure : Act Bed :=
  Act.seq [say [Arg.str "🏥 Positioning for surgical procedure..."], centerDevice, setToSurgicalHeight]

def activateEmergencyProtocols : Act Bed :=
  Act.seq [
    say [Arg.str "🚨 Activating emergency protocols..."],
    positionForPatientAccess,
    onDevice ScannerDevice.startVitalMonitoring,
    Bed.onLight LightStrip.activateEmergencyMode,
    say [Arg.str "🚨 Emergency protocols active - all systems ready"]]

def triggerSurgicalEmergency : Act Bed :=
  Act.seq [
    say [Arg.str "🚨 SURGICAL EMERGENCY TRIGGERED!"],
    Bed.triggerEmergency,
    activateEmergencyProtocols]

def onScanCompleted (data : ScanData) : Act Bed :=
  Act.seq [
    say [Arg.str "📊 Scan completed on surgical bed: ", Arg.str data.scanType],
    say [Arg.str "📈 Scan quality: ", Arg.num (data.quality * 100), Arg.str "%"]]

def onVitalSignsUpdated (vitals : VitalSigns) : Act Bed :=
  Act.when isProcedureActive
    (Act.when (fun _ => decide (vitals.oxygenLevel < 95 ∨ vitals.heartRate > 110))
      (say [Arg.str "⚠️  ALERT: Vital signs require attention during procedure!"]))

def onDeviceError (error : String) : Act Bed :=
  Act.seq [
    say [Arg.str "❌ Medical device error on surgical bed: ", Arg.str error],
    Act.when isProcedureActive
      (say [Arg.str "🚨 Device error during procedure - consider emergency protocols"])]

/-- The hook `performSpecificChecks()`; the device pointer is never null. -/
def performSpecificChecks : Act Bed :=
  Act.seq [
    say [Arg.str "Checking surgical systems..."],
    say [Arg.str "Medical device: ", Arg.str "OK"],
    Act.say (fun b => [Arg.str "Sterile mode: ",
      Arg.str (if isSterileMode b then "ACTIVE" else "INACTIVE")]),
    Act.when isProcedureActive
      (Act.say (fun b => [Arg.str "Active procedure: ", Arg.str (getCurrentProcedure b)])),
    Act.say (fun b => [Arg.str "Positioning system: ",
      Arg.str (if isSurgicalPositioningValid b then "OK" else "ERROR")])]

def onPowerOn : Act Bed :=
  Act.seq [
    say [Arg.str "SurgicalBed advanced systems initializing..."],
    say [Arg.str "Medical scanner and monitoring system online"],
    Bed.setHeight 85,
    Bed.setTemperature Mode.NEUTRAL,
    centerDevice]

def onPowerOff : Act Bed :=
  Act.seq [
    say [Arg.str "SurgicalBed systems shutting down..."],
    Act.when isProcedureActive
      (Act.seq [say [Arg.str "⚠️  WARNING: Procedure in progress during shutdown!"], endProcedure]),
    onDevice ScannerDevice.stopVitalMonitoring,
    onDevice ScannerDevice.stopScan,
    exitSterileMode]

end SurgicalBed

/-! ### The virtual member functions of `Bed` and the functions calling them -/

namespace Bed

/-- The virtual hook `onPowerOn()`. -/
def onPowerOn : Act Bed := fun b =>
  match b.derived with
  | BedClass.TestBed => Act.skip b
  | BedClass.PatientBed _ => PatientBed.onPowerOn b
  | BedClass.SurgicalBed _ => SurgicalBed.onPowerOn b

/-- The virtual hook `onPowerOff()`. -/
def onPowerOff : Act Bed := fun b =>
  match b.derived with
  | BedClass.TestBed => Act.skip b
  | BedClass.PatientBed _ => PatientBed.onPowerOff b
  | BedClass.SurgicalBed _ => SurgicalBed.onPowerOff b

/-- The virtual hook `performSpecificChecks()`; `now` is the clock reading used
by the patient bed. -/
def performSpecificChecks (now : ℚ) : Act Bed := fun b =>
  match b.derived with
  | BedClass.TestBed => Act.skip b
  | BedClass.PatientBed _ => PatientBed.performSpecificChecks now b
  | BedClass.SurgicalBed _ => SurgicalBed.performSpecificChecks b

def powerOn : Act Bed :=
  Act.when (fun b => !b.isPoweredOn)
    (Act.seq [
      Act.modify (fun b => { b with isPoweredOn := true }),
      Act.say (fun b => [Arg.str b.getClassName, Arg.str " powered ON"]),
      onTemperature (StandardTemperatureControl.setTemperature Mode.NEUTRAL),
      onLight LightStrip.activate,
      onPowerOn])

def powerOff : Act Bed :=
  Act.when (fun b => b.isPoweredOn)
    (Act.seq [
      Act.modify (fun b => { b with isPoweredOn := false }),
      Act.say (fun b => [Arg.str b.getClassName, Arg.str " powered OFF"]),
      onLight LightStrip.deactivate,
      onPowerOff])

def performMaintenanceCheck (now : ℚ) : Act Bed :=
  Act.seq [
    Act.say (fun b => [Arg.str "Starting maintenance check for ", Arg.str b.getClassName]),
    checkPowerSystem,
    checkHeightMechanism,
    checkLightSystem,
    checkTemperatureSystem,
    performSpecificChecks now,
    Act.say (fun b => [Arg.str "Maintenance check completed for ", Arg.str b.getClassName])]

end Bed

/-! ### Calls on a bed -/

namespace Bed

def isPatientBed (b : Bed) : Bool :=
  match b.derived with
  | BedClass.PatientBed _ => true
  | _ => false

def isSurgicalBed (b : Bed) : Bool :=
  match b.derived with
  | BedClass.SurgicalBed _ => true
  | _ => false

/-- The public member functions of `Bed`, `PatientBed` and `SurgicalBed` as
calls, with the values the call reads from its environment (`now`: the clock,
`r1 … r5`: the results of `rand()`). -/
inductive Op where
  | powerOn
  | powerOff
  | raiseHeight (amount : ℚ)
  | lowerHeight (amount : ℚ)
  | setHeight (height : ℚ)
  | activateLights
  | deactivateLights
  | setLightBrightness (intensity : ℚ)
  | setLightColor (color : LightColor)
  | triggerEmergency
  | clearEmergency
  | setTemperature (mode : Mode)
  | setTemperatureInt (mode : Int)
  | onEmergencyActivated
  | onEmergencyDeactivated
  | performMaintenanceCheck (now : ℚ)
  | simulatePatientEntry (now : ℚ)
  | simulatePatientExit
  | enableComfortMode
  | disableComfortMode
  | onPatientEntered (now : ℚ)
  | onPatientLeft
  | enterSterileMode
  | exitSterileMode
  | startProcedure (procedureType : String)
  | endProcedure
  | startFullBodyScan
  | startBrainScan
  | stopScanning
  | startVitalMonitoring
  | stopVitalMonitoring
  | updatePatientVitals (r1 r2 r3 r4 r5 : Nat)
  | swivelDeviceLeft (angle : ℚ)
  | swivelDeviceRight (angle : ℚ)
  | centerDevice
  | positionForPatientAccess
  | positionForProcedure
  | setToSurgicalHeight
  | setToTransferHeight
  | triggerSurgicalEmergency
  | activateEmergencyProtocols
  | onScanCompleted (data : ScanData)
  | onVitalSignsUpdated (vitals : VitalSigns)
  | onDeviceError (error : String)
  deriving DecidableEq, Repr

/-- One call on a bed. A member function of `PatientBed` or `SurgicalBed` can
only be called on an object of that class; on any other object the call does
not exist and the step leaves the bed as it is. -/
def step : Op → Act Bed
  | Op.powerOn => powerOn
  | Op.powerOff => powerOff
  | Op.raiseHeight a => raiseHeight a
  | Op.lowerHeight a => lowerHeight a
  | Op.setHeight h => setHeight h
  | Op.activateLights => activateLights
  | Op.deactivateLights => deactivateLights
  | Op.setLightBrightness x => setLightBrightness x
  | Op.setLightColor c => setLightColor c
  | Op.triggerEmergency => triggerEmergency
  | Op.clearEmergency => clearEmergency
  | Op.setTemperature m => setTemperature m
  | Op.setTemperatureInt m => setTemperatureInt m
  | Op.onEmergencyActivated => onEmergencyActivated
  | Op.onEmergencyDeactivated => onEmergencyDeactivated
  | Op.performMaintenanceCheck now => performMaintenanceCheck now
  | Op.simulatePatientEntry now => Act.when isPatientBed (PatientBed.simulatePatientEntry now)
  | Op.simulatePatientExit => Act.when isPatientBed PatientBed.simulatePatientExit
  | Op.enableComfortMode => Act.when isPatientBed PatientBed.enableComfortMode
  | Op.disableComfortMode => Act.when isPatientBed PatientBed.disableComfortMode
  | Op.onPatientEntered now => Act.when isPatientBed (PatientBed.onPatientEntered now)
  | Op.onPatientLeft => Act.when isPatientBed PatientBed.onPatientLeft
  | Op.enterSterileMode => Act.when isSurgicalBed SurgicalBed.enterSterileMode
  | Op.exitSterileMode => Act.when isSurgicalBed SurgicalBed.exitSterileMode
  | Op.startProcedure p => Act.when isSurgicalBed (SurgicalBed.startProcedure p)
  | Op.endProcedure => Act.when isSurgicalBed SurgicalBed.endProcedure
  | Op.startFullBodyScan => Act.when isSurgicalBed SurgicalBed.startFullBodyScan
  | Op.startBrainScan => Act.when isSurgicalBed SurgicalBed.startBrainScan
  | Op.stopScanning => Act.when isSurgicalBed SurgicalBed.stopScanning
  | Op.startVitalMonitoring => Act.when isSurgicalBed SurgicalBed.startVitalMonitoring
  | Op.stopVitalMonitoring => Act.when isSurgicalBed SurgicalBed.stopVitalMonitoring
  | Op.updatePatientVitals r1 r2 r3 r4 r5 =>
      Act.when isSurgicalBed (SurgicalBed.updatePatientVitals r1 r2 r3 r4 r5)
  | Op.swivelDeviceLeft a => Act.when isSurgicalBed (SurgicalBed.swivelDeviceLeft a)
  | Op.swivelDeviceRight a => Act.when isSurgicalBed (SurgicalBed.swivelDeviceRight a)
  | Op.centerDevice => Act.when isSurgicalBed SurgicalBed.centerDevice
  | Op.positionForPatientAccess => Act.when isSurgicalBed SurgicalBed.positionForPatientAccess
  | Op.positionForProcedure => Act.when isSurgicalBed SurgicalBed.positionForProcedure
  | Op.setToSurgicalHeight => Act.when isSurgicalBed SurgicalBed.setToSurgicalHeight
  | Op.setToTransferHeight => Act.when isSurgicalBed SurgicalBed.setToTransferHeight
  | Op.triggerSurgicalEmergency => Act.when isSurgicalBed SurgicalBed.triggerSurgicalEmergency
  | Op.activateEmergencyProtocols => Act.when isSurgicalBed SurgicalBed.activateEmergencyProtocols
  | Op.onScanCompleted data => Act.when isSurgicalBed (SurgicalBed.onScanCompleted data)
  | Op.onVitalSignsUpdated v => Act.when isSurgicalBed (SurgicalBed.onVitalSignsUpdated v)
  | Op.onDeviceError e => Act.when isSurgicalBed (SurgicalBed.onDeviceError e)

/-- A sequence of calls on a bed. -/
def run (ops : List Op) : Act Bed := Act.seq (ops.map step)

end Bed

/-- The three kinds of bed object. -/
inductive BedKind where
  | base
  | patient
  | surgical
  deriving DecidableEq, Repr

namespace BedKind

/-- A newly constructed bed of the kind. -/
def construct : BedKind → Bed
  | base => Bed.new BedClass.TestBed
  | patient => PatientBed.new
  | surgical => SurgicalBed.new

/-- The lower height limit the constructor of the kind sets. -/
def lowest : BedKind → ℚ
  | base => 30
  | patient => 40
  | surgical => 60

/-- The upper height limit the constructor of the kind sets. -/
def highest : BedKind → ℚ
  | base => 100
  | patient => 90
  | surgical => 120

end BedKind

/-! ## bed_factory.h, bed_factory.cpp -/

/-- `std::tolower` in the default "C" locale. -/
def tolower (c : Char) : Char :=
  if 'A' ≤ c ∧ c ≤ 'Z' then Char.ofNat (c.toNat + 32) else c

/-- The `std::transform(..., tolower)` pass over a string. -/
def toLowerCase (s : String) : String := String.mk (s.data.map tolower)

/-- The text a `c_str()` pointer shows: the characters before the first NUL. -/
def cStr (s : String) : String := String.mk (s.data.takeWhile (fun c => c ≠ Char.ofNat 0))

/-- The prints of the constructor `PatientBed()`. -/
def PatientBed.newOutput : List Event :=
  [Event.print [Arg.str "PatientBed created with occupancy monitoring"]]

/-- The prints of the constructor `SurgicalBed()`, the constructor of its
scanner device included. -/
def SurgicalBed.newOutput : List Event :=
  [Event.print [Arg.str "🏥 Medical scanner device initialized"],
   Event.print [Arg.str "🏥 Surgical systems initialized"],
   Event.print [Arg.str "SurgicalBed created with advanced medical systems"]]

namespace BedFactory

/-- Enumeration `BedFactory::BedType`. -/
inductive BedType where
  | PATIENT
  | SURGICAL
  deriving DecidableEq, Repr

/-- The result is the `unique_ptr<Bed>` returned (`none` would be a null
pointer) and the output. -/
def createBed : BedType → Option Bed × List Event
  | BedType.PATIENT =>
      (some PatientBed.new, Event.print [Arg.str "🏥 Creating PatientBed"] :: PatientBed.newOutput)
  | BedType.SURGICAL =>
      (some SurgicalBed.new,
        Event.print [Arg.str "🏥 Creating SurgicalBed"] :: SurgicalBed.newOutput)

def stringToBedType (typeName : String) : BedType × List Event :=
  if toLowerCase typeName = "patient_bed" ∨ toLowerCase typeName = "patient"
      ∨ toLowerCase typeName = "patientbed" then
    (BedType.PATIENT, [])
  else if toLowerCase typeName = "surgical_bed" ∨ toLowerCase typeName = "surgical"
      ∨ toLowerCase typeName = "surgery" ∨ toLowerCase typeName = "surgicalbed" then
    (BedType.SURGICAL, [])
  else
    (BedType.PATIENT,
      [Event.print [Arg.str "⚠️  Unknown bed type: ", Arg.str (cStr typeName),
        Arg.str " - defaulting to PatientBed"]])

def createBedFromString (bedTypeName : String) : Option Bed × List Event :=
  ((createBed (stringToBedType bedTypeName).1).1,
    (stringToBedType bedTypeName).2 ++ (createBed (stringToBedType bedTypeName).1).2)

def getAvailableBedTypes : List String := ["patient_bed", "surgical_bed"]

end BedFactory

/-- The power state after a call, given the power state `pw` before it: only
`powerOn` and `powerOff` assign `isPoweredOn`. -/
def Bed.Op.powerAfter (pw : Bool) : Bed.Op → Bool
  | Bed.Op.powerOn => true
  | Bed.Op.powerOff => false
  | _ => pw

/-! ## Notions the properties are stated with -/

/-- The fixed Celsius value of a temperature mode as the specification gives
it: 18 for COLD, 22 for NEUTRAL, 26 for WARM. -/
def Mode.celsius : Mode → ℚ
  | Mode.COLD => 18
  | Mode.NEUTRAL => 22
  | Mode.WARM => 26

/-- A progress print of `Scanner::processScan`: a print whose first argument is
the text "Scan progress: ". -/
def Event.isScanProgress : Event → Bool
  | Event.print (Arg.str t :: _) => decide (t = "Scan progress: ")
  | _ => false

/-- The `ScanData` the specification describes for a scan type: the type's
name, the image text built from the name, quality 0.95, valid. -/
def ScanData.expected (t : ScanType) : ScanData :=
  { scanType := Scanner.getScanTypeName t,
    imageData := "scan_image_" ++ Scanner.getScanTypeName t ++ "_data",
    quality := 95 / 100, isValid := true }

namespace ScannerDevice

/-- The value `storedScans` holds for a key (`std::map::find`). -/
def storedScan (key : String) (d : ScannerDevice) : Option ScanData :=
  (d.storedScans.find? (fun e => decide (e.1 = key))).map (fun e => e.2)

/-- The public member functions of `ScannerDevice` as calls; `r1 … r5` are the
results of `rand()` during the call. -/
inductive Op where
  | startFullBodyScan
  | startBrainScan
  | stopScan
  | startVitalMonitoring
  | stopVitalMonitoring
  | updateVitals (r1 r2 r3 r4 r5 : Nat)
  | swivelLeft (angle : ℚ)
  | swivelRight (angle : ℚ)
  | centerDevice
  | onScanCompleted (data : ScanData)
  | onVitalSignsUpdated (vitals : VitalSigns)
  | onDeviceError (error : String)
  deriving DecidableEq, Repr

/-- One call on a device. -/
def step : Op → Act ScannerDevice
  | Op.startFullBodyScan => startFullBodyScan
  | Op.startBrainScan => startBrainScan
  | Op.stopScan => stopScan
  | Op.startVitalMonitoring => startVitalMonitoring
  | Op.stopVitalMonitoring => stopVitalMonitoring
  | Op.updateVitals r1 r2 r3 r4 r5 => updateVitals r1 r2 r3 r4 r5
  | Op.swivelLeft a => swivelLeft a
  | Op.swivelRight a => swivelRight a
  | Op.centerDevice => centerDevice
  | Op.onScanCompleted data => onScanCompleted data
  | Op.onVitalSignsUpdated v => onVitalSignsUpdated v
  | Op.onDeviceError e => onDeviceError e

/-- A sequence of calls on a device. -/
def run (ops : List Op) : Act ScannerDevice := Act.seq (ops.map step)

end ScannerDevice


/-- The temperature value of the bed is the Celsius value of its current mode. -/
def Bed.TemperatureConsistent (b : Bed) : Prop :=
  b.getTemperatureValue = b.getCurrentTemperature.celsius


/-! ## godot_bed_factory.h, godot_bed_factory.cpp -/

/-- Class `BedFactory` of `godot_bed_factory.h`, the factory node offered to
scripts. Its state is the list of beds it has added as children, in the order
of the `add_child` calls; the node name given by `set_name` is kept by the
engine and is not part of the state. -/
structure GodotBedFactory where
  children : List Bed

namespace GodotBedFactory

def PATIENT_BED_TYPE : Int := 0

def SURGICAL_BED_TYPE : Int := 1

/-- Constructor `BedFactory()`: the factory and the output. -/
def new : GodotBedFactory × List Event :=
  ({ children := [] }, [Event.print [Arg.str "🏭 BedFactory initialized"]])

/-- The result of `memnew(PatientBed)` after `set_name` (`none` would be a null
pointer; `memnew` does not return one) and the output of the constructor. -/
def createPatientBedInternal : Option Bed × List Event := (some PatientBed.new, PatientBed.newOutput)

/-- The result of `memnew(SurgicalBed)` after `set_name` and the output of the
constructor. -/
def createSurgicalBedInternal : Option Bed × List Event :=
  (some SurgicalBed.new, SurgicalBed.newOutput)

/-- The effect of `add_child(bed)` on the factory. -/
def add_child (bed : Bed) (f : GodotBedFactory) : GodotBedFactory :=
  { f with children := f.children ++ [bed] }

/-- The pointer returned, the factory after the call and the output. -/
def create_patient_bed (f : GodotBedFactory) : Option Bed × GodotBedFactory × List Event :=
  match createPatientBedInternal with
  | (some bed, out) =>
      (some bed, add_child bed f,
        Event.print [Arg.str "🛏️ Creating PatientBed via BedFactory"] :: out)
  | (none, out) => (none, f, Event.print [Arg.str "🛏️ Creating PatientBed via BedFactory"] :: out)

/-- The pointer returned, the factory after the call and the output. -/
def create_surgical_bed (f : GodotBedFactory) : Option Bed × GodotBedFactory × List Event :=
  match createSurgicalBedInternal with
  | (some bed, out) =>
      (some bed, add_child bed f,
        Event.print [Arg.str "🔬 Creating SurgicalBed via BedFactory"] :: out)
  | (none, out) => (none, f, Event.print [Arg.str "🔬 Creating SurgicalBed via BedFactory"] :: out)

/-- The `switch` of `create_bed_by_type` over the `int` argument. -/
def create_bed_by_type (bed_type : Int) (f : GodotBedFactory) :
    Option Bed × GodotBedFactory × List Event :=
  if bed_type = PATIENT_BED_TYPE then create_patient_bed f
  else if bed_type = SURGICAL_BED_TYPE then create_surgical_bed f
  else
    ((create_patient_bed f).1, (create_patient_bed f).2.1,
      Event.print [Arg.str "❌ Unknown bed type: ", Arg.int bed_type,
        Arg.str " - creating PatientBed as default"] :: (create_patient_bed f).2.2)

def get_available_bed_types : List String := ["Patient Bed", "Surgical Bed"]

def get_bed_type_name (bed_type : Int) : String :=
  if bed_type = PATIENT_BED_TYPE then "Patient Bed"
  else if bed_type = SURGICAL_BED_TYPE then "Surgical Bed"
  else "Unknown Bed Type"

end GodotBedFactory

/-! ## godot_light_strip.h, godot_light_strip.cpp -/

/-- Class `GodotLightStrip`: the wrapper node around a `LightStrip` (`none` is a
null `unique_ptr`). -/
structure GodotLightStrip where
  cpp_light_strip : Option LightStrip
  deriving DecidableEq, Repr

namespace GodotLightStrip

/-- Constructor `GodotLightStrip()`. -/
def new : GodotLightStrip := { cpp_light_strip := some LightStrip.new }

/-- The pattern `if (cpp_light_strip) { cpp_light_strip->f(...); print(...); }`. -/
def onStrip (f : Act LightStrip) (out : List Event) : Act GodotLightStrip := fun g =>
  match g.cpp_light_strip with
  | none => (g, [])
  | some s => ({ g with cpp_light_strip := some (f s).1 }, (f s).2 ++ out)

def activate : Act GodotLightStrip :=
  onStrip LightStrip.activate [Event.print [Arg.str "💡 LightStrip activated via C++ Strategy Pattern"]]

def deactivate : Act GodotLightStrip :=
  onStrip LightStrip.deactivate [Event.print [Arg.str "🔌 LightStrip deactivated"]]

def set_normal_behavior : Act GodotLightStrip :=
  onStrip (LightStrip.setBehavior (some LightBehavior.newNormal))
    [Event.print [Arg.str "🔆 LightStrip set to Normal Behavior"]]

def set_emergency_behavior : Act GodotLightStrip :=
  onStrip LightStrip.activateEmergencyMode
    [Event.print [Arg.str "🚨 LightStrip set to Emergency Behavior"]]

/-- The conditional expression that clamps the argument of `set_brightness`. -/
def clampBrightness (brightness : ℚ) : ℚ :=
  if brightness < 0 then 0 else if brightness > 1 then 1 else brightness

def set_brightness (brightness : ℚ) : Act GodotLightStrip :=
  onStrip (LightStrip.setBrightness (clampBrightness brightness))
    [Event.print [Arg.str "🔅 LightStrip brightness set to: ",
      Arg.num (clampBrightness brightness)]]

def is_active (g : GodotLightStrip) : Bool :=
  match g.cpp_light_strip with
  | some s => s.isEmergencyMode || true
  | none => false

def get_brightness (g : GodotLightStrip) : ℚ :=
  match g.cpp_light_strip with
  | some _ => 1
  | none => 0

def get_current_behavior (g : GodotLightStrip) : String :=
  match g.cpp_light_strip with
  | some s => cStr s.getCurrentMode
  | none => "None"

def get_current_mode (g : GodotLightStrip) : String := get_current_behavior g

/-- The function `set_behavior`; `to_lower` is the engine's `String::to_lower`,
whose definition is not part of the plugin. -/
def set_behavior (to_lower : String → String) (behavior_name : String) : Act GodotLightStrip :=
  fun g =>
    match g.cpp_light_strip with
    | none => (g, [])
    | some s =>
        if to_lower behavior_name = "emergency" then
          ({ g with cpp_light_strip := some (LightStrip.activateEmergencyMode s).1 },
            (LightStrip.activateEmergencyMode s).2
              ++ [Event.print [Arg.str "🚨 C++ Strategy: Emergency behavior activated"]])
        else if to_lower behavior_name = "auto" ∨ to_lower behavior_name = "normal"
            ∨ to_lower behavior_name = "manual" then
          ({ g with cpp_light_strip := some (LightStrip.deactivateEmergencyMode s).1 },
            (LightStrip.deactivateEmergencyMode s).2
              ++ [Event.print [Arg.str "🔆 C++ Strategy: Normal behavior activated (",
                    Arg.str behavior_name, Arg.str ")"]])
        else
          ({ g with cpp_light_strip := some (LightStrip.deactivateEmergencyMode s).1 },
            Event.print [Arg.str "⚠️ Unknown behavior: ", Arg.str behavior_name,
                Arg.str " - defaulting to normal"]
              :: (LightStrip.deactivateEmergencyMode s).2)

end GodotLightStrip

/-! ## window_controls: shade_state.h, curtain_state.h, opaque.cpp, transparent.cpp, closed_curtain.cpp, window.h, window.cpp -/

/-- The concrete classes deriving from `ShadeState`; they have no data members. -/
inductive ShadeState where
  | Opaque
  | Transparent
  deriving DecidableEq, Repr

/-- The virtual function `ShadeState::apply_shade`: the output of the override. -/
def ShadeState.apply_shade : ShadeState → List Event
  | ShadeState.Opaque => [Event.print [Arg.str "Window shade is now opaque"]]
  | ShadeState.Transparent => [Event.print [Arg.str "Window shade is now transparent"]]

/-- The concrete class deriving from `CurtainState`; it has no data members. -/
inductive CurtainState where
  | ClosedCurtain
  deriving DecidableEq, Repr

/-- The virtual function `CurtainState::operate_curtain`: the output of the
override. -/
def CurtainState.operate_curtain : CurtainState → List Event
  | CurtainState.ClosedCurtain => [Event.print [Arg.str "Curtain is now closed"]]

/-- Class `CustomWindow`: the two state pointers (`none` is `nullptr`). -/
structure CustomWindow where
  shade : Option ShadeState
  curtain : Option CurtainState
  deriving DecidableEq, Repr

namespace CustomWindow

/-- Constructor `CustomWindow()`: the window and the output. -/
def new : CustomWindow × List Event :=
  ({ shade := none, curtain := none }, [Event.print [Arg.str "CustomWindow created"]])

/-- The old state object is deleted and the pointer replaced. -/
def set_shade (s : Option ShadeState) : Act CustomWindow :=
  fun w => ({ w with shade := s }, [])

/-- The old state object is deleted and the pointer replaced. -/
def set_curtain (c : Option CurtainState) : Act CustomWindow :=
  fun w => ({ w with curtain := c }, [])

def apply_shade : Act CustomWindow := fun w =>
  match w.shade with
  | some s => (w, s.apply_shade)
  | none => (w, [Event.print [Arg.str "No shade state set"]])

def operate_curtain : Act CustomWindow := fun w =>
  match w.curtain with
  | some c => (w, c.operate_curtain)
  | none => (w, [Event.print [Arg.str "No curtain state set"]])

end CustomWindow

/-! ## tests/shared/mocks/bed_test_mock.h: the beds and the factory of the test harness -/

namespace BedTestMock

/-- The members `MockPatientBed` adds to `TestBed`. -/
structure MockPatientBedData where
  occupied : Bool
  comfort_mode : Bool
  vital_monitoring : Bool
  deriving DecidableEq, Repr

/-- The members `MockSurgicalBed` adds to `TestBed`; the two `time_t` members
are integers. -/
structure MockSurgicalBedData where
  sterile_mode : Bool
  procedure_active : Bool
  current_procedure : String
  scanning_active : Bool
  vital_monitoring : Bool
  device_centered : Bool
  surgical_emergency_active : Bool
  mouse_hovering : Bool
  collision_detected : Bool
  click_count : Int
  last_click_time : Int
  hover_start_time : Int
  hover_duration : ℚ
  current_highlight_color : String
  deriving DecidableEq, Repr

/-- The dynamic type of a mock bed with the members of the derived class. -/
inductive MockBedClass where
  | TestBed
  | MockPatientBed (d : MockPatientBedData)
  | MockSurgicalBed (d : MockSurgicalBedData)
  deriving DecidableEq, Repr

/-- Class `TestBed` of the mock header, with the `node_name` of `MockNode`. -/
structure TestBed where
  node_name : String
  currentHeight : ℚ
  minHeight : ℚ
  maxHeight : ℚ
  isPoweredOn : Bool
  checks_performed : Bool
  power_on_called : Bool
  power_off_called : Bool
  current_temperature_mode : Int
  emergency_active : Bool
  derived : MockBedClass
  deriving DecidableEq, Repr

namespace TestBed

def TEMPERATURE_NEUTRAL : Int := 1

/-- Constructor `TestBed()`: the default member initialisers. -/
def new (derived : MockBedClass) : TestBed :=
  { node_name := "", currentHeight := 60, minHeight := 40, maxHeight := 120, isPoweredOn := false,
    checks_performed := false, power_on_called := false, power_off_called := false,
    current_temperature_mode := TEMPERATURE_NEUTRAL, emergency_active := false,
    derived := derived }

/-- The virtual function `getClassName()` with its two overrides. -/
def getClassName (b : TestBed) : String :=
  match b.derived with
  | MockBedClass.TestBed => "TestBed"
  | MockBedClass.MockPatientBed _ => "PatientBed"
  | MockBedClass.MockSurgicalBed _ => "SurgicalBed"

end TestBed

/-- Constructor `MockPatientBed()`. -/
def MockPatientBed.new : TestBed :=
  { TestBed.new (MockBedClass.MockPatientBed
      { occupied := false, comfort_mode := false, vital_monitoring := false }) with
    currentHeight := 75, minHeight := 60, maxHeight := 90 }

/-- Constructor `MockSurgicalBed()`. -/
def MockSurgicalBed.new : TestBed :=
  { TestBed.new (MockBedClass.MockSurgicalBed
      { sterile_mode := false, procedure_active := false, current_procedure := "",
        scanning_active := false, vital_monitoring := false, device_centered := false,
        surgical_emergency_active := false, mouse_hovering := false,
        collision_detected := false, click_count := 0, last_click_time := 0,
        hover_start_time := 0, hover_duration := 0, current_highlight_color := "white" }) with
    currentHeight := 85, minHeight := 70, maxHeight := 120 }

namespace MockBedFactory

/-- Enumeration `MockBedFactory::BedType`. -/
inductive BedType where
  | PATIENT
  | SURGICAL
  deriving DecidableEq, Repr

/-- The `unique_ptr<TestBed>` returned (`none` is a null pointer); the
`default` label of the `switch` answers no enumerator. The mock prints nothing. -/
def createBed : BedType → Option TestBed
  | BedType.PATIENT => some MockPatientBed.new
  | BedType.SURGICAL => some MockSurgicalBed.new

def createBedFromString (bedTypeName : String) : Option TestBed :=
  if toLowerCase bedTypeName = "patient_bed" ∨ toLowerCase bedTypeName = "patient"
      ∨ toLowerCase bedTypeName = "patientbed" ∨ toLowerCase bedTypeName = "patient-bed" then
    createBed BedType.PATIENT
  else if toLowerCase bedTypeName = "surgical_bed" ∨ toLowerCase bedTypeName = "surgical"
      ∨ toLowerCase bedTypeName = "surgicalbed" ∨ toLowerCase bedTypeName = "surgical-bed"
      ∨ toLowerCase bedTypeName = "surgery" then
    createBed BedType.SURGICAL
  else
    none

def getAvailableBedTypes : List String := ["patient_bed", "surgical_bed"]

end MockBedFactory

end BedTestMock

namespace ScannerDevice

/-- The three calls that drive the vital-signs monitor of the device. -/
def Op.isVitalsCall : Op → Bool
  | Op.startVitalMonitoring => true
  | Op.stopVitalMonitoring => true
  | Op.updateVitals _ _ _ _ _ => true
  | _ => false

end ScannerDevice

namespace ScannerDevice

/-- The vitals the device has noted after an output event of its monitor is
delivered, `acc` being the vitals noted before: a vitals update addressed to the
device replaces them, every other event leaves them. -/
def noted (acc : VitalSigns) : Event → VitalSigns
  | Event.onVitalSignsUpdated i vitals => if i = self then vitals else acc
  | _ => acc

end ScannerDevice

/-- A property of the power state of a bed and its two surgical flags, the
sterile-mode flag and the procedure flag (both off on a bed that is not a
surgical bed). -/
def SurgicalBed.Flags (φ : Bool → Bool → Bool → Prop) (b : Bed) : Prop :=
  φ b.isPoweredOn (SurgicalBed.isSterileMode b) (SurgicalBed.isProcedureActive b)


/-- The vitals for which `checkCriticalVitals` takes none of its branches: oxygen
at least 90, heart rate within [50,120], temperature within [36,38.5]. -/
def VitalSigns.Calm (v : VitalSigns) : Prop :=
  90 ≤ v.oxygenLevel ∧ (50 ≤ v.heartRate ∧ v.heartRate ≤ 120)
    ∧ (36 ≤ v.temperature ∧ v.temperature ≤ 385 / 10)

namespace ScannerDevice

/-- The calls whose angle argument, if they have one, is not negative. -/
def Op.nonnegSwivel : Op → Bool
  | Op.swivelLeft a => decide (0 ≤ a)
  | Op.swivelRight a => decide (0 ≤ a)
  | _ => true

/-- The line printed by `Scanner::startScan` when it refuses a request. -/
def busyMessage : Event := Event.print [Arg.str "❌ Cannot start scan - scanner busy"]

/-- The four lines `checkCriticalVitals` can print. -/
def alerts : List Event :=
  [Event.print [Arg.str "🚨 CRITICAL: Low oxygen level!"],
   Event.print [Arg.str "🚨 CRITICAL: Abnormal heart rate!"],
   Event.print [Arg.str "⚠️  WARNING: Abnormal temperature!"],
   Event.print [Arg.str "🚨 CRITICAL STATUS: Patient requires immediate attention!"]]

end ScannerDevice

/-- What a powered-off bed keeps whatever is asked of it short of `powerOn`: it
stays off, with the height `h` and the temperature control `tc`. -/
def Bed.OffFrame (h : ℚ) (tc : StandardTemperatureControl) (b : Bed) : Prop :=
  b.isPoweredOn = false ∧ b.currentHeight = h ∧ b.temperatureControl = tc

/-- An emergency-activation callback. -/
def Event.isEmergencyActivated : Event → Bool
  | Event.onEmergencyActivated _ => true
  | _ => false

/-! ## Invariants of statements -/

/-- The statement `a` keeps the property `P` of the object. -/
class Act.Keeps {σ : Type} (P : σ → Prop) (a : Act σ) : Prop where
  keeps : ∀ s, P s → P (a s).1

/-- What no member function other than `powerOn` and `powerOff` changes about a
bed, and what height assignments respect: the power state is `pw`, the height
limits are `lo` and `hi`, and the height satisfies `T` or lies within the limits. -/
def Bed.Stable (pw : Bool) (lo hi : ℚ) (T : ℚ → Prop) (b : Bed) : Prop :=
  b.isPoweredOn = pw ∧ b.minHeight = lo ∧ b.maxHeight = hi
    ∧ (T b.currentHeight ∨ (lo ≤ b.currentHeight ∧ b.currentHeight ≤ hi))

/-- The kind of bed a dynamic type belongs to. -/
def BedClass.kind : BedClass → BedKind
  | BedClass.TestBed => BedKind.base
  | BedClass.PatientBed _ => BedKind.patient
  | BedClass.SurgicalBed _ => BedKind.surgical

/-- A call on the light strip that leaves the list of observers as it is. -/
class LightStrip.KeepsObservers (f : Act LightStrip) : Prop where
  observers : ∀ s : LightStrip, (f s).1.observers = s.observers

/-- A property of beds that survives every assignment to the members of the
base class made outside `powerOn` and `powerOff`: a new light strip state with
the same observers, a temperature set through the temperature control, and a
validated height. -/
class Bed.Robust (P : Bed → Prop) : Prop where
  light : ∀ (b : Bed) (ls : LightStrip), ls.observers = b.lightStrip.observers → P b →
    P { b with lightStrip := ls }
  temperature : ∀ (b : Bed) (m : Mode), P b →
    P { b with temperatureControl :=
      (StandardTemperatureControl.setTemperature m b.temperatureControl).1 }
  height : ∀ (b : Bed) (h : ℚ), b.validateHeightRange h = true → P b →
    P { b with currentHeight := h }

/-- A property of beds that does not depend on the values of the members of the
derived class (it may depend on which class it is). -/
class Bed.DerivedFree (P : Bed → Prop) : Prop where
  derived : ∀ (b : Bed) (d : BedClass), d.kind = b.derived.kind → P b → P { b with derived := d }

/-- A property of beds that does not depend on the state of the medical device
of a surgical bed (it may depend on the other members of the derived class). -/
class Bed.DeviceFree (P : Bed → Prop) : Prop where
  device : ∀ (b : Bed) (d : SurgicalBedData) (dev : ScannerDevice),
    b.derived = BedClass.SurgicalBed d → P b →
    P { b with derived := BedClass.SurgicalBed { d with medicalDevice := dev } }

/-! # Theorems -/

/-! ## Statements keeping a property -/

section KeepsInstances

variable {σ : Type} {P : σ → Prop}

instance keeps_skip : Act.Keeps P Act.skip := ⟨fun _ h => h⟩

instance keeps_say (args : List Arg) : Act.Keeps P (say args) := ⟨fun _ h => h⟩

instance keeps_saying (args : σ → List Arg) : Act.Keeps P (Act.say args) := ⟨fun _ h => h⟩

instance keeps_emit (out : σ → List Event) : Act.Keeps P (fun s => (s, out s)) :=
  ⟨fun _ h => h⟩

instance keeps_seq_nil : Act.Keeps P (Act.seq []) := ⟨fun _ h => h⟩

instance keeps_seq_cons (a : Act σ) (rest : List (Act σ)) [ha : Act.Keeps P a]
    [hr : Act.Keeps P (Act.seq rest)] : Act.Keeps P (Act.seq (a :: rest)) :=
  ⟨fun s h => hr.keeps _ (ha.keeps s h)⟩

instance keeps_ite (c : σ → Bool) (t e : Act σ) [ht : Act.Keeps P t] [he : Act.Keeps P e] :
    Act.Keeps P (Act.ite c t e) :=
  ⟨fun s h => by
    unfold Act.ite
    split
    · exact ht.keeps s h
    · exact he.keeps s h⟩

instance keeps_when (c : σ → Bool) (t : Act σ) [Act.Keeps P t] :
    Act.Keeps P (Act.when c t) := by
  unfold Act.when
  infer_instance

end KeepsInstances

section BedKeepsInstances

variable {P : Bed → Prop}

instance keeps_seq_map {σ α : Type} {P : σ → Prop} (f : α → Act σ) [hf : ∀ x, Act.Keeps P (f x)]
    (l : List α) : Act.Keeps P (Act.seq (l.map f)) := by
  induction l with
  | nil => exact keeps_seq_nil
  | cons x rest ih => exact @keeps_seq_cons _ _ (f x) (rest.map f) (hf x) ih

instance keeps_Bed_onEmergencyActivated {P : Bed → Prop} :
    Act.Keeps P Bed.onEmergencyActivated := by
  unfold Bed.onEmergencyActivated
  infer_instance

instance keeps_Bed_onEmergencyDeactivated {P : Bed → Prop} :
    Act.Keeps P Bed.onEmergencyDeactivated := by
  unfold Bed.onEmergencyDeactivated
  infer_instance

instance keeps_Bed_deliver {P : Bed → Prop} (e : Event) : Act.Keeps P (Bed.deliver e) := by
  cases e <;> unfold Bed.deliver <;> infer_instance

instance keepsObservers_activate : LightStrip.KeepsObservers LightStrip.activate :=
  ⟨fun s => by unfold LightStrip.activate LightStrip.onBehavior; cases h : s.lightBehavior <;> rfl⟩

instance keepsObservers_deactivate : LightStrip.KeepsObservers LightStrip.deactivate :=
  ⟨fun s => by
    unfold LightStrip.deactivate LightStrip.onBehavior; cases h : s.lightBehavior <;> rfl⟩

instance keepsObservers_setBrightness (intensity : ℚ) :
    LightStrip.KeepsObservers (LightStrip.setBrightness intensity) :=
  ⟨fun s => by
    unfold LightStrip.setBrightness LightStrip.onBehavior; cases h : s.lightBehavior <;> rfl⟩

instance keepsObservers_setColor (color : LightColor) :
    LightStrip.KeepsObservers (LightStrip.setColor color) :=
  ⟨fun s => by
    unfold LightStrip.setColor LightStrip.onBehavior; cases h : s.lightBehavior <;> rfl⟩

instance keepsObservers_activateEmergencyMode :
    LightStrip.KeepsObservers LightStrip.activateEmergencyMode :=
  ⟨fun _ => rfl⟩

instance keepsObservers_deactivateEmergencyMode :
    LightStrip.KeepsObservers LightStrip.deactivateEmergencyMode :=
  ⟨fun _ => rfl⟩

instance keeps_Bed_onLight [Bed.Robust P] (f : Act LightStrip) [LightStrip.KeepsObservers f] :
    Act.Keeps P (Bed.onLight f) :=
  ⟨fun b hb => (keeps_seq_map Bed.deliver _).keeps _
    (Bed.Robust.light b _ (LightStrip.KeepsObservers.observers b.lightStrip) hb)⟩

instance keeps_Bed_onTemperature [Bed.Robust P] (mode : Mode) :
    Act.Keeps P (Bed.onTemperature (StandardTemperatureControl.setTemperature mode)) :=
  ⟨fun b hb => Bed.Robust.temperature b mode hb⟩

instance keeps_PatientBed_modify [Bed.DerivedFree P] (f : PatientBedData → PatientBedData) :
    Act.Keeps P (PatientBed.modify f) :=
  ⟨fun b hb => by
    unfold PatientBed.modify Act.modify
    simp only []
    split
    · rename_i d hd
      exact Bed.DerivedFree.derived b _ (by rw [hd]; rfl) hb
    · exact hb⟩

instance keeps_SurgicalBed_modify [Bed.DerivedFree P] (f : SurgicalBedData → SurgicalBedData) :
    Act.Keeps P (SurgicalBed.modify f) :=
  ⟨fun b hb => by
    unfold SurgicalBed.modify Act.modify
    simp only []
    split
    · rename_i d hd
      exact Bed.DerivedFree.derived b _ (by rw [hd]; rfl) hb
    · exact hb⟩

instance deviceFree_of_derivedFree [Bed.DerivedFree P] : Bed.DeviceFree P :=
  ⟨fun b _ _ hd hb => Bed.DerivedFree.derived b _ (by rw [hd]; rfl) hb⟩

instance keeps_SurgicalBed_onDevice [Bed.DeviceFree P] (f : Act ScannerDevice) :
    Act.Keeps P (SurgicalBed.onDevice f) :=
  ⟨fun b hb => by
    unfold SurgicalBed.onDevice
    split
    · rename_i d hd
      exact Bed.DeviceFree.device b d _ hd hb
    · exact hb⟩

/-- An assignment of a validated height keeps the bed stable. -/
theorem Bed.stable_assign {pw : Bool} {lo hi : ℚ} {T : ℚ → Prop} {b : Bed}
    (hb : Bed.Stable pw lo hi T b) (height : ℚ)
    (hv : b.validateHeightRange height = true) :
    Bed.Stable pw lo hi T { b with currentHeight := height } := by
  obtain ⟨h1, h2, h3, _⟩ := hb
  simp only [Bed.validateHeightRange, Bool.and_eq_true, decide_eq_true_eq, h2, h3] at hv
  exact ⟨h1, h2, h3, Or.inr ⟨hv.1, hv.2⟩⟩

instance robust_Stable {pw : Bool} {lo hi : ℚ} {T : ℚ → Prop} :
    Bed.Robust (Bed.Stable pw lo hi T) where
  light := fun _ _ _ hb => hb
  temperature := fun _ _ hb => hb
  height := fun _ h hv hb => Bed.stable_assign hb h hv

instance derivedFree_Stable {pw : Bool} {lo hi : ℚ} {T : ℚ → Prop} :
    Bed.DerivedFree (Bed.Stable pw lo hi T) where
  derived := fun _ _ _ hb => hb

instance keeps_Bed_setHeight [Bed.Robust P] (height : ℚ) : Act.Keeps P (Bed.setHeight height) :=
  ⟨fun b hb => by
    unfold Bed.setHeight Act.ite
    split
    · exact hb
    · split
      · rename_i hv
        exact Bed.Robust.height b height hv hb
      · exact hb⟩

instance keeps_Bed_raiseHeight [Bed.Robust P] (amount : ℚ) : Act.Keeps P (Bed.raiseHeight amount) :=
  ⟨fun b hb => by
    unfold Bed.raiseHeight Act.ite
    split
    · exact hb
    · split
      · rename_i hv
        exact Bed.Robust.height b _ hv hb
      · exact hb⟩

instance keeps_Bed_lowerHeight [Bed.Robust P] (amount : ℚ) : Act.Keeps P (Bed.lowerHeight amount) :=
  ⟨fun b hb => by
    unfold Bed.lowerHeight Act.ite
    split
    · exact hb
    · split
      · rename_i hv
        exact Bed.Robust.height b _ hv hb
      · exact hb⟩

end BedKeepsInstances

section ActLemmas

variable {σ : Type}

theorem Act.seq_nil (s : σ) : Act.seq ([] : List (Act σ)) s = (s, []) := rfl

theorem Act.seq_cons (a : Act σ) (rest : List (Act σ)) (s : σ) :
    Act.seq (a :: rest) s = ((Act.seq rest (a s).1).1, (a s).2 ++ (Act.seq rest (a s).1).2) := rfl

theorem Act.seq_append (xs ys : List (Act σ)) (s : σ) :
    Act.seq (xs ++ ys) s
      = ((Act.seq ys (Act.seq xs s).1).1, (Act.seq xs s).2 ++ (Act.seq ys (Act.seq xs s).1).2) := by
  induction xs generalizing s with
  | nil => simp [Act.seq_nil]
  | cons a rest ih => simp [Act.seq_cons, ih, List.append_assoc]

theorem Act.seq_nil_state (s : σ) : (Act.seq ([] : List (Act σ)) s).1 = s := rfl

theorem Act.seq_cons_state (a : Act σ) (rest : List (Act σ)) (s : σ) :
    (Act.seq (a :: rest) s).1 = (Act.seq rest (a s).1).1 := rfl

theorem when_say_state (c : σ → Bool) (args : List Arg) (s : σ) :
    (Act.when c (say args) s).1 = s := by
  unfold Act.when Act.ite
  split <;> rfl

theorem say_state (args : List Arg) (s : σ) : (say args s).1 = s := rfl

theorem Act.saying_state (args : σ → List Arg) (s : σ) : (Act.say args s).1 = s := rfl

theorem Act.modify_state (f : σ → σ) (s : σ) : (Act.modify f s).1 = f s := rfl

/-- A property of the state kept by every statement is kept by the sequence. -/
theorem Act.seq_preserves (P : σ → Prop) (as : List (Act σ))
    (h : ∀ a ∈ as, ∀ s, P s → P (a s).1) (s : σ) (hs : P s) : P (Act.seq as s).1 := by
  induction as generalizing s with
  | nil => simpa [Act.seq_nil] using hs
  | cons a rest ih =>
    rw [Act.seq_cons]
    exact ih (fun b hb => h b (List.mem_cons_of_mem _ hb)) _ (h a (List.mem_cons_self _ _) s hs)

end ActLemmas

namespace LightStrip

theorem run_nil (s : LightStrip) : run [] s = (s, []) := rfl

theorem run_cons (op : Op) (ops : List Op) (s : LightStrip) :
    run (op :: ops) s
      = ((run ops (step op s).1).1, (step op s).2 ++ (run ops (step op s).1).2) := rfl

theorem run_append (xs ys : List Op) (s : LightStrip) :
    run (xs ++ ys) s = ((run ys (run xs s).1).1, (run xs s).2 ++ (run ys (run xs s).1).2) := by
  simp [run, List.map_append, Act.seq_append]

theorem isEmergencyMode_onBehavior (f : Act LightBehavior)
    (hf : ∀ b, (f b).1.isEmergencyMode = b.isEmergencyMode) (s : LightStrip) :
    (onBehavior f s).1.isEmergencyMode = s.isEmergencyMode := by
  unfold onBehavior isEmergencyMode
  cases h : s.lightBehavior with
  | none => simp [h]
  | some b => simp [hf]

theorem isEmergencyMode_step_of_keepsMode (op : Op) (h : op.keepsMode = true) (s : LightStrip) :
    (step op s).1.isEmergencyMode = s.isEmergencyMode := by
  cases op <;> simp [Op.keepsMode] at h
  · exact isEmergencyMode_onBehavior _ (fun b => by cases b <;> rfl) s
  · exact isEmergencyMode_onBehavior _ (fun b => by cases b <;> rfl) s
  · exact isEmergencyMode_onBehavior _ (fun b => by cases b <;> rfl) s
  · exact isEmergencyMode_onBehavior _ (fun b => by cases b <;> rfl) s
  · rfl
  · rfl

theorem isEmergencyMode_activateEmergencyMode (s : LightStrip) :
    (activateEmergencyMode s).1.isEmergencyMode = true := rfl

/-- C4. After `activateEmergencyMode()` the strip reports emergency mode, it
keeps reporting it through any sequence of `activate`, `deactivate`,
`setBrightness`, `setColor`, `addObserver` and `removeObserver` calls, and a
single call can end emergency mode only if it is `deactivateEmergencyMode()` or
a `setBehavior` whose argument is not an emergency behaviour. -/
theorem emergency_mode_until_deactivated (s : LightStrip) (ops : List Op)
    (hops : ∀ op ∈ ops, op.keepsMode = true) :
    (activateEmergencyMode s).1.isEmergencyMode = true
    ∧ (run ops (activateEmergencyMode s).1).1.isEmergencyMode = true
    ∧ ∀ (t : LightStrip) (op : Op), t.isEmergencyMode = true →
        (step op t).1.isEmergencyMode = false →
        op = Op.deactivateEmergencyMode
        ∨ ∃ b, op = Op.setBehavior b ∧ (b = none ∨ ∃ x, b = some x ∧ x.isEmergencyMode = false) := by
  refine ⟨rfl, ?_, ?_⟩
  · have key : ∀ (l : List Op) (t : LightStrip), (∀ op ∈ l, op.keepsMode = true) →
        (run l t).1.isEmergencyMode = t.isEmergencyMode := by
      intro l
      induction l with
      | nil => intro t _; rfl
      | cons op rest ih =>
        intro t hl
        rw [run_cons]
        simp only []
        rw [ih _ (fun o ho => hl o (List.mem_cons_of_mem _ ho)),
          isEmergencyMode_step_of_keepsMode op (hl op (List.mem_cons_self _ _))]
    rw [key ops _ hops]
    rfl
  · intro t op ht hstep
    by_cases hk : op.keepsMode = true
    · rw [isEmergencyMode_step_of_keepsMode op hk, ht] at hstep
      exact absurd hstep (by decide)
    · cases op <;> simp [Op.keepsMode] at hk
      · rename_i b
        right
        refine ⟨b, rfl, ?_⟩
        cases b with
        | none => exact Or.inl rfl
        | some x => exact Or.inr ⟨x, rfl, hstep⟩
      · exact absurd hstep (by simp [step, isEmergencyMode_activateEmergencyMode])
      · exact Or.inl rfl

theorem emergency_mode_until_deactivated_witness :
    (run [Op.deactivate, Op.setBrightness (1/4), Op.setColor ⟨0, 0, 255⟩, Op.addObserver (some 1),
        Op.removeObserver (some 1), Op.activate]
      (activateEmergencyMode LightStrip.new).1).1.isEmergencyMode = true :=
  (emergency_mode_until_deactivated LightStrip.new
    [Op.deactivate, Op.setBrightness (1/4), Op.setColor ⟨0, 0, 255⟩, Op.addObserver (some 1),
      Op.removeObserver (some 1), Op.activate] (by decide)).2.1

theorem observers_onBehavior (f : Act LightBehavior) (s : LightStrip) :
    (onBehavior f s).1.observers = s.observers := by
  unfold onBehavior
  cases h : s.lightBehavior <;> simp [h]

theorem observers_activateEmergencyMode (s : LightStrip) :
    (activateEmergencyMode s).1.observers = s.observers := rfl

theorem observers_deactivateEmergencyMode (s : LightStrip) :
    (deactivateEmergencyMode s).1.observers = s.observers := rfl

/-- The observer list after a history of calls is what the history says is
currently registered: the survivors of the initial list followed by the
registrations not removed since. -/
theorem observers_run (ops : List Op) (s : LightStrip) :
    (run ops s).1.observers
      = s.observers.filter (fun o => decide (Op.removeObserver o ∉ ops)) ++ registeredAfter ops := by
  induction ops generalizing s with
  | nil => simp [run_nil, registeredAfter]
  | cons op rest ih =>
    rw [run_cons]
    simp only []
    rw [ih]
    cases op with
    | addObserver o =>
      by_cases h : Op.removeObserver o ∈ rest
      · simp [step, addObserver, registeredAfter, h, List.filter_append]
      · simp [step, addObserver, registeredAfter, h, List.filter_append]
    | removeObserver o =>
      simp only [step, removeObserver, registeredAfter, List.filter_filter]
      congr 1
      apply List.filter_congr
      intro x _
      by_cases hx : x = o <;> simp [hx]
    | setBehavior b => simp [step, setBehavior, registeredAfter]
    | activate => simp [step, activate, observers_onBehavior, registeredAfter]
    | deactivate => simp [step, deactivate, observers_onBehavior, registeredAfter]
    | setBrightness x => simp [step, setBrightness, observers_onBehavior, registeredAfter]
    | setColor c => simp [step, setColor, observers_onBehavior, registeredAfter]
    | activateEmergencyMode => simp [step, observers_activateEmergencyMode, registeredAfter]
    | deactivateEmergencyMode => simp [step, observers_deactivateEmergencyMode, registeredAfter]

/-- The effect of `activateEmergencyMode()` in closed form. -/
theorem activateEmergencyMode_eq (s : LightStrip) :
    activateEmergencyMode s
      = ({ lightBehavior := some (LightBehavior.EmergencyLightBehavior true true),
           observers := s.observers },
         Event.print [Arg.str "🚨 EMERGENCY LIGHTS ACTIVATED - RED BLINKING!"]
           :: s.observers.filterMap (fun o => o.map Event.onEmergencyActivated)) := by
  simp [activateEmergencyMode, Act.seq, setBehavior, activate, onBehavior,
    notifyEmergencyActivated, LightBehavior.newEmergency, LightBehavior.activate]

/-- The effect of `deactivateEmergencyMode()` in closed form. -/
theorem deactivateEmergencyMode_eq (s : LightStrip) :
    deactivateEmergencyMode s
      = ({ lightBehavior := some LightBehavior.newNormal, observers := s.observers },
         s.observers.filterMap (fun o => o.map Event.onEmergencyDeactivated)) := by
  simp [deactivateEmergencyMode, Act.seq, setBehavior, notifyEmergencyDeactivated]

/-- Each non-null entry of an observer list yields one callback, so the number
of callbacks an observer receives is the number of its entries. -/
theorem count_callbacks (f : Nat → Event) (hf : Function.Injective f) (l : List (Option Nat))
    (i : Nat) : (l.filterMap (fun o => o.map f)).count (f i) = l.count (some i) := by
  induction l with
  | nil => rfl
  | cons o rest ih =>
    cases o with
    | none => simpa [List.filterMap_cons, List.count_cons] using ih
    | some j =>
      by_cases hji : j = i
      · subst hji
        simp [List.filterMap_cons, List.count_cons, ih]
      · have hne : f j ≠ f i := fun h => hji (hf h)
        simp [List.filterMap_cons, List.count_cons, ih, hne, hji]

/-- C9. After any history of calls on a new strip, `activateEmergencyMode()`
installs the (activated) emergency behaviour and calls `onEmergencyActivated`
on exactly the observers registered by `addObserver` and not removed since, in
registration order and once per registration, an observer registered twice
being called twice; `deactivateEmergencyMode()` installs a fresh normal
behaviour and does the same with `onEmergencyDeactivated`. -/
theorem emergency_notifies_registered_observers (ops : List Op) :
    (activateEmergencyMode (run ops LightStrip.new).1).1
        = { lightBehavior := some (LightBehavior.EmergencyLightBehavior true true),
            observers := registeredAfter ops }
    ∧ (activateEmergencyMode (run ops LightStrip.new).1).2
        = Event.print [Arg.str "🚨 EMERGENCY LIGHTS ACTIVATED - RED BLINKING!"]
            :: (registeredAfter ops).filterMap (fun o => o.map Event.onEmergencyActivated)
    ∧ (deactivateEmergencyMode (run ops LightStrip.new).1).1
        = { lightBehavior := some LightBehavior.newNormal, observers := registeredAfter ops }
    ∧ (deactivateEmergencyMode (run ops LightStrip.new).1).2
        = (registeredAfter ops).filterMap (fun o => o.map Event.onEmergencyDeactivated)
    ∧ (∀ i : Nat, (activateEmergencyMode (run ops LightStrip.new).1).2.count
          (Event.onEmergencyActivated i) = (registeredAfter ops).count (some i))
    ∧ (∀ i : Nat, (deactivateEmergencyMode (run ops LightStrip.new).1).2.count
          (Event.onEmergencyDeactivated i) = (registeredAfter ops).count (some i)) := by
  have hobs : (run ops LightStrip.new).1.observers = registeredAfter ops := by
    rw [observers_run]; simp [LightStrip.new]
  have hact : (activateEmergencyMode (run ops LightStrip.new).1).2
      = Event.print [Arg.str "🚨 EMERGENCY LIGHTS ACTIVATED - RED BLINKING!"]
          :: (registeredAfter ops).filterMap (fun o => o.map Event.onEmergencyActivated) := by
    rw [activateEmergencyMode_eq, hobs]
  have hdeact : (deactivateEmergencyMode (run ops LightStrip.new).1).2
      = (registeredAfter ops).filterMap (fun o => o.map Event.onEmergencyDeactivated) := by
    rw [deactivateEmergencyMode_eq, hobs]
  refine ⟨?_, hact, ?_, hdeact, ?_, ?_⟩
  · rw [activateEmergencyMode_eq, hobs]
  · rw [deactivateEmergencyMode_eq, hobs]
  · intro i
    rw [hact, List.count_cons]
    simp only [beq_iff_eq, reduceCtorEq, if_false, Nat.add_zero]
    exact count_callbacks Event.onEmergencyActivated (fun a b h => by injection h) _ i
  · intro i
    rw [hdeact]
    exact count_callbacks Event.onEmergencyDeactivated (fun a b h => by injection h) _ i

/-- C10. `setBehavior(b)` replaces the behaviour whatever the strip held
before: afterwards `isEmergencyMode()` is that of `b` and `getCurrentMode()` is
the behaviour type of `b`, which is "Normal" or "Emergency"; the result does
not depend on the previous behaviour; with no behaviour set the strip reports
no emergency and the mode "None". -/
theorem setBehavior_unconditional_replacement (s : LightStrip) (b : LightBehavior) :
    (setBehavior (some b) s).1.isEmergencyMode = b.isEmergencyMode
    ∧ (setBehavior (some b) s).1.getCurrentMode = b.getBehaviorType
    ∧ (b.getBehaviorType = "Normal" ∨ b.getBehaviorType = "Emergency")
    ∧ (b.isEmergencyMode = true ↔ b.getBehaviorType = "Emergency")
    ∧ (∀ t : LightStrip,
        (setBehavior (some b) t).1.lightBehavior = (setBehavior (some b) s).1.lightBehavior)
    ∧ (setBehavior (some b) s).1.observers = s.observers
    ∧ (setBehavior none s).1.isEmergencyMode = false
    ∧ (setBehavior none s).1.getCurrentMode = "None" := by
  refine ⟨rfl, rfl, ?_, ?_, fun _ => rfl, rfl, rfl, rfl⟩
  · cases b <;> simp [LightBehavior.getBehaviorType]
  · cases b <;> simp [LightBehavior.getBehaviorType, LightBehavior.isEmergencyMode]

end LightStrip

/-- The clamp `std::max(lo, std::min(hi, x))` lands in `[lo, hi]`. -/
theorem clamp_bounds (lo hi x : ℚ) (h : lo ≤ hi) :
    lo ≤ stdMax lo (stdMin hi x) ∧ stdMax lo (stdMin hi x) ≤ hi := by
  unfold stdMax stdMin
  constructor
  · split_ifs <;> linarith
  · split_ifs <;> linarith

namespace VitalSignMonitor

theorem perturb_inRange (r1 r2 r3 r4 r5 : Nat) (v : VitalSigns) :
    (perturb r1 r2 r3 r4 r5 v).InRange := by
  unfold VitalSigns.InRange perturb
  exact ⟨clamp_bounds _ _ _ (by norm_num), clamp_bounds _ _ _ (by norm_num),
    clamp_bounds _ _ _ (by norm_num), clamp_bounds _ _ _ (by norm_num),
    clamp_bounds _ _ _ (by norm_num)⟩

theorem currentVitals_updateVitalSigns (m : VitalSignMonitor) :
    (updateVitalSigns m).1 = m := rfl

theorem step_inRange (op : Op) (m : VitalSignMonitor) (h : m.currentVitals.InRange) :
    (step op m).1.currentVitals.InRange := by
  cases op with
  | startMonitoring =>
    simp only [step, startMonitoring, Act.when, Act.ite]
    split
    · exact h
    · exact h
  | stopMonitoring =>
    simp only [step, stopMonitoring, Act.when, Act.ite]
    split
    · exact h
    · exact h
  | simulateVitalSigns r1 r2 r3 r4 r5 =>
    simp only [step, simulateVitalSigns, Act.ite]
    split
    · exact h
    · exact perturb_inRange r1 r2 r3 r4 r5 _
  | addObserver o => exact h
  | removeObserver o => exact h

/-- C7. After any sequence of `startMonitoring`, `stopMonitoring` and
`simulateVitalSigns` calls on a new monitor (observer registrations included),
whatever values `rand()` returned, `getCurrentVitals()` has heart rate in
[60,100], oxygen level in [95,100], temperature in [36.5,37.5], blood pressure
in [110,140] and respiration rate in [12,20]. -/
theorem vitals_always_in_range (ops : List Op) :
    (60 ≤ (run ops VitalSignMonitor.new).1.getCurrentVitals.heartRate
      ∧ (run ops VitalSignMonitor.new).1.getCurrentVitals.heartRate ≤ 100)
    ∧ (95 ≤ (run ops VitalSignMonitor.new).1.getCurrentVitals.oxygenLevel
      ∧ (run ops VitalSignMonitor.new).1.getCurrentVitals.oxygenLevel ≤ 100)
    ∧ (365 / 10 ≤ (run ops VitalSignMonitor.new).1.getCurrentVitals.temperature
      ∧ (run ops VitalSignMonitor.new).1.getCurrentVitals.temperature ≤ 375 / 10)
    ∧ (110 ≤ (run ops VitalSignMonitor.new).1.getCurrentVitals.bloodPressure
      ∧ (run ops VitalSignMonitor.new).1.getCurrentVitals.bloodPressure ≤ 140)
    ∧ (12 ≤ (run ops VitalSignMonitor.new).1.getCurrentVitals.respirationRate
      ∧ (run ops VitalSignMonitor.new).1.getCurrentVitals.respirationRate ≤ 20) := by
  have h : (run ops VitalSignMonitor.new).1.currentVitals.InRange := by
    apply Act.seq_preserves (fun m : VitalSignMonitor => m.currentVitals.InRange)
    · intro a ha s hs
      obtain ⟨op, _, rfl⟩ := List.mem_map.mp ha
      exact step_inRange op s hs
    · simp only [VitalSignMonitor.new, VitalSigns.new, VitalSigns.InRange]
      norm_num
  exact h

end VitalSignMonitor

/-! ## The member functions of the beds keep the power state and the height limits -/

section BedPrintInstances

variable {P : Bed → Prop}

instance keeps_PatientBed_performSpecificChecks (now : ℚ) :
    Act.Keeps P (PatientBed.performSpecificChecks now) := by
  unfold PatientBed.performSpecificChecks; infer_instance

instance keeps_SurgicalBed_onScanCompleted (data : ScanData) :
    Act.Keeps P (SurgicalBed.onScanCompleted data) := by
  unfold SurgicalBed.onScanCompleted; infer_instance

instance keeps_SurgicalBed_onVitalSignsUpdated (vitals : VitalSigns) :
    Act.Keeps P (SurgicalBed.onVitalSignsUpdated vitals) := by
  unfold SurgicalBed.onVitalSignsUpdated; infer_instance

instance keeps_SurgicalBed_onDeviceError (error : String) :
    Act.Keeps P (SurgicalBed.onDeviceError error) := by
  unfold SurgicalBed.onDeviceError; infer_instance

instance keeps_SurgicalBed_performSpecificChecks :
    Act.Keeps P SurgicalBed.performSpecificChecks := by
  unfold SurgicalBed.performSpecificChecks; infer_instance

instance keeps_Bed_performSpecificChecks (now : ℚ) :
    Act.Keeps P (Bed.performSpecificChecks now) :=
  ⟨fun b hb => by
    unfold Bed.performSpecificChecks
    split
    · exact hb
    · exact (keeps_PatientBed_performSpecificChecks now).keeps b hb
    · exact keeps_SurgicalBed_performSpecificChecks.keeps b hb⟩

instance keeps_Bed_performMaintenanceCheck (now : ℚ) :
    Act.Keeps P (Bed.performMaintenanceCheck now) := by
  unfold Bed.performMaintenanceCheck Bed.checkPowerSystem Bed.checkHeightMechanism
    Bed.checkLightSystem Bed.checkTemperatureSystem
  infer_instance

end BedPrintInstances

section BedBaseInstances

variable {P : Bed → Prop} [Bed.Robust P]

instance keeps_Bed_setTemperature (mode : Mode) :
    Act.Keeps P (Bed.setTemperature mode) := by
  unfold Bed.setTemperature; infer_instance

instance keeps_PatientBed_adjustForPatientComfort :
    Act.Keeps P PatientBed.adjustForPatientComfort := by
  unfold PatientBed.adjustForPatientComfort; infer_instance

instance keeps_PatientBed_resetToDefaultSettings :
    Act.Keeps P PatientBed.resetToDefaultSettings := by
  unfold PatientBed.resetToDefaultSettings; infer_instance

instance keeps_PatientBed_onPatientLeft :
    Act.Keeps P PatientBed.onPatientLeft := by
  unfold PatientBed.onPatientLeft; infer_instance

instance keeps_PatientBed_onPowerOn :
    Act.Keeps P PatientBed.onPowerOn := by
  unfold PatientBed.onPowerOn; infer_instance

instance keeps_SurgicalBed_setupSterileEnvironment :
    Act.Keeps P SurgicalBed.setupSterileEnvironment := by
  unfold SurgicalBed.setupSterileEnvironment; infer_instance

instance keeps_SurgicalBed_setToSurgicalHeight :
    Act.Keeps P SurgicalBed.setToSurgicalHeight := by
  unfold SurgicalBed.setToSurgicalHeight; infer_instance

instance keeps_SurgicalBed_setToTransferHeight :
    Act.Keeps P SurgicalBed.setToTransferHeight := by
  unfold SurgicalBed.setToTransferHeight; infer_instance

instance keeps_SurgicalBed_adjustLightingForProcedure :
    Act.Keeps P SurgicalBed.adjustLightingForProcedure := by
  unfold SurgicalBed.adjustLightingForProcedure; infer_instance

instance keeps_SurgicalBed_adjustTemperatureForProcedure :
    Act.Keeps P SurgicalBed.adjustTemperatureForProcedure := by
  unfold SurgicalBed.adjustTemperatureForProcedure; infer_instance

instance keeps_SurgicalBed_validateProcedureRequirements (p : String) :
    Act.Keeps P (SurgicalBed.validateProcedureRequirements p) := by
  unfold SurgicalBed.validateProcedureRequirements; infer_instance

instance keeps_SurgicalBed_adjustForProcedure (p : String) :
    Act.Keeps P (SurgicalBed.adjustForProcedure p) := by
  unfold SurgicalBed.adjustForProcedure; infer_instance

instance keeps_Bed_triggerEmergency :
    Act.Keeps P Bed.triggerEmergency := by
  unfold Bed.triggerEmergency; infer_instance

instance keeps_Bed_clearEmergency :
    Act.Keeps P Bed.clearEmergency := by
  unfold Bed.clearEmergency; infer_instance

theorem keeps_Bed_lights :
    Act.Keeps P Bed.activateLights
    ∧ Act.Keeps P Bed.deactivateLights
    ∧ (∀ x, Act.Keeps P (Bed.setLightBrightness x))
    ∧ (∀ c, Act.Keeps P (Bed.setLightColor c))
    ∧ (∀ m, Act.Keeps P (Bed.setTemperatureInt m)) := by
  unfold Bed.activateLights Bed.deactivateLights Bed.setLightBrightness Bed.setLightColor
    Bed.setTemperatureInt
  exact ⟨inferInstance, inferInstance, fun _ => inferInstance, fun _ => inferInstance,
    fun _ => inferInstance⟩

end BedBaseInstances

section BedDeviceInstances

variable {P : Bed → Prop} [Bed.Robust P] [Bed.DeviceFree P]

instance keeps_SurgicalBed_startFullBodyScan :
    Act.Keeps P SurgicalBed.startFullBodyScan := by
  unfold SurgicalBed.startFullBodyScan; infer_instance

instance keeps_SurgicalBed_startBrainScan :
    Act.Keeps P SurgicalBed.startBrainScan := by
  unfold SurgicalBed.startBrainScan; infer_instance

instance keeps_SurgicalBed_stopScanning :
    Act.Keeps P SurgicalBed.stopScanning := by
  unfold SurgicalBed.stopScanning; infer_instance

instance keeps_SurgicalBed_startVitalMonitoring :
    Act.Keeps P SurgicalBed.startVitalMonitoring := by
  unfold SurgicalBed.startVitalMonitoring; infer_instance

instance keeps_SurgicalBed_stopVitalMonitoring :
    Act.Keeps P SurgicalBed.stopVitalMonitoring := by
  unfold SurgicalBed.stopVitalMonitoring; infer_instance

instance keeps_SurgicalBed_updatePatientVitals (r1 r2 r3 r4 r5 : Nat) :
    Act.Keeps P (SurgicalBed.updatePatientVitals r1 r2 r3 r4 r5) := by
  unfold SurgicalBed.updatePatientVitals; infer_instance

instance keeps_SurgicalBed_swivelDeviceLeft (angle : ℚ) :
    Act.Keeps P (SurgicalBed.swivelDeviceLeft angle) := by
  unfold SurgicalBed.swivelDeviceLeft; infer_instance

instance keeps_SurgicalBed_swivelDeviceRight (angle : ℚ) :
    Act.Keeps P (SurgicalBed.swivelDeviceRight angle) := by
  unfold SurgicalBed.swivelDeviceRight; infer_instance

instance keeps_SurgicalBed_centerDevice :
    Act.Keeps P SurgicalBed.centerDevice := by
  unfold SurgicalBed.centerDevice; infer_instance

instance keeps_SurgicalBed_positionForPatientAccess :
    Act.Keeps P SurgicalBed.positionForPatientAccess := by
  unfold SurgicalBed.positionForPatientAccess; infer_instance

instance keeps_SurgicalBed_positionForProcedure :
    Act.Keeps P SurgicalBed.positionForProcedure := by
  unfold SurgicalBed.positionForProcedure; infer_instance

instance keeps_SurgicalBed_activateEmergencyProtocols :
    Act.Keeps P SurgicalBed.activateEmergencyProtocols := by
  unfold SurgicalBed.activateEmergencyProtocols; infer_instance

instance keeps_SurgicalBed_triggerSurgicalEmergency :
    Act.Keeps P SurgicalBed.triggerSurgicalEmergency := by
  unfold SurgicalBed.triggerSurgicalEmergency; infer_instance

instance keeps_SurgicalBed_onPowerOn :
    Act.Keeps P SurgicalBed.onPowerOn := by
  unfold SurgicalBed.onPowerOn; infer_instance

end BedDeviceInstances

section BedOperationInstances

variable {P : Bed → Prop} [Bed.Robust P] [Bed.DerivedFree P]

instance keeps_PatientBed_onPatientEntered (now : ℚ) :
    Act.Keeps P (PatientBed.onPatientEntered now) := by
  unfold PatientBed.onPatientEntered; infer_instance

instance keeps_PatientBed_deliver (now : ℚ) (e : Event) :
    Act.Keeps P (PatientBed.deliver now e) := by
  cases e <;> unfold PatientBed.deliver <;> infer_instance

instance keeps_PatientBed_onSensor (now : ℚ) (f : Act OccupancySensor) :
    Act.Keeps P (PatientBed.onSensor now f) :=
  ⟨fun b hb => by
    unfold PatientBed.onSensor
    split
    · rename_i d hd
      exact (keeps_seq_map (PatientBed.deliver now) _).keeps _
        (Bed.DerivedFree.derived b _ (by rw [hd]; rfl) hb)
    · exact hb⟩

instance keeps_PatientBed_simulatePatientEntry (now : ℚ) :
    Act.Keeps P (PatientBed.simulatePatientEntry now) := by
  unfold PatientBed.simulatePatientEntry; infer_instance

instance keeps_PatientBed_simulatePatientExit :
    Act.Keeps P PatientBed.simulatePatientExit := by
  unfold PatientBed.simulatePatientExit; infer_instance

instance keeps_PatientBed_enableComfortMode :
    Act.Keeps P PatientBed.enableComfortMode := by
  unfold PatientBed.enableComfortMode; infer_instance

instance keeps_PatientBed_disableComfortMode :
    Act.Keeps P PatientBed.disableComfortMode := by
  unfold PatientBed.disableComfortMode; infer_instance

instance keeps_PatientBed_onPowerOff :
    Act.Keeps P PatientBed.onPowerOff := by
  unfold PatientBed.onPowerOff; infer_instance

instance keeps_SurgicalBed_enterSterileMode :
    Act.Keeps P SurgicalBed.enterSterileMode := by
  unfold SurgicalBed.enterSterileMode; infer_instance

instance keeps_SurgicalBed_exitSterileMode :
    Act.Keeps P SurgicalBed.exitSterileMode := by
  unfold SurgicalBed.exitSterileMode; infer_instance

instance keeps_SurgicalBed_startProcedure (p : String) :
    Act.Keeps P (SurgicalBed.startProcedure p) := by
  unfold SurgicalBed.startProcedure; infer_instance

instance keeps_SurgicalBed_endProcedure :
    Act.Keeps P SurgicalBed.endProcedure := by
  unfold SurgicalBed.endProcedure; infer_instance

instance keeps_SurgicalBed_onPowerOff :
    Act.Keeps P SurgicalBed.onPowerOff := by
  unfold SurgicalBed.onPowerOff; infer_instance

instance keeps_Bed_onPowerOn : Act.Keeps P Bed.onPowerOn :=
  ⟨fun b hb => by
    unfold Bed.onPowerOn
    split
    · exact hb
    · exact keeps_PatientBed_onPowerOn.keeps b hb
    · exact keeps_SurgicalBed_onPowerOn.keeps b hb⟩

instance keeps_Bed_onPowerOff : Act.Keeps P Bed.onPowerOff :=
  ⟨fun b hb => by
    unfold Bed.onPowerOff
    split
    · exact hb
    · exact keeps_PatientBed_onPowerOff.keeps b hb
    · exact keeps_SurgicalBed_onPowerOff.keeps b hb⟩

end BedOperationInstances

/-! ## Beds: power state, height limits and height -/

namespace Bed

theorem bed_run_nil (b : Bed) : run [] b = (b, []) := rfl

theorem bed_run_cons (op : Op) (ops : List Op) (b : Bed) :
    run (op :: ops) b = ((run ops (step op b).1).1, (step op b).2 ++ (run ops (step op b).1).2) :=
  rfl

/-- Every state is stable for its own power state and limits when nothing is
asked of the height. -/
theorem stable_self (b : Bed) :
    Bed.Stable b.isPoweredOn b.minHeight b.maxHeight (fun _ => True) b :=
  ⟨rfl, rfl, rfl, Or.inl trivial⟩

theorem powerOn_stable {pw : Bool} {lo hi : ℚ} {T : ℚ → Prop} (b : Bed)
    (hb : Bed.Stable pw lo hi T b) : Bed.Stable true lo hi T (powerOn b).1 := by
  unfold powerOn Act.when Act.ite
  split
  · rw [Act.seq_cons]
    have h1 : Bed.Stable true lo hi T { b with isPoweredOn := true } :=
      ⟨rfl, hb.2.1, hb.2.2.1, hb.2.2.2⟩
    exact (inferInstance : Act.Keeps (Bed.Stable true lo hi T)
      (Act.seq [Act.say (fun b => [Arg.str b.getClassName, Arg.str " powered ON"]),
        onTemperature (StandardTemperatureControl.setTemperature Mode.NEUTRAL),
        onLight LightStrip.activate, onPowerOn])).keeps _ h1
  · rename_i hc
    have hon : b.isPoweredOn = true := by simpa using hc
    exact ⟨hon, hb.2.1, hb.2.2.1, hb.2.2.2⟩

theorem powerOff_stable {pw : Bool} {lo hi : ℚ} {T : ℚ → Prop} (b : Bed)
    (hb : Bed.Stable pw lo hi T b) : Bed.Stable false lo hi T (powerOff b).1 := by
  unfold powerOff Act.when Act.ite
  split
  · rw [Act.seq_cons]
    have h1 : Bed.Stable false lo hi T { b with isPoweredOn := false } :=
      ⟨rfl, hb.2.1, hb.2.2.1, hb.2.2.2⟩
    exact (inferInstance : Act.Keeps (Bed.Stable false lo hi T)
      (Act.seq [Act.say (fun b => [Arg.str b.getClassName, Arg.str " powered OFF"]),
        onLight LightStrip.deactivate, onPowerOff])).keeps _ h1
  · rename_i hc
    have hoff : b.isPoweredOn = false := by simpa using hc
    exact ⟨hoff, hb.2.1, hb.2.2.1, hb.2.2.2⟩

/-- One call keeps the height limits and the height condition, and changes the
power state only if it is `powerOn` or `powerOff`. -/
theorem step_stable {pw : Bool} {lo hi : ℚ} {T : ℚ → Prop} (op : Op) (b : Bed)
    (hb : Bed.Stable pw lo hi T b) : Bed.Stable (op.powerAfter pw) lo hi T (step op b).1 := by
  have hl := @keeps_Bed_lights (Bed.Stable pw lo hi T) _
  cases op with
  | powerOn => exact powerOn_stable b hb
  | powerOff => exact powerOff_stable b hb
  | activateLights => exact hl.1.keeps b hb
  | deactivateLights => exact hl.2.1.keeps b hb
  | setLightBrightness x => exact (hl.2.2.1 x).keeps b hb
  | setLightColor c => exact (hl.2.2.2.1 c).keeps b hb
  | setTemperatureInt m => exact (hl.2.2.2.2 m).keeps b hb
  | _ =>
    simp only [step, Op.powerAfter]
    exact Act.Keeps.keeps b hb

/-- After any sequence of calls the height limits and the height condition
still hold, for some power state. -/
theorem run_stable {lo hi : ℚ} {T : ℚ → Prop} (ops : List Op) :
    ∀ (pw : Bool) (b : Bed), Bed.Stable pw lo hi T b →
      ∃ pw', Bed.Stable pw' lo hi T (run ops b).1 := by
  induction ops with
  | nil => exact fun pw b hb => ⟨pw, hb⟩
  | cons op rest ih =>
    intro pw b hb
    rw [bed_run_cons]
    exact ih _ _ (step_stable op b hb)

theorem construct_stable (k : BedKind) :
    Bed.Stable false k.lowest k.highest (fun _ => False) k.construct := by
  cases k <;>
    simp [Bed.Stable, BedKind.construct, BedKind.lowest, BedKind.highest, Bed.new, PatientBed.new,
      SurgicalBed.new] <;> norm_num

end Bed

namespace Bed

/-- On a powered-on bed a height outside the limits is refused: `setHeight`
changes nothing and prints the range. -/
theorem setHeight_refused (b : Bed) (h : ℚ) (hon : b.isPoweredOn = true)
    (hout : h < b.minHeight ∨ h > b.maxHeight) :
    setHeight h b
      = (b, [Event.print [Arg.str "Invalid height. Range: ", Arg.num b.minHeight, Arg.str " - ",
          Arg.num b.maxHeight, Arg.str " cm"]]) := by
  have hv : b.validateHeightRange h = false := by
    unfold validateHeightRange
    rcases hout with h1 | h1
    · simp [not_le.mpr h1]
    · simp [not_le.mpr h1]
  simp [setHeight, Act.ite, hon, hv, Act.say]

/-- C1. For each kind of bed (base with limits [30,100], patient bed [40,90],
surgical bed [60,120]) in any state reached from construction that is powered
on, and any height `h` below the lower or above the upper limit, `setHeight(h)`
leaves `getHeight()` unchanged; the limits of the reached state are those of
the kind, and the same holds for an arbitrary powered-on bed state with respect
to its own limits. -/
theorem setHeight_outside_limits_unchanged (k : BedKind) (ops : List Op) (h : ℚ)
    (hon : (run ops k.construct).1.isPoweredOn = true)
    (hout : h < k.lowest ∨ h > k.highest) :
    (setHeight h (run ops k.construct).1).1.getHeight = (run ops k.construct).1.getHeight
    ∧ (run ops k.construct).1.minHeight = k.lowest
    ∧ (run ops k.construct).1.maxHeight = k.highest
    ∧ (BedKind.base.lowest = 30 ∧ BedKind.base.highest = 100
        ∧ BedKind.patient.lowest = 40 ∧ BedKind.patient.highest = 90
        ∧ BedKind.surgical.lowest = 60 ∧ BedKind.surgical.highest = 120)
    ∧ ∀ b : Bed, b.isPoweredOn = true → (h < b.minHeight ∨ h > b.maxHeight) →
        (setHeight h b).1 = b := by
  obtain ⟨pw, _, hlo, hhi, _⟩ := run_stable ops false k.construct (construct_stable k)
  refine ⟨?_, hlo, hhi, ⟨rfl, rfl, rfl, rfl, rfl, rfl⟩, ?_⟩
  · rw [setHeight_refused _ h hon (by rw [hlo, hhi]; exact hout)]
  · intro b hb hb'
    rw [setHeight_refused b h hb hb']

theorem setHeight_outside_limits_unchanged_witness :
    (run [Op.powerOn] PatientBed.new).1.getHeight = 55
    ∧ (setHeight 200 (run [Op.powerOn] PatientBed.new).1).1.getHeight
        = (run [Op.powerOn] PatientBed.new).1.getHeight :=
  ⟨by decide,
    (setHeight_outside_limits_unchanged BedKind.patient [Op.powerOn] 200 (by decide)
      (Or.inr (by decide))).1⟩

end Bed

namespace Bed

/-- A call on the light strip changes only the `lightStrip` member of the bed:
the bed's own callbacks only print. -/
theorem onLight_state (f : Act LightStrip) (b : Bed) :
    (onLight f b).1 = { b with lightStrip := (f b.lightStrip).1 } :=
  (@keeps_seq_map Bed Event (fun x => x = { b with lightStrip := (f b.lightStrip).1 }) Bed.deliver
    (fun e => keeps_Bed_deliver e) (f b.lightStrip).2).keeps
    { b with lightStrip := (f b.lightStrip).1 } rfl

/-- C2. For every bed: after `powerOff()` the bed is off, and each of
`raiseHeight(a)`, `lowerHeight(a)`, `setHeight(h)` and `setTemperature(m)` leaves
the bed state, in particular the height, the temperature mode and the
temperature value, unchanged; after a following `powerOn()` the bed is on with
the same height limits, `setHeight(h')` with `minHeight ≤ h' ≤ maxHeight` gives
`getHeight() = h'` and `setTemperature(m)` gives `getCurrentTemperature() = m`. -/
theorem power_off_refuses_power_on_accepts (b : Bed) (a h : ℚ) (m : Mode) (h' : ℚ)
    (hlo : b.minHeight ≤ h') (hhi : h' ≤ b.maxHeight) :
    (powerOff b).1.isPoweredOn = false
    ∧ (∀ f ∈ [raiseHeight a, lowerHeight a, setHeight h, setTemperature m],
        (f (powerOff b).1).1 = (powerOff b).1
        ∧ (f (powerOff b).1).1.getHeight = (powerOff b).1.getHeight
        ∧ (f (powerOff b).1).1.getCurrentTemperature = (powerOff b).1.getCurrentTemperature
        ∧ (f (powerOff b).1).1.getTemperatureValue = (powerOff b).1.getTemperatureValue)
    ∧ (powerOn (powerOff b).1).1.isPoweredOn = true
    ∧ (powerOn (powerOff b).1).1.minHeight = b.minHeight
    ∧ (powerOn (powerOff b).1).1.maxHeight = b.maxHeight
    ∧ (setHeight h' (powerOn (powerOff b).1).1).1.getHeight = h'
    ∧ (setTemperature m (powerOn (powerOff b).1).1).1.getCurrentTemperature = m := by
  obtain ⟨hoff, hmin, hmax, _⟩ := powerOff_stable b (stable_self b)
  obtain ⟨hon, hmin', hmax', _⟩ := powerOn_stable (powerOff b).1 (powerOff_stable b (stable_self b))
  have hsame : ∀ f ∈ [raiseHeight a, lowerHeight a, setHeight h, setTemperature m],
      (f (powerOff b).1).1 = (powerOff b).1 := by
    intro f hf
    simp only [List.mem_cons, List.mem_singleton, List.not_mem_nil, or_false] at hf
    rcases hf with rfl | rfl | rfl | rfl
    · simp [raiseHeight, Act.ite, hoff, say]
    · simp [lowerHeight, Act.ite, hoff, say]
    · simp [setHeight, Act.ite, hoff, say]
    · simp [setTemperature, Act.ite, hoff, say]
  refine ⟨hoff, ?_, hon, hmin', hmax', ?_, ?_⟩
  · intro f hf
    rw [hsame f hf]
    exact ⟨rfl, rfl, rfl, rfl⟩
  · have hv : (powerOn (powerOff b).1).1.validateHeightRange h' = true := by
      simp [validateHeightRange, hmin', hmax', hlo, hhi]
    simp [setHeight, Act.ite, hon, hv, Act.seq, Act.modify, Act.say, getHeight]
  · cases m <;>
      simp [setTemperature, Act.ite, hon, onTemperature, StandardTemperatureControl.setTemperature,
        getCurrentTemperature, StandardTemperatureControl.getCurrentTemperature]

theorem power_off_refuses_power_on_accepts_witness :
    (setHeight 70 (powerOn (powerOff (run [Op.powerOn] PatientBed.new).1).1).1).1.getHeight = 70 :=
  (power_off_refuses_power_on_accepts (run [Op.powerOn] PatientBed.new).1 5 200 Mode.WARM 70
    (by decide) (by decide)).2.2.2.2.2.1

/-- C3. In every state of a base bed, a patient bed or a surgical bed reached
from construction by any sequence of calls, the height limits are those of the
kind and `minHeight ≤ getHeight() ≤ maxHeight`; the maintenance check then
prints its start line, the power line, "Checking height mechanism... OK", the
light line and the temperature line, in this order. -/
theorem height_always_within_limits (k : BedKind) (ops : List Op) (now : ℚ) :
    (run ops k.construct).1.minHeight = k.lowest
    ∧ (run ops k.construct).1.maxHeight = k.highest
    ∧ (run ops k.construct).1.minHeight ≤ (run ops k.construct).1.getHeight
    ∧ (run ops k.construct).1.getHeight ≤ (run ops k.construct).1.maxHeight
    ∧ (checkHeightMechanism (run ops k.construct).1).2
        = [Event.print [Arg.str "Checking height mechanism... ", Arg.str "OK"]]
    ∧ (performMaintenanceCheck now (run ops k.construct).1).2.take 5
        = [Event.print [Arg.str "Starting maintenance check for ",
              Arg.str (run ops k.construct).1.getClassName],
           Event.print [Arg.str "Checking power system... ",
              Arg.str (if (run ops k.construct).1.isPoweredOn then "OK" else "OFF")],
           Event.print [Arg.str "Checking height mechanism... ", Arg.str "OK"],
           Event.print [Arg.str "Checking light system... ", Arg.str "OK"],
           Event.print [Arg.str "Checking temperature system... ", Arg.str "OK"]] := by
  obtain ⟨pw, _, hlo, hhi, hh⟩ := run_stable ops false k.construct (construct_stable k)
  have hin : k.lowest ≤ (run ops k.construct).1.currentHeight
      ∧ (run ops k.construct).1.currentHeight ≤ k.highest := by
    rcases hh with hf | hin
    · exact absurd hf id
    · exact hin
  have hcheck : checkHeightMechanism (run ops k.construct).1
      = ((run ops k.construct).1,
          [Event.print [Arg.str "Checking height mechanism... ", Arg.str "OK"]]) := by
    simp [checkHeightMechanism, Act.say, hlo, hhi, hin.1, hin.2]
  refine ⟨hlo, hhi, ?_, ?_, by rw [hcheck], ?_⟩
  · rw [hlo]; exact hin.1
  · rw [hhi]; exact hin.2
  · simp only [performMaintenanceCheck, Act.seq_cons]
    simp [checkPowerSystem, checkLightSystem, checkTemperatureSystem, Act.say, say, hcheck]

end Bed

namespace Bed

/-- Counterexample to C8: on a newly constructed (powered-off) patient bed
`activateLights()` sets the light strip's active flag and `setLightColor` stores
the colour, so the bed state does change. -/
theorem light_calls_change_powered_off_bed :
    PatientBed.new.isPoweredOn = false
    ∧ PatientBed.new.lightStrip.lightBehavior
        = some (LightBehavior.NormalLightBehavior (1 / 2) ⟨255, 255, 255⟩ false)
    ∧ (activateLights PatientBed.new).1.lightStrip.lightBehavior
        = some (LightBehavior.NormalLightBehavior (1 / 2) ⟨255, 255, 255⟩ true)
    ∧ (setLightColor ⟨255, 0, 0⟩ PatientBed.new).1.lightStrip.lightBehavior
        = some (LightBehavior.NormalLightBehavior (1 / 2) ⟨255, 0, 0⟩ false)
    ∧ (activateLights PatientBed.new).1 ≠ PatientBed.new
    ∧ (setLightColor ⟨255, 0, 0⟩ PatientBed.new).1 ≠ PatientBed.new := by
  have h1 : (activateLights PatientBed.new).1.lightStrip.lightBehavior
      = some (LightBehavior.NormalLightBehavior (1 / 2) ⟨255, 255, 255⟩ true) := by
    rw [activateLights, onLight_state]; rfl
  have h2 : (setLightColor ⟨255, 0, 0⟩ PatientBed.new).1.lightStrip.lightBehavior
      = some (LightBehavior.NormalLightBehavior (1 / 2) ⟨255, 0, 0⟩ false) := by
    rw [setLightColor, onLight_state]; rfl
  have h0 : PatientBed.new.lightStrip.lightBehavior
      = some (LightBehavior.NormalLightBehavior (1 / 2) ⟨255, 255, 255⟩ false) := rfl
  refine ⟨rfl, h0, h1, h2, ?_, ?_⟩
  · intro h
    rw [h, h0] at h1
    simp at h1
  · intro h
    rw [h, h0] at h2
    simp at h2

/-- C8 as amended. While a bed is powered off, the height and temperature
calls change nothing; `setLightBrightness`, `setLightColor`, `activateLights` and
`deactivateLights` are not gated by the power state: they change the light strip
as the strip's own member function does (a normal behaviour takes the clamped
brightness, the colour, the active flag) and leave every other member of the
bed, the power state included, unchanged. -/
theorem powered_off_height_and_temperature_refused (b : Bed) (hoff : b.isPoweredOn = false)
    (a h x : ℚ) (m : Mode) (i : Int) (c : LightColor) :
    (raiseHeight a b).1 = b
    ∧ (lowerHeight a b).1 = b
    ∧ (setHeight h b).1 = b
    ∧ (setTemperature m b).1 = b
    ∧ (setTemperatureInt i b).1 = b
    ∧ (setLightBrightness x b).1 = { b with lightStrip := (LightStrip.setBrightness x b.lightStrip).1 }
    ∧ (setLightColor c b).1 = { b with lightStrip := (LightStrip.setColor c b.lightStrip).1 }
    ∧ (activateLights b).1 = { b with lightStrip := (LightStrip.activate b.lightStrip).1 }
    ∧ (deactivateLights b).1 = { b with lightStrip := (LightStrip.deactivate b.lightStrip).1 }
    ∧ (∀ br col act, b.lightStrip.lightBehavior = some (LightBehavior.NormalLightBehavior br col act) →
        (setLightBrightness x b).1.lightStrip.lightBehavior
            = some (LightBehavior.NormalLightBehavior (stdMax 0 (stdMin 1 x)) col act)
        ∧ (setLightColor c b).1.lightStrip.lightBehavior
            = some (LightBehavior.NormalLightBehavior br c act)
        ∧ (activateLights b).1.lightStrip.lightBehavior
            = some (LightBehavior.NormalLightBehavior br col true)
        ∧ (deactivateLights b).1.lightStrip.lightBehavior
            = some (LightBehavior.NormalLightBehavior br col false)) := by
  refine ⟨?_, ?_, ?_, ?_, ?_, onLight_state _ b, onLight_state _ b, onLight_state _ b,
    onLight_state _ b, ?_⟩
  · simp [raiseHeight, Act.ite, hoff, say]
  · simp [lowerHeight, Act.ite, hoff, say]
  · simp [setHeight, Act.ite, hoff, say]
  · simp [setTemperature, Act.ite, hoff, say]
  · simp [setTemperatureInt, setTemperature, Act.ite, hoff, say]
  · intro br col act hb
    simp only [setLightBrightness, setLightColor, activateLights, deactivateLights, onLight_state]
    simp [LightStrip.setBrightness, LightStrip.setColor, LightStrip.activate, LightStrip.deactivate,
      LightStrip.onBehavior, hb, LightBehavior.setBrightness, LightBehavior.setColor,
      LightBehavior.activate, LightBehavior.deactivate]

theorem powered_off_height_and_temperature_refused_witness :
    (setHeight 70 PatientBed.new).1 = PatientBed.new
    ∧ (activateLights PatientBed.new).1
        = { PatientBed.new with
            lightStrip := (LightStrip.activate PatientBed.new.lightStrip).1 } :=
  ⟨(powered_off_height_and_temperature_refused PatientBed.new rfl 5 70 1 Mode.WARM 2
      ⟨255, 0, 0⟩).2.2.1,
   (powered_off_height_and_temperature_refused PatientBed.new rfl 5 70 1 Mode.WARM 2
      ⟨255, 0, 0⟩).2.2.2.2.2.2.2.1⟩

end Bed

/-! ## The bed factory -/

namespace BedFactory

theorem className_createBed (t : BedType) :
    ∃ b, (createBed t).1 = some b
      ∧ b.getClassName = (match t with
          | BedType.PATIENT => "PatientBed"
          | BedType.SURGICAL => "SurgicalBed") := by
  cases t
  · exact ⟨PatientBed.new, rfl, rfl⟩
  · exact ⟨SurgicalBed.new, rfl, rfl⟩

/-- C5. `createBedFromString` is case-insensitive and alias-tolerant: a string
whose lowercased form is "surgical_bed", "surgical", "surgery" or "surgicalbed"
yields a bed with class name "SurgicalBed", and one whose lowercased form is
"patient_bed", "patient" or "patientbed" yields a bed with class name
"PatientBed"; "SURGICAL", "surgical" and "surgery" are such strings. -/
theorem createBedFromString_aliases (s : String) :
    (toLowerCase s ∈ ["surgical_bed", "surgical", "surgery", "surgicalbed"] →
      ∃ b, (createBedFromString s).1 = some b ∧ b.getClassName = "SurgicalBed")
    ∧ (toLowerCase s ∈ ["patient_bed", "patient", "patientbed"] →
      ∃ b, (createBedFromString s).1 = some b ∧ b.getClassName = "PatientBed")
    ∧ (∀ t ∈ ["SURGICAL", "surgical", "surgery", "Surgical_Bed", "SurgicalBED"],
        toLowerCase t ∈ ["surgical_bed", "surgical", "surgery", "surgicalbed"])
    ∧ (∀ t ∈ ["PATIENT", "patient", "Patient_Bed", "PatientBed"],
        toLowerCase t ∈ ["patient_bed", "patient", "patientbed"]) := by
  refine ⟨?_, ?_, by decide, by decide⟩
  · intro h
    have ht : (stringToBedType s).1 = BedType.SURGICAL := by
      simp only [List.mem_cons, List.mem_singleton, List.not_mem_nil, or_false] at h
      unfold stringToBedType
      rcases h with h | h | h | h <;> simp [h]
    obtain ⟨b, hb, hc⟩ := className_createBed (stringToBedType s).1
    rw [ht] at hc
    exact ⟨b, hb, hc⟩
  · intro h
    have ht : (stringToBedType s).1 = BedType.PATIENT := by
      simp only [List.mem_cons, List.mem_singleton, List.not_mem_nil, or_false] at h
      unfold stringToBedType
      rcases h with h | h | h <;> simp [h]
    obtain ⟨b, hb, hc⟩ := className_createBed (stringToBedType s).1
    rw [ht] at hc
    exact ⟨b, hb, hc⟩

theorem createBedFromString_aliases_witness :
    ∃ b, (createBedFromString "SURGICAL").1 = some b ∧ b.getClassName = "SurgicalBed" :=
  (createBedFromString_aliases "SURGICAL").1 (by decide)

/-- C6. For every string whose lowercased form is in neither alias set, the
empty string included, `createBedFromString` returns a non-null bed of class
"PatientBed" (after printing that the type is unknown); for no string at all
does it return a null pointer. -/
theorem createBedFromString_unknown_defaults_to_patient (s : String)
    (hs : toLowerCase s ∉ ["surgical_bed", "surgical", "surgery", "surgicalbed"])
    (hp : toLowerCase s ∉ ["patient_bed", "patient", "patientbed"]) :
    (∃ b, (createBedFromString s).1 = some b ∧ b.getClassName = "PatientBed")
    ∧ (createBedFromString s).1 = some PatientBed.new
    ∧ (stringToBedType s).2
        = [Event.print [Arg.str "⚠️  Unknown bed type: ", Arg.str (cStr s),
            Arg.str " - defaulting to PatientBed"]]
    ∧ (∀ t : String, (createBedFromString t).1 ≠ none) := by
  simp only [List.mem_cons, List.mem_singleton, List.not_mem_nil, or_false, not_or] at hs hp
  have ht : stringToBedType s
      = (BedType.PATIENT, [Event.print [Arg.str "⚠️  Unknown bed type: ", Arg.str (cStr s),
            Arg.str " - defaulting to PatientBed"]]) := by
    unfold stringToBedType
    simp [hs.1, hs.2.1, hs.2.2.1, hs.2.2.2, hp.1, hp.2.1, hp.2.2]
  refine ⟨⟨PatientBed.new, ?_, rfl⟩, ?_, by rw [ht], ?_⟩
  · simp [createBedFromString, ht, createBed]
  · simp [createBedFromString, ht, createBed]
  · intro t
    obtain ⟨b, hb, _⟩ := className_createBed (stringToBedType t).1
    simp [createBedFromString, hb]

theorem createBedFromString_unknown_defaults_to_patient_witness :
    (createBedFromString "").1 = some PatientBed.new :=
  (createBedFromString_unknown_defaults_to_patient "" (by decide) (by decide)).2.1

end BedFactory

/-! ## Invariants of beds over all calls -/

namespace Bed

/-- One call keeps every property that survives the assignments to base members,
does not depend on the derived members and does not depend on the power state. -/
theorem step_keeps {P : Bed → Prop} [Bed.Robust P] [Bed.DerivedFree P]
    (hpw : ∀ (b : Bed) (v : Bool), P b → P { b with isPoweredOn := v }) (op : Op) (b : Bed)
    (hb : P b) : P (step op b).1 := by
  have hl := @keeps_Bed_lights P _
  cases op with
  | powerOn =>
    simp only [step, powerOn, Act.when, Act.ite]
    split
    · rw [Act.seq_cons]
      exact (inferInstance : Act.Keeps P
        (Act.seq [Act.say (fun b => [Arg.str b.getClassName, Arg.str " powered ON"]),
          onTemperature (StandardTemperatureControl.setTemperature Mode.NEUTRAL),
          onLight LightStrip.activate, onPowerOn])).keeps _ (hpw b true hb)
    · exact hb
  | powerOff =>
    simp only [step, powerOff, Act.when, Act.ite]
    split
    · rw [Act.seq_cons]
      exact (inferInstance : Act.Keeps P
        (Act.seq [Act.say (fun b => [Arg.str b.getClassName, Arg.str " powered OFF"]),
          onLight LightStrip.deactivate, onPowerOff])).keeps _ (hpw b false hb)
    · exact hb
  | activateLights => exact hl.1.keeps b hb
  | deactivateLights => exact hl.2.1.keeps b hb
  | setLightBrightness x => exact (hl.2.2.1 x).keeps b hb
  | setLightColor c => exact (hl.2.2.2.1 c).keeps b hb
  | setTemperatureInt m => exact (hl.2.2.2.2 m).keeps b hb
  | _ =>
    simp only [step]
    exact Act.Keeps.keeps b hb

/-- Such a property holds after any sequence of calls. -/
theorem run_keeps {P : Bed → Prop} [Bed.Robust P] [Bed.DerivedFree P]
    (hpw : ∀ (b : Bed) (v : Bool), P b → P { b with isPoweredOn := v }) (ops : List Op) :
    ∀ b : Bed, P b → P (run ops b).1 := by
  induction ops with
  | nil => exact fun b hb => hb
  | cons op rest ih =>
    intro b hb
    rw [bed_run_cons]
    exact ih _ (step_keeps hpw op b hb)

end Bed

namespace Bed

instance robust_TemperatureConsistent : Bed.Robust Bed.TemperatureConsistent where
  light := fun _ _ _ hb => hb
  temperature := fun _ m _ => by cases m <;> rfl
  height := fun _ _ _ hb => hb

instance derivedFree_TemperatureConsistent : Bed.DerivedFree Bed.TemperatureConsistent where
  derived := fun _ _ _ hb => hb

/-- The state of a powered-on bed after `setTemperature(mode)`. -/
theorem setTemperature_on (mode : Mode) (b : Bed) (hon : b.isPoweredOn = true) :
    (setTemperature mode b).1
      = { b with temperatureControl := { currentMode := mode, temperature := mode.celsius } } := by
  cases mode <;>
    simp [setTemperature, Act.ite, hon, onTemperature, StandardTemperatureControl.setTemperature,
      Mode.celsius]

/-- C11. On a powered-on bed, for every mode `m`, after `setTemperature(m)`
`getCurrentTemperature()` is `m` and `getTemperatureValue()` is 18 for COLD, 22
for NEUTRAL and 26 for WARM; a new bed of any kind is at NEUTRAL, 22; and in
every state reached from construction the temperature value is the Celsius
value of the current mode. -/
theorem temperature_setpoints (b : Bed) (m : Mode) (hon : b.isPoweredOn = true) :
    (setTemperature m b).1.getCurrentTemperature = m
    ∧ (setTemperature m b).1.getTemperatureValue = m.celsius
    ∧ (Mode.COLD.celsius = 18 ∧ Mode.NEUTRAL.celsius = 22 ∧ Mode.WARM.celsius = 26)
    ∧ (∀ k : BedKind, k.construct.getCurrentTemperature = Mode.NEUTRAL
        ∧ k.construct.getTemperatureValue = 22)
    ∧ (∀ (k : BedKind) (ops : List Op),
        (run ops k.construct).1.getTemperatureValue
          = (run ops k.construct).1.getCurrentTemperature.celsius) := by
  refine ⟨?_, ?_, ⟨rfl, rfl, rfl⟩, ?_, ?_⟩
  · rw [setTemperature_on m b hon]; rfl
  · rw [setTemperature_on m b hon]; rfl
  · intro k; cases k <;> exact ⟨rfl, rfl⟩
  · intro k ops
    exact @run_keeps Bed.TemperatureConsistent _ _ (fun _ _ hb => hb) ops k.construct
      (by cases k <;> rfl)

theorem temperature_setpoints_witness :
    (setTemperature Mode.WARM (run [Op.powerOn] PatientBed.new).1).1.getTemperatureValue = 26 :=
  (temperature_setpoints (run [Op.powerOn] PatientBed.new).1 Mode.WARM (by decide)).2.1

end Bed

/-! ## The scanner -/

namespace Scanner

/-- The six progress prints of `processScan`: the loop variable takes the values
0, 20, 40, 60, 80 and 100. -/
theorem progressLoop_run (s : Scanner) :
    progressLoop 101 0 s
      = ({ s with scanProgress := ((100 : Nat) : ℚ) / 100 },
         [Event.print [Arg.str "Scan progress: ", Arg.int 0, Arg.str "%"],
          Event.print [Arg.str "Scan progress: ", Arg.int 20, Arg.str "%"],
          Event.print [Arg.str "Scan progress: ", Arg.int 40, Arg.str "%"],
          Event.print [Arg.str "Scan progress: ", Arg.int 60, Arg.str "%"],
          Event.print [Arg.str "Scan progress: ", Arg.int 80, Arg.str "%"],
          Event.print [Arg.str "Scan progress: ", Arg.int 100, Arg.str "%"]]) := rfl

/-- The effect of `startScan(type)` on an idle scanner in closed form. -/
theorem startScan_idle (type : ScanType) (s : Scanner) (hidle : s.currentState = ScanState.IDLE) :
    startScan type s
      = ({ s with currentState := ScanState.IDLE, currentScanType := type,
                  scanProgress := ((100 : Nat) : ℚ) / 100,
                  currentScan := ScanData.expected type },
         [Event.print [Arg.str "🔍 Starting ", Arg.str (getScanTypeName type), Arg.str " scan..."],
          Event.print [Arg.str "Scan progress: ", Arg.int 0, Arg.str "%"],
          Event.print [Arg.str "Scan progress: ", Arg.int 20, Arg.str "%"],
          Event.print [Arg.str "Scan progress: ", Arg.int 40, Arg.str "%"],
          Event.print [Arg.str "Scan progress: ", Arg.int 60, Arg.str "%"],
          Event.print [Arg.str "Scan progress: ", Arg.int 80, Arg.str "%"],
          Event.print [Arg.str "Scan progress: ", Arg.int 100, Arg.str "%"],
          Event.print [Arg.str "✅ Scan completed successfully"]]
          ++ s.observers.filterMap
              (fun o => o.map (fun i => Event.onScanCompleted i (ScanData.expected type)))) := by
  unfold startScan Act.ite
  simp only [hidle, ne_eq, not_true_eq_false, decide_False, Bool.false_eq_true, if_false]
  simp [Act.seq, Act.modify, say, processScan, progressLoop_run, notifyScanCompleted,
    ScanData.expected, ScanData.new]

end Scanner

namespace Scanner

/-- A callback event is not a progress print. -/
theorem filter_isScanProgress_callbacks (data : ScanData) (l : List (Option Nat)) :
    (l.filterMap (fun o => o.map (fun i => Event.onScanCompleted i data))).filter
      Event.isScanProgress = [] := by
  rw [List.filter_eq_nil_iff]
  intro e he
  obtain ⟨o, _, ho⟩ := List.mem_filterMap.mp he
  cases o with
  | none => simp at ho
  | some i =>
    simp only [Option.map_some', Option.some.injEq] at ho
    subst ho
    simp [Event.isScanProgress]

/-- Counterexample to C12: one `startScan` call on a new, idle scanner emits
six progress prints, not five. -/
theorem startScan_emits_six_progress_prints :
    Scanner.new.currentState = ScanState.IDLE
    ∧ ((startScan ScanType.FULL_BODY Scanner.new).2.filter Event.isScanProgress)
        = [Event.print [Arg.str "Scan progress: ", Arg.int 0, Arg.str "%"],
           Event.print [Arg.str "Scan progress: ", Arg.int 20, Arg.str "%"],
           Event.print [Arg.str "Scan progress: ", Arg.int 40, Arg.str "%"],
           Event.print [Arg.str "Scan progress: ", Arg.int 60, Arg.str "%"],
           Event.print [Arg.str "Scan progress: ", Arg.int 80, Arg.str "%"],
           Event.print [Arg.str "Scan progress: ", Arg.int 100, Arg.str "%"]]
    ∧ ((startScan ScanType.FULL_BODY Scanner.new).2.filter Event.isScanProgress).length ≠ 5 := by
  refine ⟨rfl, ?_, ?_⟩
  · decide
  · decide

/-- C12 as amended. A single `startScan(type)` call on an idle scanner prints
the start line, then exactly six progress prints (0, 20, 40, 60, 80, 100 %),
then the completion line, and then calls `onScanCompleted` once for each
registration of a non-null observer, in registration order, all within that
call; the scanner is idle again afterwards. -/
theorem startScan_prints_then_notifies (type : ScanType) (s : Scanner)
    (hidle : s.currentState = ScanState.IDLE) :
    (startScan type s).2
      = [Event.print [Arg.str "🔍 Starting ", Arg.str (getScanTypeName type), Arg.str " scan..."],
         Event.print [Arg.str "Scan progress: ", Arg.int 0, Arg.str "%"],
         Event.print [Arg.str "Scan progress: ", Arg.int 20, Arg.str "%"],
         Event.print [Arg.str "Scan progress: ", Arg.int 40, Arg.str "%"],
         Event.print [Arg.str "Scan progress: ", Arg.int 60, Arg.str "%"],
         Event.print [Arg.str "Scan progress: ", Arg.int 80, Arg.str "%"],
         Event.print [Arg.str "Scan progress: ", Arg.int 100, Arg.str "%"],
         Event.print [Arg.str "✅ Scan completed successfully"]]
        ++ s.observers.filterMap
            (fun o => o.map (fun i => Event.onScanCompleted i (ScanData.expected type)))
    ∧ ((startScan type s).2.filter Event.isScanProgress).length = 6
    ∧ (∀ i : Nat, (startScan type s).2.count (Event.onScanCompleted i (ScanData.expected type))
        = s.observers.count (some i))
    ∧ (startScan type s).1.getState = ScanState.IDLE := by
  rw [startScan_idle type s hidle]
  refine ⟨rfl, ?_, ?_, rfl⟩
  · simp only [List.filter_append, filter_isScanProgress_callbacks]
    cases type <;> decide
  · intro i
    rw [List.count_append]
    rw [LightStrip.count_callbacks (fun j => Event.onScanCompleted j (ScanData.expected type))
      (fun a b h => by injection h) s.observers i]
    simp [List.count_cons]

theorem startScan_prints_then_notifies_witness :
    ((startScan ScanType.BRAIN
        (addObserver (some 7) (addObserver (some 3) Scanner.new).1).1).2.filter
      Event.isScanProgress).length = 6
    ∧ (startScan ScanType.BRAIN (addObserver (some 7) (addObserver (some 3) Scanner.new).1).1).2.count
        (Event.onScanCompleted 7 (ScanData.expected ScanType.BRAIN)) = 1 :=
  ⟨(startScan_prints_then_notifies ScanType.BRAIN
      (addObserver (some 7) (addObserver (some 3) Scanner.new).1).1 rfl).2.1,
   ((startScan_prints_then_notifies ScanType.BRAIN
      (addObserver (some 7) (addObserver (some 3) Scanner.new).1).1 rfl).2.2.1 7).trans
     (by decide)⟩

end Scanner

/-! ## The scanner device -/

namespace ScannerDevice

theorem device_run_cons (op : Op) (ops : List Op) (d : ScannerDevice) :
    run (op :: ops) d = ((run ops (step op d).1).1, (step op d).2 ++ (run ops (step op d).1).2) :=
  rfl

/-- The device's own checks of the vitals only print. -/
instance keeps_checkCriticalVitals {P : ScannerDevice → Prop} (vitals : VitalSigns) :
    Act.Keeps P (checkCriticalVitals vitals) := by
  unfold checkCriticalVitals
  infer_instance

/-- The device's callbacks assign only `storedScans` and `lastVitals`: a property
of the other members is kept when an event of a part is delivered. -/
instance keeps_deliver (Q : Scanner → VitalSignMonitor → Bool → ℚ → Prop) (e : Event) :
    Act.Keeps (fun d : ScannerDevice => Q d.scanner d.vitalMonitor d.canSwivel d.swivelAngle)
      (deliver e) := by
  have hstore : ∀ data : ScanData, Act.Keeps
      (fun d : ScannerDevice => Q d.scanner d.vitalMonitor d.canSwivel d.swivelAngle)
      (Act.modify (fun d => { d with storedScans := store data.scanType data d.storedScans })) :=
    fun _ => ⟨fun _ hd => hd⟩
  have hlast : ∀ vitals : VitalSigns, Act.Keeps
      (fun d : ScannerDevice => Q d.scanner d.vitalMonitor d.canSwivel d.swivelAngle)
      (Act.modify (fun d => { d with lastVitals := vitals })) :=
    fun _ => ⟨fun _ hd => hd⟩
  cases e with
  | onScanCompleted i data =>
    haveI := hstore data
    unfold deliver onScanCompleted
    infer_instance
  | onVitalSignsUpdated i vitals =>
    haveI := hlast vitals
    unfold deliver onVitalSignsUpdated
    infer_instance
  | _ =>
    unfold deliver
    infer_instance

/-- A call on the scanner leaves the scanner in the state the call gives and
does not touch the monitor or the swivel. -/
theorem onScanner_parts (f : Act Scanner) (d : ScannerDevice) :
    (onScanner f d).1.scanner = (f d.scanner).1
    ∧ (onScanner f d).1.vitalMonitor = d.vitalMonitor
    ∧ (onScanner f d).1.canSwivel = d.canSwivel
    ∧ (onScanner f d).1.swivelAngle = d.swivelAngle :=
  (@keeps_seq_map ScannerDevice Event
    (fun x => x.scanner = (f d.scanner).1 ∧ x.vitalMonitor = d.vitalMonitor
      ∧ x.canSwivel = d.canSwivel ∧ x.swivelAngle = d.swivelAngle) deliver
    (fun e => keeps_deliver (fun sc vm c a => sc = (f d.scanner).1 ∧ vm = d.vitalMonitor
      ∧ c = d.canSwivel ∧ a = d.swivelAngle) e) (f d.scanner).2).keeps
    { d with scanner := (f d.scanner).1 } ⟨rfl, rfl, rfl, rfl⟩

/-- A call on the monitor leaves the monitor in the state the call gives and
does not touch the scanner or the swivel. -/
theorem onMonitor_parts (f : Act VitalSignMonitor) (d : ScannerDevice) :
    (onMonitor f d).1.scanner = d.scanner
    ∧ (onMonitor f d).1.vitalMonitor = (f d.vitalMonitor).1
    ∧ (onMonitor f d).1.canSwivel = d.canSwivel
    ∧ (onMonitor f d).1.swivelAngle = d.swivelAngle :=
  (@keeps_seq_map ScannerDevice Event
    (fun x => x.scanner = d.scanner ∧ x.vitalMonitor = (f d.vitalMonitor).1
      ∧ x.canSwivel = d.canSwivel ∧ x.swivelAngle = d.swivelAngle) deliver
    (fun e => keeps_deliver (fun sc vm c a => sc = d.scanner ∧ vm = (f d.vitalMonitor).1
      ∧ c = d.canSwivel ∧ a = d.swivelAngle) e) (f d.vitalMonitor).2).keeps
    { d with vitalMonitor := (f d.vitalMonitor).1 } ⟨rfl, rfl, rfl, rfl⟩

/-- Between calls the device's scanner is idle and observed by the device alone. -/
theorem scanner_idle_step (op : Op) (d : ScannerDevice)
    (h : d.scanner.currentState = ScanState.IDLE ∧ d.scanner.observers = [some self]) :
    (step op d).1.scanner.currentState = ScanState.IDLE
    ∧ (step op d).1.scanner.observers = [some self] := by
  obtain ⟨h1, h2⟩ := h
  cases op with
  | startFullBodyScan =>
    simp only [step, startFullBodyScan, (onScanner_parts _ d).1, Scanner.startScan_idle _ _ h1]
    exact ⟨trivial, h2⟩
  | startBrainScan =>
    simp only [step, startBrainScan, (onScanner_parts _ d).1, Scanner.startScan_idle _ _ h1]
    exact ⟨trivial, h2⟩
  | stopScan =>
    simp only [step, stopScan, (onScanner_parts _ d).1]
    simp [Scanner.stopScan, Act.when, Act.ite, Act.skip, h1, h2]
  | startVitalMonitoring =>
    simp only [step, startVitalMonitoring, (onMonitor_parts _ d).1]
    exact ⟨h1, h2⟩
  | stopVitalMonitoring =>
    simp only [step, stopVitalMonitoring, (onMonitor_parts _ d).1]
    exact ⟨h1, h2⟩
  | updateVitals r1 r2 r3 r4 r5 =>
    simp only [step, updateVitals, (onMonitor_parts _ d).1]
    exact ⟨h1, h2⟩
  | swivelLeft a =>
    simp only [step, swivelLeft, Act.when, Act.ite]
    split <;> exact ⟨h1, h2⟩
  | swivelRight a =>
    simp only [step, swivelRight, Act.when, Act.ite]
    split <;> exact ⟨h1, h2⟩
  | centerDevice => exact ⟨h1, h2⟩
  | onScanCompleted data => exact ⟨h1, h2⟩
  | onVitalSignsUpdated v =>
    exact (keeps_deliver (fun sc _ _ _ => sc.currentState = ScanState.IDLE
      ∧ sc.observers = [some self]) (Event.onVitalSignsUpdated self v)).keeps d ⟨h1, h2⟩
  | onDeviceError e => exact ⟨h1, h2⟩

theorem scanner_idle_run (ops : List Op) :
    ∀ d : ScannerDevice,
      d.scanner.currentState = ScanState.IDLE ∧ d.scanner.observers = [some self] →
      (run ops d).1.scanner.currentState = ScanState.IDLE
      ∧ (run ops d).1.scanner.observers = [some self] := by
  induction ops with
  | nil => exact fun d h => h
  | cons op rest ih =>
    intro d h
    rw [device_run_cons]
    exact ih _ (scanner_idle_step op d h)

end ScannerDevice

namespace ScannerDevice

/-- A scan started on a device whose scanner is idle and observed by the device
ends with the scan data stored under the name of the scan type. -/
theorem startScan_stores (t : ScanType) (d : ScannerDevice)
    (h1 : d.scanner.currentState = ScanState.IDLE) (h2 : d.scanner.observers = [some self]) :
    (onScanner (Scanner.startScan t) d).1.storedScan (Scanner.getScanTypeName t)
      = some (ScanData.expected t) := by
  simp [onScanner, Scanner.startScan_idle t _ h1, h2, deliver, Act.seq, Act.when, Act.ite,
    onScanCompleted, Act.modify, say, storedScan, store, ScanData.expected]

/-- C13. For every scan type `t` the `ScanData` passed to the observers by
`startScan(t)` on an idle scanner is determined by `t` alone: `scanType` is the
name of the type ("full_body", "brain", "heart" or "lungs"), `imageData` is
"scan_image_" + name + "_data", `quality` is 0.95 and `isValid` is true; and a
scanner device, in any state reached from construction, stores the data of a
scan it starts under the key `scanType`. -/
theorem scan_data_fixed_by_type (t : ScanType) (s : Scanner)
    (hidle : s.currentState = ScanState.IDLE) :
    (∀ (i : Nat) (data : ScanData), Event.onScanCompleted i data ∈ (Scanner.startScan t s).2 →
        data.scanType = Scanner.getScanTypeName t
        ∧ data.imageData = "scan_image_" ++ Scanner.getScanTypeName t ++ "_data"
        ∧ data.quality = 95 / 100
        ∧ data.isValid = true)
    ∧ (Scanner.startScan t s).1.currentScan = ScanData.expected t
    ∧ (ScanData.expected ScanType.FULL_BODY
          = { scanType := "full_body", imageData := "scan_image_full_body_data",
              quality := 95 / 100, isValid := true }
        ∧ ScanData.expected ScanType.BRAIN
          = { scanType := "brain", imageData := "scan_image_brain_data",
              quality := 95 / 100, isValid := true }
        ∧ ScanData.expected ScanType.HEART
          = { scanType := "heart", imageData := "scan_image_heart_data",
              quality := 95 / 100, isValid := true }
        ∧ ScanData.expected ScanType.LUNGS
          = { scanType := "lungs", imageData := "scan_image_lungs_data",
              quality := 95 / 100, isValid := true })
    ∧ (∀ ops : List Op,
        (startFullBodyScan (run ops ScannerDevice.new).1).1.storedScan "full_body"
            = some (ScanData.expected ScanType.FULL_BODY)
        ∧ (startBrainScan (run ops ScannerDevice.new).1).1.storedScan "brain"
            = some (ScanData.expected ScanType.BRAIN)) := by
  refine ⟨?_, ?_, ⟨?_, ?_, ?_, ?_⟩, ?_⟩
  · intro i data hmem
    rw [Scanner.startScan_idle t s hidle] at hmem
    simp only [List.mem_append, List.mem_cons, reduceCtorEq, List.not_mem_nil, or_self,
      List.mem_filterMap, false_or] at hmem
    obtain ⟨o, _, ho⟩ := hmem
    cases o with
    | none => simp at ho
    | some j =>
      simp only [Option.map_some', Option.some.injEq, Event.onScanCompleted.injEq] at ho
      rw [← ho.2]
      exact ⟨rfl, rfl, rfl, rfl⟩
  · rw [Scanner.startScan_idle t s hidle]
  · simp [ScanData.expected, Scanner.getScanTypeName]
  · simp [ScanData.expected, Scanner.getScanTypeName]
  · simp [ScanData.expected, Scanner.getScanTypeName]
  · simp [ScanData.expected, Scanner.getScanTypeName]
  · intro ops
    obtain ⟨h1, h2⟩ := scanner_idle_run ops ScannerDevice.new ⟨rfl, rfl⟩
    exact ⟨startScan_stores ScanType.FULL_BODY _ h1 h2, startScan_stores ScanType.BRAIN _ h1 h2⟩

theorem scan_data_fixed_by_type_witness :
    (Scanner.startScan ScanType.HEART
        (Scanner.addObserver (some 4) Scanner.new).1).1.currentScan
      = ScanData.expected ScanType.HEART :=
  (scan_data_fixed_by_type ScanType.HEART (Scanner.addObserver (some 4) Scanner.new).1 rfl).2.1

end ScannerDevice

/-! ## Power toggle, maintenance check, height requests -/

namespace Bed

/-- C14. A newly constructed bed of any kind is off; `powerOn()` on an off bed
makes it on and `powerOff()` on an on bed makes it off; `powerOn()` on a bed
that is already on and `powerOff()` on a bed that is already off change nothing
at all and print nothing (no hook runs, so height and temperature stay). -/
theorem power_toggle_idempotent (b : Bed) :
    (∀ k : BedKind, k.construct.isPoweredOn = false)
    ∧ (b.isPoweredOn = false → (powerOn b).1.isPoweredOn = true)
    ∧ (b.isPoweredOn = true → (powerOff b).1.isPoweredOn = false)
    ∧ (b.isPoweredOn = true → powerOn b = (b, []))
    ∧ (b.isPoweredOn = false → powerOff b = (b, []))
    ∧ (powerOn (powerOn b).1).1 = (powerOn b).1
    ∧ (powerOff (powerOff b).1).1 = (powerOff b).1 := by
  have hon : ∀ x : Bed, x.isPoweredOn = true → powerOn x = (x, []) := by
    intro x hx
    simp [powerOn, Act.when, Act.ite, hx, Act.skip]
  have hoff : ∀ x : Bed, x.isPoweredOn = false → powerOff x = (x, []) := by
    intro x hx
    simp [powerOff, Act.when, Act.ite, hx, Act.skip]
  refine ⟨?_, ?_, ?_, hon b, hoff b, ?_, ?_⟩
  · intro k; cases k <;> rfl
  · intro _; exact (powerOn_stable b (stable_self b)).1
  · intro _; exact (powerOff_stable b (stable_self b)).1
  · rw [hon _ (powerOn_stable b (stable_self b)).1]
  · rw [hoff _ (powerOff_stable b (stable_self b)).1]

theorem power_toggle_idempotent_witness :
    (powerOn SurgicalBed.new).1.isPoweredOn = true
    ∧ (powerOff (powerOn SurgicalBed.new).1).1.isPoweredOn = false
    ∧ powerOff PatientBed.new = (PatientBed.new, []) :=
  ⟨(power_toggle_idempotent SurgicalBed.new).2.1 rfl,
   (power_toggle_idempotent (powerOn SurgicalBed.new).1).2.2.1 (by decide),
   (power_toggle_idempotent PatientBed.new).2.2.2.2.1 rfl⟩

/-- The hook `performSpecificChecks` and the four base checks only print. -/
theorem checks_keep_state (now : ℚ) (b : Bed) :
    (checkPowerSystem b).1 = b ∧ (checkHeightMechanism b).1 = b ∧ (checkLightSystem b).1 = b
    ∧ (checkTemperatureSystem b).1 = b ∧ (performSpecificChecks now b).1 = b :=
  ⟨rfl, rfl, rfl, rfl,
    (@keeps_Bed_performSpecificChecks (fun x => x = b) now).keeps b rfl⟩

/-- C15. For every bed and every state, `performMaintenanceCheck()` prints the
start line, then runs the power check, the height check, the light check, the
temperature check and the check of the derived class, in this order, each on
the unchanged bed and whatever the earlier ones printed (the height check may
print ERROR), then prints the completion line; the bed state is unchanged. -/
theorem maintenance_check_sequence (now : ℚ) (b : Bed) :
    (performMaintenanceCheck now b).1 = b
    ∧ (performMaintenanceCheck now b).2
        = [Event.print [Arg.str "Starting maintenance check for ", Arg.str b.getClassName]]
          ++ (checkPowerSystem b).2 ++ (checkHeightMechanism b).2 ++ (checkLightSystem b).2
          ++ (checkTemperatureSystem b).2 ++ (performSpecificChecks now b).2
          ++ [Event.print [Arg.str "Maintenance check completed for ", Arg.str b.getClassName]]
    ∧ (checkPowerSystem b).2
        = [Event.print [Arg.str "Checking power system... ",
            Arg.str (if b.isPoweredOn then "OK" else "OFF")]]
    ∧ (checkHeightMechanism b).2
        = [Event.print [Arg.str "Checking height mechanism... ",
            Arg.str (if b.minHeight ≤ b.currentHeight ∧ b.currentHeight ≤ b.maxHeight
              then "OK" else "ERROR")]]
    ∧ (checkLightSystem b).2 = [Event.print [Arg.str "Checking light system... ", Arg.str "OK"]]
    ∧ (checkTemperatureSystem b).2
        = [Event.print [Arg.str "Checking temperature system... ", Arg.str "OK"]]
    ∧ (performSpecificChecks now b).2
        = (match b.derived with
            | BedClass.TestBed => []
            | BedClass.PatientBed _ => (PatientBed.performSpecificChecks now b).2
            | BedClass.SurgicalBed _ => (SurgicalBed.performSpecificChecks b).2) := by
  have hs := (checks_keep_state now b).2.2.2.2
  refine ⟨?_, ?_, rfl, ?_, rfl, rfl, ?_⟩
  · exact (@keeps_Bed_performMaintenanceCheck (fun x => x = b) now).keeps b rfl
  · simp only [performMaintenanceCheck, Act.seq_cons, Act.seq_nil]
    simp [checkPowerSystem, checkHeightMechanism, checkLightSystem, checkTemperatureSystem,
      Act.say, say, hs]
  · simp [checkHeightMechanism, Act.say]
  · unfold performSpecificChecks
    cases b.derived <;> rfl

/-- The height after `setHeight(h)` on a powered-on bed. -/
theorem setHeight_on (h : ℚ) (b : Bed) (hon : b.isPoweredOn = true) :
    (setHeight h b).1.getHeight
      = if b.minHeight ≤ h ∧ h ≤ b.maxHeight then h else b.getHeight := by
  by_cases hv : b.minHeight ≤ h ∧ h ≤ b.maxHeight
  · simp [setHeight, Act.ite, hon, validateHeightRange, hv, Act.seq, Act.modify, Act.say,
      getHeight]
  · have hv' : b.validateHeightRange h = false := by
      simp only [validateHeightRange, ge_iff_le, Bool.and_eq_false_imp, decide_eq_true_eq,
        decide_eq_false_iff_not]
      exact fun h1 h2 => hv ⟨h1, h2⟩
    simp [setHeight, Act.ite, hon, hv', hv, Act.say, getHeight]

/-- Counterexample to C16: on a powered-on patient bed at height 55 with limits
[40, 90], `setHeight(200)` and `setHeight(10)` leave the height at 55; it is set
neither to the maximum 90 nor to the minimum 40. -/
theorem setHeight_does_not_clamp :
    (run [Op.powerOn] PatientBed.new).1.isPoweredOn = true
    ∧ (run [Op.powerOn] PatientBed.new).1.minHeight = 40
    ∧ (run [Op.powerOn] PatientBed.new).1.maxHeight = 90
    ∧ (setHeight 200 (run [Op.powerOn] PatientBed.new).1).1.getHeight = 55
    ∧ (setHeight 200 (run [Op.powerOn] PatientBed.new).1).1.getHeight
        ≠ (run [Op.powerOn] PatientBed.new).1.maxHeight
    ∧ (setHeight 10 (run [Op.powerOn] PatientBed.new).1).1.getHeight = 55
    ∧ (setHeight 10 (run [Op.powerOn] PatientBed.new).1).1.getHeight
        ≠ (run [Op.powerOn] PatientBed.new).1.minHeight := by
  refine ⟨by decide, by decide, by decide, by decide, by decide, by decide, by decide⟩

/-- C16 as amended. On a powered-on bed, `setHeight(h)` with `h` above the
maximum height or below the minimum height leaves the height as it was (the
request is rejected, not clamped); the height becomes `h` exactly when `h` is
within the limits. -/
theorem setHeight_rejects_outside_limits (b : Bed) (h : ℚ) (hon : b.isPoweredOn = true) :
    (h > b.maxHeight → (setHeight h b).1.getHeight = b.getHeight)
    ∧ (h < b.minHeight → (setHeight h b).1.getHeight = b.getHeight)
    ∧ (b.minHeight ≤ h ∧ h ≤ b.maxHeight → (setHeight h b).1.getHeight = h)
    ∧ (setHeight h b).1.minHeight = b.minHeight
    ∧ (setHeight h b).1.maxHeight = b.maxHeight := by
  have hst := (@keeps_Bed_setHeight (Bed.Stable b.isPoweredOn b.minHeight b.maxHeight
    (fun _ => True)) _ h).keeps b (stable_self b)
  refine ⟨?_, ?_, ?_, hst.2.1, hst.2.2.1⟩
  · intro hgt
    rw [setHeight_on h b hon, if_neg (fun hv => absurd hv.2 (not_le.mpr hgt))]
  · intro hlt
    rw [setHeight_on h b hon, if_neg (fun hv => absurd hv.1 (not_le.mpr hlt))]
  · intro hv
    rw [setHeight_on h b hon, if_pos hv]

theorem setHeight_rejects_outside_limits_witness :
    (setHeight 200 (run [Op.powerOn] (Bed.new BedClass.TestBed)).1).1.getHeight
      = (run [Op.powerOn] (Bed.new BedClass.TestBed)).1.getHeight :=
  (setHeight_rejects_outside_limits (run [Op.powerOn] (Bed.new BedClass.TestBed)).1 200
    (by decide)).1 (by decide)

end Bed

/-! ## Frames of the member functions -/

namespace Bed

/-- A property of the power state, the height limits and the derived part
survives the assignments to the light strip, the temperature and the height. -/
theorem robust_frame (Q : Bool → ℚ → ℚ → BedClass → Prop) :
    Bed.Robust (fun b => Q b.isPoweredOn b.minHeight b.maxHeight b.derived) where
  light := fun _ _ _ hb => hb
  temperature := fun _ _ hb => hb
  height := fun _ _ _ hb => hb

/-- A member function that only assigns base members through the light strip,
the temperature control and validated heights leaves the power state, the
height limits and the derived part as they were. -/
theorem base_frame (a : Act Bed) (h : ∀ (P : Bed → Prop) [Bed.Robust P], Act.Keeps P a)
    (x : Bed) :
    (a x).1.isPoweredOn = x.isPoweredOn ∧ (a x).1.minHeight = x.minHeight
    ∧ (a x).1.maxHeight = x.maxHeight ∧ (a x).1.derived = x.derived :=
  (@h (fun b => b.isPoweredOn = x.isPoweredOn ∧ b.minHeight = x.minHeight
      ∧ b.maxHeight = x.maxHeight ∧ b.derived = x.derived)
    (robust_frame (fun pw lo hi d => pw = x.isPoweredOn ∧ lo = x.minHeight
      ∧ hi = x.maxHeight ∧ d = x.derived))).keeps x ⟨rfl, rfl, rfl, rfl⟩

/-- The kind of a bed, its height limits and the bounds on its height in a
state reached from construction. -/
theorem reached_facts (k : BedKind) (ops : List Op) :
    (run ops k.construct).1.derived.kind = k
    ∧ (run ops k.construct).1.minHeight = k.lowest
    ∧ (run ops k.construct).1.maxHeight = k.highest := by
  obtain ⟨_, _, hlo, hhi, _⟩ := run_stable ops false k.construct (construct_stable k)
  refine ⟨?_, hlo, hhi⟩
  exact @run_keeps (fun b => b.derived.kind = k)
    (robust_frame (fun _ _ _ d => d.kind = k))
    ⟨fun _ _ hd hb => hd.trans hb⟩ (fun _ _ hb => hb) ops k.construct (by cases k <;> rfl)

/-- The state of a powered-on bed after `setHeight(h)` with `h` within the limits. -/
theorem setHeight_accepted (h : ℚ) (b : Bed) (hon : b.isPoweredOn = true)
    (hlo : b.minHeight ≤ h) (hhi : h ≤ b.maxHeight) :
    (setHeight h b).1 = { b with currentHeight := h } := by
  simp [setHeight, Act.ite, hon, validateHeightRange, hlo, hhi, Act.seq, Act.modify, Act.say]

end Bed

/-! ## Surgical bed: sterile mode and procedures -/

namespace SurgicalBed

theorem surgical_data (b : Bed) (hs : b.isSurgicalBed = true) :
    ∃ d, b.derived = BedClass.SurgicalBed d := by
  unfold Bed.isSurgicalBed at hs
  cases hd : b.derived with
  | SurgicalBed d => exact ⟨d, rfl⟩
  | TestBed => simp [hd] at hs
  | PatientBed d => simp [hd] at hs

/-- The state of a powered-on surgical bed after `enterSterileMode()`. -/
theorem enterSterileMode_on (b : Bed) (d : SurgicalBedData)
    (hd : b.derived = BedClass.SurgicalBed d) (hon : b.isPoweredOn = true) :
    (enterSterileMode b).1
      = { b with
          lightStrip := (LightStrip.setColor ⟨255, 255, 255⟩
            (LightStrip.setBrightness (9 / 10) b.lightStrip).1).1,
          temperatureControl := { currentMode := Mode.COLD, temperature := 18 },
          derived := BedClass.SurgicalBed { d with sterileMode := true } } := by
  simp [enterSterileMode, Act.ite, hon, Act.seq, modify, Act.modify, hd, say,
    setupSterileEnvironment, Bed.onLight_state, Bed.setTemperature_on, Mode.celsius]

/-- The state of a surgical bed after `exitSterileMode()`. -/
theorem exitSterileMode_state (b : Bed) (d : SurgicalBedData)
    (hd : b.derived = BedClass.SurgicalBed d) :
    (exitSterileMode b).1
      = { b with
          lightStrip := (LightStrip.setColor ⟨255, 255, 255⟩
            (LightStrip.setBrightness (5 / 10) b.lightStrip).1).1,
          derived := BedClass.SurgicalBed { d with sterileMode := false } } := by
  simp [exitSterileMode, Act.seq, modify, Act.modify, hd, say, Bed.onLight_state]

/-- C18. A new surgical bed is not in sterile mode; on a powered-on surgical
bed `enterSterileMode()` makes `isSterileMode()` true and sets the temperature
to COLD, 18; on a powered-off bed it is refused: the state is unchanged, so
`isSterileMode()` stays false when it was false; `exitSterileMode()` always
leaves `isSterileMode()` false. -/
theorem sterile_mode_enter_exit (b : Bed) (hs : b.isSurgicalBed = true) :
    isSterileMode SurgicalBed.new = false
    ∧ (b.isPoweredOn = true →
        isSterileMode (enterSterileMode b).1 = true
        ∧ (enterSterileMode b).1.getCurrentTemperature = Mode.COLD
        ∧ (enterSterileMode b).1.getTemperatureValue = 18)
    ∧ (b.isPoweredOn = false →
        enterSterileMode b
          = (b, [Event.print [Arg.str "Cannot enter sterile mode - bed is powered off"]])
        ∧ (isSterileMode b = false → isSterileMode (enterSterileMode b).1 = false))
    ∧ isSterileMode (exitSterileMode b).1 = false := by
  obtain ⟨d, hd⟩ := surgical_data b hs
  refine ⟨rfl, ?_, ?_, ?_⟩
  · intro hon
    rw [enterSterileMode_on b d hd hon]
    exact ⟨rfl, rfl, rfl⟩
  · intro hoff
    have h : enterSterileMode b
        = (b, [Event.print [Arg.str "Cannot enter sterile mode - bed is powered off"]]) := by
      simp [enterSterileMode, Act.ite, hoff, say]
    rw [h]
    exact ⟨rfl, fun hf => hf⟩
  · rw [exitSterileMode_state b d hd]
    rfl

theorem sterile_mode_enter_exit_witness :
    isSterileMode (enterSterileMode (Bed.run [Bed.Op.powerOn] SurgicalBed.new).1).1 = true
    ∧ (enterSterileMode (Bed.run [Bed.Op.powerOn] SurgicalBed.new).1).1.getTemperatureValue = 18
    ∧ isSterileMode (enterSterileMode SurgicalBed.new).1 = false :=
  ⟨((sterile_mode_enter_exit (Bed.run [Bed.Op.powerOn] SurgicalBed.new).1 (by decide)).2.1
      (by decide)).1,
   ((sterile_mode_enter_exit (Bed.run [Bed.Op.powerOn] SurgicalBed.new).1 (by decide)).2.1
      (by decide)).2.2,
   ((sterile_mode_enter_exit SurgicalBed.new rfl).2.2.1 rfl).2 rfl⟩

end SurgicalBed

namespace SurgicalBed

/-- After `stopVitalMonitoring()` and `stopScan()` the device does not monitor. -/
theorem device_stopped (dev : ScannerDevice) :
    (ScannerDevice.stopScan (ScannerDevice.stopVitalMonitoring dev).1).1.isMonitoringVitals
      = false := by
  unfold ScannerDevice.isMonitoringVitals VitalSignMonitor.getMonitoringStatus
    ScannerDevice.stopScan ScannerDevice.stopVitalMonitoring
  rw [(ScannerDevice.onScanner_parts _ _).2.1, (ScannerDevice.onMonitor_parts _ _).2.1]
  unfold VitalSignMonitor.stopMonitoring Act.when Act.ite
  cases h : dev.vitalMonitor.isMonitoring <;> simp [h, Act.seq, Act.modify, Act.skip, say]

/-- After `startProcedure(p)` on a powered-on surgical bed the procedure is
active under the name `p`. -/
theorem startProcedure_on (p : String) (b : Bed) (d : SurgicalBedData)
    (hd : b.derived = BedClass.SurgicalBed d) (hon : b.isPoweredOn = true) :
    isProcedureActive (startProcedure p b).1 = true
    ∧ getCurrentProcedure (startProcedure p b).1 = p := by
  have hv := fun x => (Bed.base_frame (validateProcedureRequirements p)
    (fun P _ => inferInstance) x).2.2.2
  have ha := fun x => (Bed.base_frame (adjustForProcedure p) (fun P _ => inferInstance) x).2.2.2
  have hstate : (startProcedure p b).1
      = (onDevice ScannerDevice.startVitalMonitoring
          (adjustForProcedure p (validateProcedureRequirements p
            { b with derived :=
                BedClass.SurgicalBed { d with procedureInProgress := true, currentProcedure := p }
            }).1).1).1 := by
    simp only [startProcedure, Act.ite, hon, Bool.not_true, Bool.false_eq_true, if_false,
      Act.seq_cons_state, Act.seq_nil_state, when_say_state, say_state, modify,
      Act.modify_state, hd]
  rw [hstate]
  unfold onDevice
  simp only [ha, hv, isProcedureActive, getCurrentProcedure]
  exact ⟨trivial, trivial⟩

/-- The state of a powered-on surgical bed with an active procedure after
`endProcedure()`, when 85 lies within the height limits. -/
theorem endProcedure_active (b : Bed) (d : SurgicalBedData)
    (hd : b.derived = BedClass.SurgicalBed d) (hon : b.isPoweredOn = true)
    (hpip : d.procedureInProgress = true) (hlo : b.minHeight ≤ 85) (hhi : 85 ≤ b.maxHeight) :
    (endProcedure b).1
      = { b with
          lightStrip := (LightStrip.setColor ⟨255, 255, 255⟩
            (LightStrip.setBrightness (5 / 10) b.lightStrip).1).1,
          currentHeight := 85,
          derived := BedClass.SurgicalBed
            { d with
              procedureInProgress := false, currentProcedure := "", sterileMode := false,
              medicalDevice :=
                (ScannerDevice.stopScan (ScannerDevice.stopVitalMonitoring d.medicalDevice).1).1 } } := by
  simp [endProcedure, Act.ite, isProcedureActive, hd, hpip, Act.seq, Act.say, modify, Act.modify,
    onDevice, Bed.setHeight_accepted, exitSterileMode, say, Bed.onLight_state, hon, hlo, hhi]

end SurgicalBed

namespace SurgicalBed

theorem surgical_data_of_kind (b : Bed) (hk : b.derived.kind = BedKind.surgical) :
    ∃ d, b.derived = BedClass.SurgicalBed d := by
  cases hd : b.derived with
  | SurgicalBed d => exact ⟨d, rfl⟩
  | TestBed => simp [hd, BedClass.kind] at hk
  | PatientBed d => simp [hd, BedClass.kind] at hk

/-- C17. In every state of a surgical bed reached from construction: if the
bed is powered on, `startProcedure(p)` makes `isProcedureActive()` true and
`getCurrentProcedure()` equal to `p`, whether or not sterile mode is active; if
the bed is powered on and a procedure is active, `endProcedure()` makes
`isProcedureActive()` false, clears the procedure name, leaves sterile mode off,
stops vital monitoring and sets the height to 85; `endProcedure()` with no
active procedure and `startProcedure(p)` on a powered-off bed change nothing. -/
theorem procedure_start_and_end (ops : List Bed.Op) (p : String) :
    ((Bed.run ops SurgicalBed.new).1.isPoweredOn = true →
        isProcedureActive (startProcedure p (Bed.run ops SurgicalBed.new).1).1 = true
        ∧ getCurrentProcedure (startProcedure p (Bed.run ops SurgicalBed.new).1).1 = p)
    ∧ ((Bed.run ops SurgicalBed.new).1.isPoweredOn = true →
        isProcedureActive (Bed.run ops SurgicalBed.new).1 = true →
        isProcedureActive (endProcedure (Bed.run ops SurgicalBed.new).1).1 = false
        ∧ getCurrentProcedure (endProcedure (Bed.run ops SurgicalBed.new).1).1 = ""
        ∧ isSterileMode (endProcedure (Bed.run ops SurgicalBed.new).1).1 = false
        ∧ (∀ d, (endProcedure (Bed.run ops SurgicalBed.new).1).1.derived = BedClass.SurgicalBed d →
            d.medicalDevice.isMonitoringVitals = false)
        ∧ (endProcedure (Bed.run ops SurgicalBed.new).1).1.getHeight = 85)
    ∧ (isProcedureActive (Bed.run ops SurgicalBed.new).1 = false →
        endProcedure (Bed.run ops SurgicalBed.new).1
          = ((Bed.run ops SurgicalBed.new).1,
              [Event.print [Arg.str "No active procedure to end"]]))
    ∧ ((Bed.run ops SurgicalBed.new).1.isPoweredOn = false →
        startProcedure p (Bed.run ops SurgicalBed.new).1
          = ((Bed.run ops SurgicalBed.new).1,
              [Event.print [Arg.str "Cannot start procedure - bed is powered off"]])) := by
  obtain ⟨hk, hlo, hhi⟩ := Bed.reached_facts BedKind.surgical ops
  change (Bed.run ops SurgicalBed.new).1.derived.kind = BedKind.surgical at hk
  change (Bed.run ops SurgicalBed.new).1.minHeight = 60 at hlo
  change (Bed.run ops SurgicalBed.new).1.maxHeight = 120 at hhi
  obtain ⟨d, hd⟩ := surgical_data_of_kind _ hk
  refine ⟨fun hon => startProcedure_on p _ d hd hon, ?_, ?_, ?_⟩
  · intro hon hact
    have hpip : d.procedureInProgress = true := by
      simpa [isProcedureActive, hd] using hact
    rw [endProcedure_active _ d hd hon hpip (by rw [hlo]; norm_num) (by rw [hhi]; norm_num)]
    refine ⟨rfl, rfl, rfl, ?_, rfl⟩
    intro d' hd'
    simp only [BedClass.SurgicalBed.injEq] at hd'
    rw [← hd']
    exact device_stopped d.medicalDevice
  · intro hact
    simp [endProcedure, Act.ite, hact, say]
  · intro hoff
    simp [startProcedure, Act.ite, hoff, say]

theorem procedure_start_and_end_witness :
    isProcedureActive
        (startProcedure "brain_surgery" (Bed.run [Bed.Op.powerOn] SurgicalBed.new).1).1 = true
    ∧ getCurrentProcedure
        (startProcedure "brain_surgery" (Bed.run [Bed.Op.powerOn] SurgicalBed.new).1).1
        = "brain_surgery"
    ∧ (endProcedure
        (Bed.run [Bed.Op.powerOn, Bed.Op.startProcedure "brain_surgery"] SurgicalBed.new).1).1.getHeight
        = 85 :=
  ⟨((procedure_start_and_end [Bed.Op.powerOn] "brain_surgery").1 (by decide)).1,
   ((procedure_start_and_end [Bed.Op.powerOn] "brain_surgery").1 (by decide)).2,
   ((procedure_start_and_end [Bed.Op.powerOn, Bed.Op.startProcedure "brain_surgery"] "x").2.1
      (by decide) (by decide)).2.2.2.2⟩

end SurgicalBed

/-! ## Patient bed: occupancy and comfort mode -/

namespace PatientBed

theorem patient_data_of_kind (b : Bed) (hk : b.derived.kind = BedKind.patient) :
    ∃ d, b.derived = BedClass.PatientBed d := by
  cases hd : b.derived with
  | PatientBed d => exact ⟨d, rfl⟩
  | TestBed => simp [hd, BedClass.kind] at hk
  | SurgicalBed d => simp [hd, BedClass.kind] at hk

theorem patient_data (b : Bed) (hp : b.isPatientBed = true) :
    ∃ d, b.derived = BedClass.PatientBed d := by
  unfold Bed.isPatientBed at hp
  cases hd : b.derived with
  | PatientBed d => exact ⟨d, rfl⟩
  | TestBed => simp [hd] at hp
  | SurgicalBed d => simp [hd] at hp

/-- The occupancy sensor of the bed is in state `s`. -/
theorem sensor_robust (s : OccupancySensor) :
    Bed.Robust (fun b : Bed => ∃ d, b.derived = BedClass.PatientBed d ∧ d.occupancySensor = s) :=
  Bed.robust_frame (fun _ _ _ dv => ∃ d, dv = BedClass.PatientBed d ∧ d.occupancySensor = s)

/-- The callbacks of the bed do not touch the occupancy sensor. -/
theorem deliver_keeps_sensor (s : OccupancySensor) (now : ℚ) (e : Event) :
    Act.Keeps (fun b : Bed => ∃ d, b.derived = BedClass.PatientBed d ∧ d.occupancySensor = s)
      (deliver now e) := by
  haveI := sensor_robust s
  haveI hmod : Act.Keeps
      (fun b : Bed => ∃ d, b.derived = BedClass.PatientBed d ∧ d.occupancySensor = s)
      (modify (fun d => { d with lastOccupancyTime := now })) :=
    ⟨fun b hb => by
      obtain ⟨d, hd, hs⟩ := hb
      exact ⟨{ d with lastOccupancyTime := now }, by simp [modify, Act.modify, hd], hs⟩⟩
  cases e <;> unfold deliver <;> try infer_instance
  · unfold onPatientEntered
    infer_instance

/-- After a call on the sensor the sensor is in the state the call gives. -/
theorem onSensor_sensor (now : ℚ) (f : Act OccupancySensor) (b : Bed) (d : PatientBedData)
    (hd : b.derived = BedClass.PatientBed d) :
    ∃ d', (onSensor now f b).1.derived = BedClass.PatientBed d'
      ∧ d'.occupancySensor = (f d.occupancySensor).1 := by
  unfold onSensor
  rw [hd]
  exact (@keeps_seq_map Bed Event _ (deliver now)
    (fun e => deliver_keeps_sensor (f d.occupancySensor).1 now e) (f d.occupancySensor).2).keeps _
    ⟨_, rfl, rfl⟩

/-- C19. A new patient bed is unoccupied; on a patient bed in any state, and so
in any power state, `isOccupied()` is true after `simulatePatientEntry()` and
false after `simulatePatientExit()`; `simulatePatientEntry()` on an occupied bed
and `simulatePatientExit()` on an unoccupied bed leave the whole bed state
unchanged (the sensor notifies only on a change). -/
theorem occupancy_follows_entry_and_exit (b : Bed) (now : ℚ) (hp : b.isPatientBed = true) :
    isOccupied PatientBed.new = false
    ∧ isOccupied (simulatePatientEntry now b).1 = true
    ∧ isOccupied (simulatePatientExit b).1 = false
    ∧ (isOccupied b = true → (simulatePatientEntry now b).1 = b
        ∧ (simulatePatientEntry now b).2 = [Event.print [Arg.str "Patient entering bed..."]])
    ∧ (isOccupied b = false → (simulatePatientExit b).1 = b
        ∧ (simulatePatientExit b).2 = [Event.print [Arg.str "Patient leaving bed..."]]) := by
  obtain ⟨d, hd⟩ := patient_data b hp
  have hval : ∀ (t : ℚ) (v : Bool),
      isOccupied (onSensor t (OccupancySensor.setOccupied v) b).1 = v := by
    intro t v
    obtain ⟨d', hd', hs⟩ := onSensor_sensor t (OccupancySensor.setOccupied v) b d hd
    simp only [isOccupied, hd', OccupancySensor.getOccupied, hs]
    unfold OccupancySensor.setOccupied Act.when Act.ite
    by_cases hc : (d.occupancySensor.isOccupied != v) = true
    · simp only [hc, if_true, Act.seq_cons_state, Act.modify_state]
      cases v <;> rfl
    · simp only [hc, Act.skip]
      simpa using hc
  have hsame : ∀ (t : ℚ) (v : Bool), isOccupied b = v →
      onSensor t (OccupancySensor.setOccupied v) b = (b, []) := by
    intro t v hv
    have hocc : d.occupancySensor.isOccupied = v := by
      simpa [isOccupied, hd, OccupancySensor.getOccupied] using hv
    have hb : b = { b with derived := BedClass.PatientBed d } := by rw [← hd]
    simp only [onSensor, hd, OccupancySensor.setOccupied, Act.when, Act.ite, hocc, bne_self_eq_false,
      Bool.false_eq_true, if_false, Act.skip, List.map_nil, Act.seq_nil]
    rw [← hb]
  refine ⟨rfl, ?_, ?_, ?_, ?_⟩
  · exact hval now true
  · exact hval 0 false
  · intro h
    simp [simulatePatientEntry, Act.seq, say, hsame now true h]
  · intro h
    simp [simulatePatientExit, Act.seq, say, hsame 0 false h]

theorem occupancy_follows_entry_and_exit_witness :
    isOccupied (simulatePatientEntry 100 PatientBed.new).1 = true
    ∧ isOccupied (simulatePatientExit (simulatePatientEntry 100 PatientBed.new).1).1 = false :=
  ⟨(occupancy_follows_entry_and_exit PatientBed.new 100 rfl).2.1,
   (occupancy_follows_entry_and_exit (simulatePatientEntry 100 PatientBed.new).1 100
      (by decide)).2.2.1⟩

end PatientBed

namespace PatientBed

/-- The state of a powered-on bed after `adjustForPatientComfort()`, when 50
lies within the height limits. -/
theorem adjustForPatientComfort_on (b : Bed) (hon : b.isPoweredOn = true)
    (hlo : b.minHeight ≤ 50) (hhi : 50 ≤ b.maxHeight) :
    (adjustForPatientComfort b).1
      = { b with
          lightStrip := (LightStrip.setColor ⟨255, 240, 200⟩
            (LightStrip.setBrightness (4 / 10) b.lightStrip).1).1,
          temperatureControl := { currentMode := Mode.WARM, temperature := 26 },
          currentHeight := 50 } := by
  simp [adjustForPatientComfort, Act.ite, hon, Act.seq, say, Bed.setHeight_accepted,
    Bed.setTemperature_on, Bed.onLight_state, hlo, hhi, Mode.celsius]

/-- C20. In every state of a patient bed reached from construction, after
`enableComfortMode()` `isComfortModeEnabled()` is true, whatever the power
state (it is false on a new bed and after `disableComfortMode()`); if the bed
is powered on and occupied the height becomes 50 and the temperature WARM, 26;
if it is powered off or unoccupied, height and temperature are unchanged. -/
theorem enableComfortMode_postcondition (ops : List Bed.Op) :
    isComfortModeEnabled PatientBed.new = false
    ∧ isComfortModeEnabled (enableComfortMode (Bed.run ops PatientBed.new).1).1 = true
    ∧ isComfortModeEnabled (disableComfortMode (Bed.run ops PatientBed.new).1).1 = false
    ∧ ((Bed.run ops PatientBed.new).1.isPoweredOn = true →
        isOccupied (Bed.run ops PatientBed.new).1 = true →
        (enableComfortMode (Bed.run ops PatientBed.new).1).1.getHeight = 50
        ∧ (enableComfortMode (Bed.run ops PatientBed.new).1).1.getCurrentTemperature = Mode.WARM
        ∧ (enableComfortMode (Bed.run ops PatientBed.new).1).1.getTemperatureValue = 26)
    ∧ ((Bed.run ops PatientBed.new).1.isPoweredOn = false
          ∨ isOccupied (Bed.run ops PatientBed.new).1 = false →
        (enableComfortMode (Bed.run ops PatientBed.new).1).1.getHeight
            = (Bed.run ops PatientBed.new).1.getHeight
        ∧ (enableComfortMode (Bed.run ops PatientBed.new).1).1.getCurrentTemperature
            = (Bed.run ops PatientBed.new).1.getCurrentTemperature
        ∧ (enableComfortMode (Bed.run ops PatientBed.new).1).1.getTemperatureValue
            = (Bed.run ops PatientBed.new).1.getTemperatureValue) := by
  obtain ⟨hk, hlo, hhi⟩ := Bed.reached_facts BedKind.patient ops
  change (Bed.run ops PatientBed.new).1.derived.kind = BedKind.patient at hk
  change (Bed.run ops PatientBed.new).1.minHeight = 40 at hlo
  change (Bed.run ops PatientBed.new).1.maxHeight = 90 at hhi
  obtain ⟨d, hd⟩ := patient_data_of_kind _ hk
  generalize (Bed.run ops PatientBed.new).1 = b at hk hlo hhi hd ⊢
  have hen : (enableComfortMode b).1
      = (Act.when isOccupied adjustForPatientComfort
          { b with derived := BedClass.PatientBed { d with comfortMode := true } }).1 := by
    simp only [enableComfortMode, Act.seq_cons_state, Act.seq_nil_state, say_state, modify,
      Act.modify_state, hd]
  have hdis : (disableComfortMode b).1
      = (resetToDefaultSettings
          { b with derived := BedClass.PatientBed { d with comfortMode := false } }).1 := by
    simp only [disableComfortMode, Act.seq_cons_state, Act.seq_nil_state, say_state, modify,
      Act.modify_state, hd]
  have hocc : isOccupied { b with derived := BedClass.PatientBed { d with comfortMode := true } }
      = isOccupied b := by
    simp [isOccupied, hd]
  refine ⟨rfl, ?_, ?_, ?_, ?_⟩
  · rw [hen]
    have hf := (Bed.base_frame (Act.when isOccupied adjustForPatientComfort)
      (fun P _ => inferInstance)
      { b with derived := BedClass.PatientBed { d with comfortMode := true } }).2.2.2
    simp only [isComfortModeEnabled, hf]
  · rw [hdis]
    have hf := (Bed.base_frame resetToDefaultSettings (fun P _ => inferInstance)
      { b with derived := BedClass.PatientBed { d with comfortMode := false } }).2.2.2
    simp only [isComfortModeEnabled, hf]
  · intro hon ho
    rw [hen]
    simp only [Act.when, Act.ite, hocc, ho, if_true]
    have hon1 : ({ b with derived := BedClass.PatientBed { d with comfortMode := true } }
        : Bed).isPoweredOn = true := hon
    rw [adjustForPatientComfort_on _ hon1 (by simp [hlo]; norm_num) (by simp [hhi]; norm_num)]
    exact ⟨rfl, rfl, rfl⟩
  · intro h
    rw [hen]
    rcases h with hoff | hno
    · have hskip : ∀ x : Bed, x.isPoweredOn = false → (adjustForPatientComfort x).1 = x := by
        intro x hx
        simp [adjustForPatientComfort, Act.ite, hx, Act.skip]
      have hoff1 : ({ b with derived := BedClass.PatientBed { d with comfortMode := true } }
          : Bed).isPoweredOn = false := hoff
      simp only [Act.when, Act.ite]
      split
      · rw [hskip _ hoff1]
        exact ⟨rfl, rfl, rfl⟩
      · exact ⟨rfl, rfl, rfl⟩
    · simp only [Act.when, Act.ite, hocc, hno, Bool.false_eq_true, if_false, Act.skip]
      exact ⟨rfl, rfl, rfl⟩

theorem enableComfortMode_postcondition_witness :
    (enableComfortMode
        (Bed.run [Bed.Op.powerOn, Bed.Op.simulatePatientEntry 100] PatientBed.new).1).1.getHeight
      = 50 :=
  ((enableComfortMode_postcondition [Bed.Op.powerOn, Bed.Op.simulatePatientEntry 100]).2.2.2.1
    (by decide) (by decide)).1

end PatientBed

/-! ## The factories: available types, the scripting-layer factory -/

namespace BedFactory

/-- C21. `getAvailableBedTypes()` returns exactly the two names "patient_bed" and
"surgical_bed"; every name it returns is recognised by `stringToBedType` without
the unknown-type fallback, and `createBedFromString` yields for "patient_bed" a
bed of class PatientBed and for "surgical_bed" a bed of class SurgicalBed. -/
theorem getAvailableBedTypes_names_accepted :
    getAvailableBedTypes = ["patient_bed", "surgical_bed"]
    ∧ (∀ n ∈ getAvailableBedTypes, (stringToBedType n).2 = [])
    ∧ stringToBedType "patient_bed" = (BedType.PATIENT, [])
    ∧ stringToBedType "surgical_bed" = (BedType.SURGICAL, [])
    ∧ (∃ b, (createBedFromString "patient_bed").1 = some b ∧ b.getClassName = "PatientBed"
        ∧ b.isPatientBed = true)
    ∧ (∃ b, (createBedFromString "surgical_bed").1 = some b ∧ b.getClassName = "SurgicalBed"
        ∧ b.isSurgicalBed = true) := by
  have hp : stringToBedType "patient_bed" = (BedType.PATIENT, []) := by
    unfold stringToBedType
    rw [if_pos (by decide)]
  have hs : stringToBedType "surgical_bed" = (BedType.SURGICAL, []) := by
    unfold stringToBedType
    rw [if_neg (by decide), if_pos (by decide)]
  refine ⟨rfl, ?_, hp, hs, ⟨PatientBed.new, ?_, rfl, rfl⟩, ⟨SurgicalBed.new, ?_, rfl, rfl⟩⟩
  · intro n hn
    simp only [getAvailableBedTypes, List.mem_cons, List.mem_singleton, List.not_mem_nil,
      or_false] at hn
    rcases hn with rfl | rfl
    · rw [hp]
    · rw [hs]
  · simp only [createBedFromString, hp, createBed]
  · simp only [createBedFromString, hs, createBed]

end BedFactory

namespace GodotBedFactory

/-- C22. For every integer `t`, `create_bed_by_type(t)` returns a non-null bed,
which it has added to the factory's children: a PatientBed when `t = 0`, a
SurgicalBed when `t = 1`, and a PatientBed for every other `t`;
`get_bed_type_name(t)` is "Patient Bed" for 0, "Surgical Bed" for 1 and
"Unknown Bed Type" for every other `t`. -/
theorem create_bed_by_type_total (t : Int) (f : GodotBedFactory) :
    (∃ b, (create_bed_by_type t f).1 = some b
      ∧ b = (if t = 1 then SurgicalBed.new else PatientBed.new)
      ∧ b.getClassName = (if t = 1 then "SurgicalBed" else "PatientBed")
      ∧ b.isSurgicalBed = decide (t = 1)
      ∧ b.isPatientBed = decide (t ≠ 1)
      ∧ (create_bed_by_type t f).2.1.children = f.children ++ [b])
    ∧ get_bed_type_name t
        = (if t = 0 then "Patient Bed" else if t = 1 then "Surgical Bed"
            else "Unknown Bed Type") := by
  refine ⟨?_, rfl⟩
  by_cases h0 : t = 0
  · subst h0
    exact ⟨PatientBed.new, rfl, rfl, rfl, rfl, rfl, rfl⟩
  · by_cases h1 : t = 1
    · subst h1
      exact ⟨SurgicalBed.new, rfl, rfl, rfl, rfl, rfl, rfl⟩
    · refine ⟨PatientBed.new, ?_, ?_, ?_, ?_, ?_, ?_⟩
      · simp [create_bed_by_type, PATIENT_BED_TYPE, SURGICAL_BED_TYPE, h0, h1,
          create_patient_bed, createPatientBedInternal]
      · rw [if_neg h1]
      · rw [if_neg h1]; rfl
      · simp [h1]; rfl
      · simp [h1]; rfl
      · simp [create_bed_by_type, PATIENT_BED_TYPE, SURGICAL_BED_TYPE, h0, h1,
          create_patient_bed, createPatientBedInternal, add_child]

end GodotBedFactory

/-! ## The light-strip wrapper -/

namespace GodotLightStrip

/-- C23. For every behaviour name `s`, after `set_behavior(s)` the strip of the
wrapper is in emergency mode if and only if the lowercased `s` equals
"emergency" (every other name, known or unknown, yields normal mode), and
`get_current_mode()` returns "Emergency" or "Normal" accordingly; `to_lower`
is the engine's lowercasing, whatever function it is. -/
theorem set_behavior_emergency_iff (to_lower : String → String) (s : String) (ls : LightStrip) :
    ∃ ls1, (set_behavior to_lower s { cpp_light_strip := some ls }).1.cpp_light_strip = some ls1
      ∧ (ls1.isEmergencyMode = true ↔ to_lower s = "emergency")
      ∧ (ls1.isEmergencyMode = false ↔ to_lower s ≠ "emergency")
      ∧ get_current_mode (set_behavior to_lower s { cpp_light_strip := some ls }).1
          = (if to_lower s = "emergency" then "Emergency" else "Normal") := by
  have hE : cStr "Emergency" = "Emergency" := by decide
  have hN : cStr "Normal" = "Normal" := by decide
  by_cases h : to_lower s = "emergency"
  · refine ⟨(LightStrip.activateEmergencyMode ls).1, ?_, ?_, ?_, ?_⟩
    · simp [set_behavior, h]
    · simp [h, LightStrip.activateEmergencyMode_eq, LightStrip.isEmergencyMode,
        LightBehavior.isEmergencyMode]
    · simp [h, LightStrip.activateEmergencyMode_eq, LightStrip.isEmergencyMode,
        LightBehavior.isEmergencyMode]
    · simp [set_behavior, h, get_current_mode, get_current_behavior,
        LightStrip.activateEmergencyMode_eq, LightStrip.getCurrentMode,
        LightBehavior.getBehaviorType, hE]
  · refine ⟨(LightStrip.deactivateEmergencyMode ls).1, ?_, ?_, ?_, ?_⟩
    · simp only [set_behavior, if_neg h]
      split <;> rfl
    · simp [h, LightStrip.deactivateEmergencyMode_eq, LightStrip.isEmergencyMode,
        LightBehavior.isEmergencyMode, LightBehavior.newNormal]
    · simp [h, LightStrip.deactivateEmergencyMode_eq, LightStrip.isEmergencyMode,
        LightBehavior.isEmergencyMode, LightBehavior.newNormal]
    · have hg : (set_behavior to_lower s { cpp_light_strip := some ls }).1
          = { cpp_light_strip := some (LightStrip.deactivateEmergencyMode ls).1 } := by
        simp only [set_behavior, if_neg h]
        split <;> rfl
      rw [hg, if_neg h]
      simp [get_current_mode, get_current_behavior, LightStrip.deactivateEmergencyMode_eq,
        LightStrip.getCurrentMode, LightBehavior.getBehaviorType, LightBehavior.newNormal, hN]

end GodotLightStrip

namespace GodotLightStrip

/-- Counterexample to C24: on a freshly constructed wrapper, `set_brightness(0.8)`
followed by `get_brightness()` returns 1, not 0.8, although 0.8 lies in [0,1]
and the underlying strip has taken the brightness 0.8. -/
theorem get_brightness_ignores_set_brightness :
    (0 : ℚ) ≤ 4 / 5 ∧ (4 / 5 : ℚ) ≤ 1
    ∧ get_brightness (set_brightness (4 / 5) new).1 = 1
    ∧ get_brightness (set_brightness (4 / 5) new).1 ≠ 4 / 5
    ∧ (set_brightness (4 / 5) new).1.cpp_light_strip
        = some { lightBehavior := some (LightBehavior.NormalLightBehavior (4 / 5)
                  ⟨255, 255, 255⟩ false),
                 observers := [] } := by
  have hc : clampBrightness (4 / 5) = 4 / 5 := by
    unfold clampBrightness
    norm_num
  have hm : stdMax 0 (stdMin 1 (4 / 5 : ℚ)) = 4 / 5 := by
    unfold stdMax stdMin
    norm_num
  refine ⟨by norm_num, by norm_num, rfl, ?_, ?_⟩
  · show (1 : ℚ) ≠ 4 / 5
    norm_num
  · simp [set_brightness, onStrip, new, LightStrip.new, LightStrip.setBrightness,
      LightStrip.onBehavior, LightBehavior.newNormal, LightBehavior.setBrightness, hc, hm]

/-- C24 as amended. For every brightness `v` and every wrapper with a strip,
`set_brightness(v)` followed by `get_brightness()` returns the constant 1
whatever `v` is, so it returns `v` only for `v = 1`; the value is passed on to
the underlying strip: for `v` in [0,1] a strip with a normal behaviour holds
brightness `v` afterwards, colour and active flag unchanged. -/
theorem get_brightness_constant_after_set_brightness (v : ℚ) (ls : LightStrip) :
    get_brightness (set_brightness v { cpp_light_strip := some ls }).1 = 1
    ∧ (get_brightness (set_brightness v { cpp_light_strip := some ls }).1 = v ↔ v = 1)
    ∧ (0 ≤ v → v ≤ 1 → ∀ (br : ℚ) (c : LightColor) (a : Bool),
        ls.lightBehavior = some (LightBehavior.NormalLightBehavior br c a) →
        (set_brightness v { cpp_light_strip := some ls }).1.cpp_light_strip
          = some { ls with lightBehavior := some (LightBehavior.NormalLightBehavior v c a) }) := by
  have h1 : get_brightness (set_brightness v { cpp_light_strip := some ls }).1 = 1 := rfl
  refine ⟨h1, ?_, ?_⟩
  · rw [h1]
    exact eq_comm
  · intro h0 hv br c a hb
    have hc : clampBrightness v = v := by
      unfold clampBrightness
      rw [if_neg (not_lt.mpr h0), if_neg (not_lt.mpr hv)]
    have hm : stdMax 0 (stdMin 1 v) = v := by
      unfold stdMax stdMin
      split_ifs <;> linarith
    simp [set_brightness, onStrip, LightStrip.setBrightness, LightStrip.onBehavior, hb,
      LightBehavior.setBrightness, hc, hm]

theorem get_brightness_constant_after_set_brightness_witness :
    (set_brightness (1 / 4) { cpp_light_strip := some LightStrip.new }).1.cpp_light_strip
      = some { LightStrip.new with
          lightBehavior := some (LightBehavior.NormalLightBehavior (1 / 4) ⟨255, 255, 255⟩ false) } :=
  (get_brightness_constant_after_set_brightness (1 / 4) LightStrip.new).2.2
    (by norm_num) (by norm_num) (1 / 2) ⟨255, 255, 255⟩ false rfl

end GodotLightStrip

/-! ## The window and its two state objects -/

namespace CustomWindow

/-- C25. `set_shade(s)` replaces only the shade state and leaves the curtain
state unchanged, and `set_curtain(c)` replaces only the curtain state and leaves
the shade state unchanged, both without output; `apply_shade()` and
`operate_curtain()` leave the window unchanged and produce the output of the
state currently set, and when none is set only the message "No shade state set" /
"No curtain state set". -/
theorem set_state_frames_and_delegation (w : CustomWindow) (s : Option ShadeState)
    (c : Option CurtainState) (s1 : ShadeState) (c1 : CurtainState) :
    set_shade s w = ({ shade := s, curtain := w.curtain }, [])
    ∧ set_curtain c w = ({ shade := w.shade, curtain := c }, [])
    ∧ apply_shade { shade := some s1, curtain := c }
        = ({ shade := some s1, curtain := c }, s1.apply_shade)
    ∧ apply_shade { shade := none, curtain := c }
        = ({ shade := none, curtain := c }, [Event.print [Arg.str "No shade state set"]])
    ∧ operate_curtain { shade := s, curtain := some c1 }
        = ({ shade := s, curtain := some c1 }, c1.operate_curtain)
    ∧ operate_curtain { shade := s, curtain := none }
        = ({ shade := s, curtain := none }, [Event.print [Arg.str "No curtain state set"]])
    ∧ (apply_shade (set_shade (some s1) w).1).2 = s1.apply_shade
    ∧ (operate_curtain (set_curtain (some c1) w).1).2 = c1.operate_curtain :=
  ⟨rfl, rfl, rfl, rfl, rfl, rfl, rfl, rfl⟩

end CustomWindow

/-! ## The factory of the test harness against the production factory -/

namespace BedTestMock

namespace MockBedFactory

theorem createBedFromString_cases (s : String) :
    (toLowerCase s ∈ ["patient_bed", "patient", "patientbed", "patient-bed"]
      ∧ createBedFromString s = some MockPatientBed.new)
    ∨ (toLowerCase s ∈ ["surgical_bed", "surgical", "surgicalbed", "surgical-bed", "surgery"]
      ∧ createBedFromString s = some MockSurgicalBed.new)
    ∨ (toLowerCase s ∉ ["patient_bed", "patient", "patientbed", "patient-bed", "surgical_bed",
          "surgical", "surgicalbed", "surgical-bed", "surgery"]
      ∧ createBedFromString s = none) := by
  unfold createBedFromString
  generalize toLowerCase s = l
  by_cases hp : l = "patient_bed" ∨ l = "patient" ∨ l = "patientbed" ∨ l = "patient-bed"
  · left
    rw [if_pos hp]
    refine ⟨?_, rfl⟩
    simpa using hp
  · by_cases hs : l = "surgical_bed" ∨ l = "surgical" ∨ l = "surgicalbed" ∨ l = "surgical-bed"
        ∨ l = "surgery"
    · right; left
      rw [if_neg hp, if_pos hs]
      refine ⟨?_, rfl⟩
      simpa using hs
    · right; right
      rw [if_neg hp, if_neg hs]
      refine ⟨?_, rfl⟩
      simp only [List.mem_cons, List.mem_singleton, List.not_mem_nil, or_false]
      tauto

/-- C26. The test-mock factory's `createBedFromString` returns a null result
for exactly the strings whose lowercased form is not one of its aliases, and a
non-null bed for the others; "", "unknown", "invalid_bed_type", "INVALID" and
"unknown_type" get a null result. -/
theorem createBedFromString_null_iff_not_alias (s : String) :
    (createBedFromString s = none
      ↔ toLowerCase s ∉ ["patient_bed", "patient", "patientbed", "patient-bed", "surgical_bed",
          "surgical", "surgicalbed", "surgical-bed", "surgery"])
    ∧ ((∃ b, createBedFromString s = some b)
      ↔ toLowerCase s ∈ ["patient_bed", "patient", "patientbed", "patient-bed", "surgical_bed",
          "surgical", "surgicalbed", "surgical-bed", "surgery"])
    ∧ (∀ t ∈ ["", "unknown", "invalid_bed_type", "INVALID", "unknown_type"],
        createBedFromString t = none) := by
  have key : createBedFromString s = none
      ↔ toLowerCase s ∉ ["patient_bed", "patient", "patientbed", "patient-bed", "surgical_bed",
          "surgical", "surgicalbed", "surgical-bed", "surgery"] := by
    rcases createBedFromString_cases s with ⟨hm, he⟩ | ⟨hm, he⟩ | ⟨hm, he⟩
    · rw [he]
      simp only [List.mem_cons, List.mem_singleton, List.not_mem_nil, or_false] at hm ⊢
      constructor
      · intro h; cases h
      · intro h; exact absurd (by tauto) h
    · rw [he]
      simp only [List.mem_cons, List.mem_singleton, List.not_mem_nil, or_false] at hm ⊢
      constructor
      · intro h; cases h
      · intro h; exact absurd (by tauto) h
    · rw [he]
      exact ⟨fun _ => hm, fun _ => rfl⟩
  refine ⟨key, ?_, by decide⟩
  rw [← not_iff_not, ← key]
  cases h : createBedFromString s <;> simp

end MockBedFactory

end BedTestMock

namespace BedFactory

/-- The production factory on a string whose lowercased form is a patient alias. -/
theorem createBedFromString_patient_aux (s : String)
    (hp : toLowerCase s = "patient_bed" ∨ toLowerCase s = "patient"
      ∨ toLowerCase s = "patientbed") :
    (createBedFromString s).1 = some PatientBed.new := by
  simp only [createBedFromString, stringToBedType, if_pos hp, createBed]

/-- The production factory on a string whose lowercased form is a surgical alias. -/
theorem createBedFromString_surgical_aux (s : String)
    (hp : ¬ (toLowerCase s = "patient_bed" ∨ toLowerCase s = "patient"
      ∨ toLowerCase s = "patientbed"))
    (hs : toLowerCase s = "surgical_bed" ∨ toLowerCase s = "surgical"
      ∨ toLowerCase s = "surgery" ∨ toLowerCase s = "surgicalbed") :
    (createBedFromString s).1 = some SurgicalBed.new := by
  simp only [createBedFromString, stringToBedType, if_neg hp, if_pos hs, createBed]

/-- The production factory on a string whose lowercased form is no alias. -/
theorem createBedFromString_fallback_aux (s : String)
    (hp : ¬ (toLowerCase s = "patient_bed" ∨ toLowerCase s = "patient"
      ∨ toLowerCase s = "patientbed"))
    (hs : ¬ (toLowerCase s = "surgical_bed" ∨ toLowerCase s = "surgical"
      ∨ toLowerCase s = "surgery" ∨ toLowerCase s = "surgicalbed")) :
    (createBedFromString s).1 = some PatientBed.new := by
  simp only [createBedFromString, stringToBedType, if_neg hp, if_neg hs, createBed]

end BedFactory

namespace BedTestMock

namespace MockBedFactory

/-- Counterexample to C27: for "surgical-bed" both factories return a bed, but of
different classes: the mock knows the alias and returns a SurgicalBed, the
production factory does not know it and falls back to a PatientBed. Neither
"same class name" nor "mock null, production PatientBed" holds for this string. -/
theorem factories_differ_on_surgical_hyphen_alias :
    (BedFactory.createBedFromString "surgical-bed").1 = some PatientBed.new
    ∧ PatientBed.new.getClassName = "PatientBed"
    ∧ createBedFromString "surgical-bed" = some MockSurgicalBed.new
    ∧ MockSurgicalBed.new.getClassName = "SurgicalBed"
    ∧ ¬ ((∃ b m, (BedFactory.createBedFromString "surgical-bed").1 = some b
            ∧ createBedFromString "surgical-bed" = some m ∧ b.getClassName = m.getClassName)
          ∨ (createBedFromString "surgical-bed" = none
            ∧ ∃ b, (BedFactory.createBedFromString "surgical-bed").1 = some b
              ∧ b.getClassName = "PatientBed")) := by
  have hp : (BedFactory.createBedFromString "surgical-bed").1 = some PatientBed.new :=
    BedFactory.createBedFromString_fallback_aux "surgical-bed" (by decide) (by decide)
  have hm : createBedFromString "surgical-bed" = some MockSurgicalBed.new := by
    unfold createBedFromString
    rw [if_neg (by decide), if_pos (by decide)]
    rfl
  refine ⟨hp, rfl, hm, rfl, ?_⟩
  rintro (⟨b, m, h1, h2, h3⟩ | ⟨h1, _⟩)
  · rw [hp] at h1
    rw [hm] at h2
    cases h1
    cases h2
    exact absurd h3 (by decide)
  · rw [hm] at h1
    cases h1

/-- C27 as amended. For every string `s`, one of three cases holds: both
`createBedFromString` implementations return a bed with the same class name; or
the mock returns null and the production factory returns a PatientBed (the
unknown-input fallback); or the lowercased `s` is "surgical-bed", an alias only
the mock knows, for which the mock returns a SurgicalBed and the production
factory a PatientBed. -/
theorem factories_agree_up_to_fallback_and_hyphen_alias (s : String) :
    (∃ b m, (BedFactory.createBedFromString s).1 = some b ∧ createBedFromString s = some m
        ∧ b.getClassName = m.getClassName)
    ∨ (createBedFromString s = none
        ∧ ∃ b, (BedFactory.createBedFromString s).1 = some b ∧ b.getClassName = "PatientBed")
    ∨ (toLowerCase s = "surgical-bed"
        ∧ (∃ m, createBedFromString s = some m ∧ m.getClassName = "SurgicalBed")
        ∧ ∃ b, (BedFactory.createBedFromString s).1 = some b ∧ b.getClassName = "PatientBed") := by
  have hP : ∀ l : String, l = "patient_bed" ∨ l = "patient" ∨ l = "patientbed" →
      ¬ (l = "surgical_bed" ∨ l = "surgical" ∨ l = "surgery" ∨ l = "surgicalbed") := by
    rintro l (rfl | rfl | rfl) <;> decide
  by_cases hp : toLowerCase s = "patient_bed" ∨ toLowerCase s = "patient"
      ∨ toLowerCase s = "patientbed"
  · left
    refine ⟨PatientBed.new, MockPatientBed.new, ?_, ?_, rfl⟩
    · exact BedFactory.createBedFromString_patient_aux s hp
    · unfold createBedFromString
      rw [if_pos (by tauto)]
      rfl
  · by_cases hs : toLowerCase s = "surgical_bed" ∨ toLowerCase s = "surgical"
        ∨ toLowerCase s = "surgery" ∨ toLowerCase s = "surgicalbed"
    · left
      refine ⟨SurgicalBed.new, MockSurgicalBed.new, ?_, ?_, rfl⟩
      · exact BedFactory.createBedFromString_surgical_aux s hp hs
      · have hnp : ¬ (toLowerCase s = "patient_bed" ∨ toLowerCase s = "patient"
            ∨ toLowerCase s = "patientbed" ∨ toLowerCase s = "patient-bed") := by
          rcases hs with h | h | h | h <;> rw [h] <;> decide
        unfold createBedFromString
        rw [if_neg hnp, if_pos (by tauto)]
        rfl
    · have hprod : (BedFactory.createBedFromString s).1 = some PatientBed.new :=
        BedFactory.createBedFromString_fallback_aux s hp hs
      by_cases hh : toLowerCase s = "patient-bed"
      · left
        refine ⟨PatientBed.new, MockPatientBed.new, hprod, ?_, rfl⟩
        unfold createBedFromString
        rw [if_pos (by tauto)]
        rfl
      · by_cases hh2 : toLowerCase s = "surgical-bed"
        · right; right
          refine ⟨hh2, ⟨MockSurgicalBed.new, ?_, rfl⟩, PatientBed.new, hprod, rfl⟩
          unfold createBedFromString
          rw [if_neg (by rw [hh2]; decide), if_pos (by tauto)]
          rfl
        · right; left
          refine ⟨?_, PatientBed.new, hprod, rfl⟩
          unfold createBedFromString
          rw [if_neg (by tauto), if_neg (by tauto)]

end MockBedFactory

end BedTestMock

/-! ## Swapping the light behaviour -/

namespace LightStrip

/-- C29. Swapping the light behaviour discards the old one's settings: for every
strip and every earlier sequence of calls (of `setBrightness`, `setColor` and
`activate` in particular), after `activateEmergencyMode()` followed by
`deactivateEmergencyMode()` the strip holds a fresh normal behaviour with
brightness 0.5, colour (255,255,255) and the active flag off; for example the
brightness 0.9, the colour (10,20,30) and the active flag set before are gone. -/
theorem behaviour_swap_discards_settings (s : LightStrip) (ops : List Op) :
    (run (ops ++ [Op.activateEmergencyMode, Op.deactivateEmergencyMode]) s).1.lightBehavior
      = some (LightBehavior.NormalLightBehavior (1 / 2) ⟨255, 255, 255⟩ false)
    ∧ (run (ops ++ [Op.activateEmergencyMode, Op.deactivateEmergencyMode]) s).1.lightBehavior
      = some LightBehavior.newNormal
    ∧ (run [Op.setBrightness (9 / 10), Op.setColor ⟨10, 20, 30⟩, Op.activate] new).1.lightBehavior
      = some (LightBehavior.NormalLightBehavior (9 / 10) ⟨10, 20, 30⟩ true) := by
  have h : (run (ops ++ [Op.activateEmergencyMode, Op.deactivateEmergencyMode]) s).1.lightBehavior
      = some LightBehavior.newNormal := by
    rw [run_append, run_cons, run_cons, run_nil]
    simp only [step, deactivateEmergencyMode_eq]
  refine ⟨h, h, ?_⟩
  have hm : stdMax 0 (stdMin 1 (9 / 10 : ℚ)) = 9 / 10 := by
    unfold stdMax stdMin
    norm_num
  simp [run, step, Act.seq, new, setBrightness, setColor, activate, onBehavior,
    LightBehavior.newNormal, LightBehavior.setBrightness, LightBehavior.setColor,
    LightBehavior.activate, hm]

end LightStrip

/-! ## The scanner device: vitals are notified synchronously -/

namespace ScannerDevice

/-- Delivering one event of a part leaves the monitor alone and notes the vitals
of an update addressed to the device. -/
theorem deliver_noted (e : Event) (d : ScannerDevice) :
    (deliver e d).1.vitalMonitor = d.vitalMonitor
    ∧ (deliver e d).1.lastVitals = noted d.lastVitals e := by
  cases e with
  | onVitalSignsUpdated i vitals =>
    by_cases hi : i = self
    · have hk := (@keeps_checkCriticalVitals
        (fun x => x.vitalMonitor = d.vitalMonitor ∧ x.lastVitals = vitals) vitals).keeps
        { d with lastVitals := vitals } ⟨rfl, rfl⟩
      simpa [deliver, noted, hi, Act.seq_cons_state, Act.seq_nil_state, Act.when, Act.ite,
        onVitalSignsUpdated, Act.modify] using hk
    · simp [deliver, noted, hi, Act.seq_cons_state, Act.seq_nil_state, Act.when, Act.ite,
        Act.skip]
  | onScanCompleted i data =>
    have hk := (keeps_deliver (fun _ vm _ _ => vm = d.vitalMonitor)
      (Event.onScanCompleted i data)).keeps d rfl
    refine ⟨hk, ?_⟩
    by_cases hi : i = self
    · simp [deliver, noted, hi, Act.seq_cons_state, Act.seq_nil_state, Act.when, Act.ite,
        onScanCompleted, Act.modify, say, Act.say]
    · simp [deliver, noted, hi, Act.seq_cons_state, Act.seq_nil_state, Act.when, Act.ite,
        Act.skip]
  | _ => exact ⟨rfl, rfl⟩

/-- Delivering the events of a call in order. -/
theorem deliver_all_noted (evs : List Event) :
    ∀ d : ScannerDevice,
      (Act.seq (evs.map deliver) d).1.vitalMonitor = d.vitalMonitor
      ∧ (Act.seq (evs.map deliver) d).1.lastVitals = evs.foldl noted d.lastVitals := by
  induction evs with
  | nil => exact fun d => ⟨rfl, rfl⟩
  | cons e rest ih =>
    intro d
    rw [List.map_cons, Act.seq_cons_state, List.foldl_cons, (ih _).1, (ih _).2,
      (deliver_noted e d).1, (deliver_noted e d).2]
    exact ⟨rfl, rfl⟩

/-- A call on the monitor seen from the device. -/
theorem onMonitor_noted (f : Act VitalSignMonitor) (d : ScannerDevice) :
    (onMonitor f d).1.vitalMonitor = (f d.vitalMonitor).1
    ∧ (onMonitor f d).1.lastVitals = (f d.vitalMonitor).2.foldl noted d.lastVitals :=
  deliver_all_noted (f d.vitalMonitor).2 { d with vitalMonitor := (f d.vitalMonitor).1 }

/-- The three calls on a monitor observed by the device alone: the last vitals
update they send carries the vitals they leave in the monitor. -/
theorem monitor_calls_notify (m : VitalSignMonitor) (hobs : m.observers = [some self])
    (r1 r2 r3 r4 r5 : Nat) :
    ((VitalSignMonitor.startMonitoring m).2.foldl noted m.currentVitals
        = (VitalSignMonitor.startMonitoring m).1.currentVitals
      ∧ (VitalSignMonitor.startMonitoring m).1.observers = [some self])
    ∧ ((VitalSignMonitor.stopMonitoring m).2.foldl noted m.currentVitals
        = (VitalSignMonitor.stopMonitoring m).1.currentVitals
      ∧ (VitalSignMonitor.stopMonitoring m).1.observers = [some self])
    ∧ ((VitalSignMonitor.simulateVitalSigns r1 r2 r3 r4 r5 m).2.foldl noted m.currentVitals
        = (VitalSignMonitor.simulateVitalSigns r1 r2 r3 r4 r5 m).1.currentVitals
      ∧ (VitalSignMonitor.simulateVitalSigns r1 r2 r3 r4 r5 m).1.observers = [some self]) := by
  cases hm : m.isMonitoring <;>
    simp [VitalSignMonitor.startMonitoring, VitalSignMonitor.stopMonitoring,
      VitalSignMonitor.simulateVitalSigns, VitalSignMonitor.updateVitalSigns, Act.when, Act.ite,
      Act.skip, Act.seq, Act.modify, Act.say, say, noted, hm, hobs]

/-- A call that drives the monitor keeps the device's copy of the vitals equal
to the monitor's vitals, the device being the one observer of its monitor. -/
theorem vitals_synced_step (op : Op) (hop : op.isVitalsCall = true) (d : ScannerDevice)
    (h : d.lastVitals = d.vitalMonitor.currentVitals ∧ d.vitalMonitor.observers = [some self]) :
    (step op d).1.lastVitals = (step op d).1.vitalMonitor.currentVitals
    ∧ (step op d).1.vitalMonitor.observers = [some self] := by
  obtain ⟨h1, h2⟩ := h
  have hn := monitor_calls_notify d.vitalMonitor h2
  cases op with
  | startVitalMonitoring =>
    simp only [step, startVitalMonitoring, (onMonitor_noted _ d).1, (onMonitor_noted _ d).2, h1]
    exact (hn 0 0 0 0 0).1
  | stopVitalMonitoring =>
    simp only [step, stopVitalMonitoring, (onMonitor_noted _ d).1, (onMonitor_noted _ d).2, h1]
    exact (hn 0 0 0 0 0).2.1
  | updateVitals r1 r2 r3 r4 r5 =>
    simp only [step, updateVitals, (onMonitor_noted _ d).1, (onMonitor_noted _ d).2, h1]
    exact (hn r1 r2 r3 r4 r5).2.2
  | _ => simp [Op.isVitalsCall] at hop

theorem vitals_synced_run (ops : List Op) (hops : ∀ op ∈ ops, op.isVitalsCall = true) :
    ∀ d : ScannerDevice,
      d.lastVitals = d.vitalMonitor.currentVitals ∧ d.vitalMonitor.observers = [some self] →
      (run ops d).1.lastVitals = (run ops d).1.vitalMonitor.currentVitals
      ∧ (run ops d).1.vitalMonitor.observers = [some self] := by
  induction ops with
  | nil => exact fun d h => h
  | cons op rest ih =>
    intro d h
    rw [device_run_cons]
    exact ih (fun o ho => hops o (List.mem_cons_of_mem _ ho)) _
      (vitals_synced_step op (hops op (List.mem_cons_self _ _)) d h)

/-- C28. Vitals updates are notified synchronously: in every state a
`ScannerDevice` reaches from construction by a sequence of
`startVitalMonitoring`, `stopVitalMonitoring` and `updateVitals` calls,
`getLastVitals()` equals the current vitals of the vital monitor; and
`updateVitals()` while monitoring is stopped changes nothing at all (neither of
the two, nor anything else) and has no output. -/
theorem vitals_notified_synchronously (ops : List Op)
    (hops : ∀ op ∈ ops, op.isVitalsCall = true) (r1 r2 r3 r4 r5 : Nat) :
    (run ops new).1.getLastVitals = (run ops new).1.vitalMonitor.getCurrentVitals
    ∧ ((run ops new).1.isMonitoringVitals = false →
        updateVitals r1 r2 r3 r4 r5 (run ops new).1 = ((run ops new).1, []))
    ∧ (∀ d : ScannerDevice, d.isMonitoringVitals = false →
        updateVitals r1 r2 r3 r4 r5 d = (d, [])) := by
  have hstop : ∀ d : ScannerDevice, d.isMonitoringVitals = false →
      updateVitals r1 r2 r3 r4 r5 d = (d, []) := by
    intro d hd
    simp only [isMonitoringVitals, VitalSignMonitor.getMonitoringStatus] at hd
    simp [updateVitals, onMonitor, VitalSignMonitor.simulateVitalSigns, Act.ite, Act.skip,
      Act.seq, hd]
  exact ⟨(vitals_synced_run ops hops new ⟨rfl, rfl⟩).1, hstop _, hstop⟩

theorem vitals_notified_synchronously_witness :
    (∀ op ∈ [Op.startVitalMonitoring, Op.updateVitals 7 1 2 0 3, Op.stopVitalMonitoring,
        Op.updateVitals 1 2 3 4 5], op.isVitalsCall = true)
    ∧ (run [Op.startVitalMonitoring, Op.updateVitals 7 1 2 0 3, Op.stopVitalMonitoring,
        Op.updateVitals 1 2 3 4 5] new).1.getLastVitals
      = (run [Op.startVitalMonitoring, Op.updateVitals 7 1 2 0 3, Op.stopVitalMonitoring,
        Op.updateVitals 1 2 3 4 5] new).1.vitalMonitor.getCurrentVitals :=
  ⟨by decide,
    (vitals_notified_synchronously
      [Op.startVitalMonitoring, Op.updateVitals 7 1 2 0 3, Op.stopVitalMonitoring,
        Op.updateVitals 1 2 3 4 5] (by decide) 0 0 0 0 0).1⟩

end ScannerDevice

/-! ## Surgical bed: sterile mode and procedures need power -/

namespace SurgicalBed

instance robust_Flags (φ : Bool → Bool → Bool → Prop) : Bed.Robust (Flags φ) where
  light := fun _ _ _ hb => hb
  temperature := fun _ _ hb => hb
  height := fun _ _ _ hb => hb

instance deviceFree_Flags (φ : Bool → Bool → Bool → Prop) : Bed.DeviceFree (Flags φ) where
  device := fun b d dev hd hb => by
    simp only [Flags, isSterileMode, isProcedureActive, hd] at hb ⊢
    exact hb

/-- Clearing the sterile-mode flag leaves the power state and the procedure flag. -/
theorem clear_sterile_flags (b : Bed) :
    (modify (fun d => { d with sterileMode := false }) b).1.isPoweredOn = b.isPoweredOn
    ∧ isSterileMode (modify (fun d => { d with sterileMode := false }) b).1 = false
    ∧ isProcedureActive (modify (fun d => { d with sterileMode := false }) b).1
        = isProcedureActive b := by
  cases hd : b.derived <;> simp [modify, Act.modify, isSterileMode, isProcedureActive, hd]

/-- Clearing the procedure flag and the procedure name leaves the power state. -/
theorem clear_procedure_flags (b : Bed) :
    (modify (fun d => { d with currentProcedure := "" })
      (modify (fun d => { d with procedureInProgress := false }) b).1).1.isPoweredOn
        = b.isPoweredOn
    ∧ isProcedureActive (modify (fun d => { d with currentProcedure := "" })
      (modify (fun d => { d with procedureInProgress := false }) b).1).1 = false := by
  cases hd : b.derived <;> simp [modify, Act.modify, isProcedureActive, hd]

/-- The function `exitSterileMode()` clears the sterile-mode flag and leaves the
power state and the procedure flag. -/
theorem exitSterileMode_flags (b : Bed) :
    (exitSterileMode b).1.isPoweredOn = b.isPoweredOn
    ∧ isSterileMode (exitSterileMode b).1 = false
    ∧ isProcedureActive (exitSterileMode b).1 = isProcedureActive b := by
  have h0 := clear_sterile_flags b
  unfold exitSterileMode
  rw [Act.seq_cons_state]
  exact (inferInstance : Act.Keeps
    (Flags (fun p s q => p = b.isPoweredOn ∧ s = false ∧ q = isProcedureActive b))
    (Act.seq [say [Arg.str "🔬 Sterile mode deactivated"],
      Bed.onLight (LightStrip.setBrightness (5 / 10)),
      Bed.onLight (LightStrip.setColor ⟨255, 255, 255⟩)])).keeps _ h0

/-- A property of the power state and the procedure flag survives
`exitSterileMode()`. -/
theorem keeps_exitSterileMode_procedure (ψ : Bool → Bool → Prop) :
    Act.Keeps (Flags (fun p _ q => ψ p q)) exitSterileMode :=
  ⟨fun x hx => by
    have h := exitSterileMode_flags x
    unfold Flags at hx ⊢
    rw [h.1, h.2.2]
    exact hx⟩

/-- The function `endProcedure()` leaves the power state, leaves the procedure
flag off, and does nothing to a bed without an active procedure. -/
theorem endProcedure_flags (b : Bed) :
    (endProcedure b).1.isPoweredOn = b.isPoweredOn
    ∧ isProcedureActive (endProcedure b).1 = false
    ∧ (isProcedureActive b = false → (endProcedure b).1 = b) := by
  cases hp : isProcedureActive b with
  | false =>
    have hstate : (endProcedure b).1 = b := by
      simp [endProcedure, Act.ite, hp, say]
    rw [hstate]
    exact ⟨rfl, hp, fun _ => rfl⟩
  | true =>
    have h0 := clear_procedure_flags b
    haveI := keeps_exitSterileMode_procedure (fun p q => p = b.isPoweredOn ∧ q = false)
    have hk := (inferInstance : Act.Keeps
      (Flags (fun p _ q => p = b.isPoweredOn ∧ q = false))
      (Act.seq [onDevice ScannerDevice.stopVitalMonitoring, onDevice ScannerDevice.stopScan,
        Bed.setHeight 85, exitSterileMode])).keeps _ h0
    have hstate : (endProcedure b).1
        = (Act.seq [onDevice ScannerDevice.stopVitalMonitoring, onDevice ScannerDevice.stopScan,
            Bed.setHeight 85, exitSterileMode]
          (modify (fun d => { d with currentProcedure := "" })
            (modify (fun d => { d with procedureInProgress := false }) b).1).1).1 := by
      simp only [endProcedure, Act.ite, hp, Bool.not_true, Bool.false_eq_true, if_false,
        Act.seq_cons_state, Act.saying_state]
    rw [hstate]
    exact ⟨hk.1, hk.2, fun h => Bool.noConfusion h⟩

/-- The hook `onPowerOff()` of the surgical bed leaves both flags off. -/
theorem onPowerOff_flags (b : Bed) :
    isSterileMode (onPowerOff b).1 = false ∧ isProcedureActive (onPowerOff b).1 = false := by
  have h1 : isProcedureActive (Act.when isProcedureActive
      (Act.seq [say [Arg.str "⚠️  WARNING: Procedure in progress during shutdown!"],
        endProcedure]) b).1 = false := by
    cases hp : isProcedureActive b with
    | false => simp [Act.when, Act.ite, Act.skip, hp]
    | true =>
      simp only [Act.when, Act.ite, hp, if_true, Act.seq_cons_state, Act.seq_nil_state, say_state]
      exact (endProcedure_flags b).2.1
  have h3 := (inferInstance : Act.Keeps (Flags (fun _ _ q => q = false))
    (Act.seq [onDevice ScannerDevice.stopVitalMonitoring, onDevice ScannerDevice.stopScan])).keeps
      _ h1
  have he := exitSterileMode_flags
    (Act.seq [onDevice ScannerDevice.stopVitalMonitoring, onDevice ScannerDevice.stopScan]
      (Act.when isProcedureActive
        (Act.seq [say [Arg.str "⚠️  WARNING: Procedure in progress during shutdown!"],
          endProcedure]) b).1).1
  have hstate : (onPowerOff b).1
      = (exitSterileMode
          (Act.seq [onDevice ScannerDevice.stopVitalMonitoring, onDevice ScannerDevice.stopScan]
            (Act.when isProcedureActive
              (Act.seq [say [Arg.str "⚠️  WARNING: Procedure in progress during shutdown!"],
                endProcedure]) b).1).1).1 := by
    unfold onPowerOff
    rw [Act.seq_cons_state, Act.seq_cons_state, Act.seq_cons_state, Act.seq_cons_state,
      Act.seq_cons_state, Act.seq_nil_state, Act.seq_cons_state, Act.seq_cons_state,
      Act.seq_nil_state, say_state]
  rw [hstate]
  exact ⟨he.2.1, he.2.2.trans h3⟩

/-- After `powerOff()` on a powered-on surgical bed both flags are off. -/
theorem powerOff_flags (b : Bed) (hs : b.isSurgicalBed = true) (hon : b.isPoweredOn = true) :
    isSterileMode (Bed.powerOff b).1 = false ∧ isProcedureActive (Bed.powerOff b).1 = false := by
  have hkind : (Bed.onLight LightStrip.deactivate { b with isPoweredOn := false }).1.isSurgicalBed
      = true :=
    (@keeps_Bed_onLight (fun x => x.isSurgicalBed = true)
      ⟨fun _ _ _ hb => hb, fun _ _ hb => hb, fun _ _ _ hb => hb⟩ LightStrip.deactivate
      inferInstance).keeps
      { b with isPoweredOn := false } hs
  obtain ⟨d, hd⟩ := surgical_data _ hkind
  have hstate : (Bed.powerOff b).1
      = (onPowerOff (Bed.onLight LightStrip.deactivate { b with isPoweredOn := false }).1).1 := by
    simp only [Bed.powerOff, Act.when, Act.ite, hon, if_true, Act.seq_cons_state,
      Act.seq_nil_state, Act.modify_state, Act.saying_state, Bed.onPowerOff, hd]
  rw [hstate]
  exact onPowerOff_flags _

end SurgicalBed

namespace SurgicalBed

/-- One call on a surgical bed keeps "sterile mode or an active procedure
implies powered on". -/
theorem needs_power_step (op : Bed.Op) (b : Bed) (hs : b.isSurgicalBed = true)
    (hb : Flags (fun p s q => (s = true ∨ q = true) → p = true) b) :
    Flags (fun p s q => (s = true ∨ q = true) → p = true) (Bed.step op b).1 := by
  have hl := @keeps_Bed_lights (Flags (fun p s q => (s = true ∨ q = true) → p = true)) _
  have hnp : b.isPatientBed = false := by
    obtain ⟨d, hd⟩ := surgical_data b hs
    simp [Bed.isPatientBed, hd]
  have hst := fun o : Bed.Op => (@Bed.step_stable b.isPoweredOn b.minHeight b.maxHeight
    (fun _ => True) o b ⟨rfl, rfl, rfl, Or.inl trivial⟩).1
  cases op with
  | powerOn => exact fun _ => hst Bed.Op.powerOn
  | powerOff =>
    cases hpw : b.isPoweredOn with
    | false =>
      have hstate : (Bed.step Bed.Op.powerOff b).1 = b := by
        simp [Bed.step, Bed.powerOff, Act.when, Act.ite, Act.skip, hpw]
      rw [hstate]
      exact hb
    | true =>
      have h := powerOff_flags b hs hpw
      intro h1
      rcases h1 with h1 | h1
      · exact absurd (h.1.symm.trans h1) (by decide)
      · exact absurd (h.2.symm.trans h1) (by decide)
  | enterSterileMode =>
    cases hpw : b.isPoweredOn with
    | false =>
      have hstate : (Bed.step Bed.Op.enterSterileMode b).1 = b := by
        simp [Bed.step, Act.when, Act.ite, hs, enterSterileMode, hpw, say]
      rw [hstate]
      exact hb
    | true => exact fun _ => (hst Bed.Op.enterSterileMode).trans hpw
  | startProcedure p =>
    cases hpw : b.isPoweredOn with
    | false =>
      have hstate : (Bed.step (Bed.Op.startProcedure p) b).1 = b := by
        simp [Bed.step, Act.when, Act.ite, hs, startProcedure, hpw, say]
      rw [hstate]
      exact hb
    | true => exact fun _ => (hst (Bed.Op.startProcedure p)).trans hpw
  | exitSterileMode =>
    have h := exitSterileMode_flags b
    have hstate : (Bed.step Bed.Op.exitSterileMode b).1 = (exitSterileMode b).1 := by
      simp only [Bed.step, Act.when, Act.ite, hs, if_true]
    rw [hstate]
    intro h1
    rcases h1 with h1 | h1
    · exact absurd (h.2.1.symm.trans h1) (by decide)
    · exact h.1.trans (hb (Or.inr (h.2.2.symm.trans h1)))
  | endProcedure =>
    have h := endProcedure_flags b
    have hstate : (Bed.step Bed.Op.endProcedure b).1 = (endProcedure b).1 := by
      simp only [Bed.step, Act.when, Act.ite, hs, if_true]
    rw [hstate]
    cases hp : isProcedureActive b with
    | false =>
      rw [h.2.2 hp]
      exact hb
    | true => exact fun _ => h.1.trans (hb (Or.inr hp))
  | simulatePatientEntry now =>
    have hstate : (Bed.step (Bed.Op.simulatePatientEntry now) b).1 = b := by
      simp [Bed.step, Act.when, Act.ite, Act.skip, hnp]
    rw [hstate]
    exact hb
  | simulatePatientExit =>
    have hstate : (Bed.step Bed.Op.simulatePatientExit b).1 = b := by
      simp [Bed.step, Act.when, Act.ite, Act.skip, hnp]
    rw [hstate]
    exact hb
  | enableComfortMode =>
    have hstate : (Bed.step Bed.Op.enableComfortMode b).1 = b := by
      simp [Bed.step, Act.when, Act.ite, Act.skip, hnp]
    rw [hstate]
    exact hb
  | disableComfortMode =>
    have hstate : (Bed.step Bed.Op.disableComfortMode b).1 = b := by
      simp [Bed.step, Act.when, Act.ite, Act.skip, hnp]
    rw [hstate]
    exact hb
  | onPatientEntered now =>
    have hstate : (Bed.step (Bed.Op.onPatientEntered now) b).1 = b := by
      simp [Bed.step, Act.when, Act.ite, Act.skip, hnp]
    rw [hstate]
    exact hb
  | onPatientLeft =>
    have hstate : (Bed.step Bed.Op.onPatientLeft b).1 = b := by
      simp [Bed.step, Act.when, Act.ite, Act.skip, hnp]
    rw [hstate]
    exact hb
  | activateLights => exact hl.1.keeps b hb
  | deactivateLights => exact hl.2.1.keeps b hb
  | setLightBrightness x => exact (hl.2.2.1 x).keeps b hb
  | setLightColor c => exact (hl.2.2.2.1 c).keeps b hb
  | setTemperatureInt m => exact (hl.2.2.2.2 m).keeps b hb
  | _ =>
    simp only [Bed.step]
    exact Act.Keeps.keeps b hb

/-- A sequence of calls on a surgical bed keeps the class of the bed and "sterile
mode or an active procedure implies powered on". -/
theorem needs_power_run (ops : List Bed.Op) :
    ∀ b : Bed, b.isSurgicalBed = true →
      Flags (fun p s q => (s = true ∨ q = true) → p = true) b →
      (Bed.run ops b).1.isSurgicalBed = true
      ∧ Flags (fun p s q => (s = true ∨ q = true) → p = true) (Bed.run ops b).1 := by
  induction ops with
  | nil => exact fun b hs hb => ⟨hs, hb⟩
  | cons op rest ih =>
    intro b hs hb
    rw [Bed.bed_run_cons]
    refine ih _ ?_ (needs_power_step op b hs hb)
    exact @Bed.step_keeps (fun x => x.isSurgicalBed = true)
      ⟨fun _ _ _ hx => hx, fun _ _ hx => hx, fun _ _ _ hx => hx⟩
      ⟨fun x d hd hx => by
        cases d <;> cases hx1 : x.derived <;>
          simp_all [Bed.isSurgicalBed, BedClass.kind]⟩
      (fun _ _ hx => hx) op b hs

/-- C30. In every state a SurgicalBed reaches from construction by any sequence
of calls, sterile mode and an active procedure both imply that the bed is
powered on: `isSterileMode()` or `isProcedureActive()` being true implies the
bed is on. `powerOff()` on the reached state leaves both flags false, and while
the bed is off `enterSterileMode()` and `startProcedure(p)` leave the state
unchanged. -/
theorem sterile_or_procedure_implies_powered_on (ops : List Bed.Op) (p : String) :
    ((isSterileMode (Bed.run ops SurgicalBed.new).1 = true
        ∨ isProcedureActive (Bed.run ops SurgicalBed.new).1 = true) →
      (Bed.run ops SurgicalBed.new).1.isPoweredOn = true)
    ∧ isSterileMode (Bed.powerOff (Bed.run ops SurgicalBed.new).1).1 = false
    ∧ isProcedureActive (Bed.powerOff (Bed.run ops SurgicalBed.new).1).1 = false
    ∧ ((Bed.run ops SurgicalBed.new).1.isPoweredOn = false →
        (enterSterileMode (Bed.run ops SurgicalBed.new).1).1 = (Bed.run ops SurgicalBed.new).1
        ∧ (startProcedure p (Bed.run ops SurgicalBed.new).1).1
            = (Bed.run ops SurgicalBed.new).1) := by
  have hnew : Flags (fun p s q => (s = true ∨ q = true) → p = true) SurgicalBed.new := by
    intro h
    rcases h with h | h <;> exact absurd h (by decide)
  obtain ⟨hs, hinv⟩ := needs_power_run ops SurgicalBed.new rfl hnew
  refine ⟨hinv, ?_, ?_, ?_⟩
  · cases hpw : (Bed.run ops SurgicalBed.new).1.isPoweredOn with
    | true => exact (powerOff_flags _ hs hpw).1
    | false =>
      have hstate : (Bed.powerOff (Bed.run ops SurgicalBed.new).1).1
          = (Bed.run ops SurgicalBed.new).1 := by
        simp [Bed.powerOff, Act.when, Act.ite, Act.skip, hpw]
      rw [hstate]
      cases hf : isSterileMode (Bed.run ops SurgicalBed.new).1 with
      | false => rfl
      | true => exact absurd ((hinv (Or.inl hf)).symm.trans hpw) (by decide)
  · cases hpw : (Bed.run ops SurgicalBed.new).1.isPoweredOn with
    | true => exact (powerOff_flags _ hs hpw).2
    | false =>
      have hstate : (Bed.powerOff (Bed.run ops SurgicalBed.new).1).1
          = (Bed.run ops SurgicalBed.new).1 := by
        simp [Bed.powerOff, Act.when, Act.ite, Act.skip, hpw]
      rw [hstate]
      cases hf : isProcedureActive (Bed.run ops SurgicalBed.new).1 with
      | false => rfl
      | true => exact absurd ((hinv (Or.inr hf)).symm.trans hpw) (by decide)
  · intro hpw
    constructor
    · simp [enterSterileMode, Act.ite, hpw, say]
    · simp [startProcedure, Act.ite, hpw, say]

theorem sterile_or_procedure_implies_powered_on_witness :
    (isSterileMode (Bed.run [Bed.Op.powerOn, Bed.Op.enterSterileMode] SurgicalBed.new).1 = true
      ∨ isProcedureActive (Bed.run [Bed.Op.powerOn, Bed.Op.enterSterileMode]
          SurgicalBed.new).1 = true)
    ∧ (Bed.run [Bed.Op.powerOn, Bed.Op.enterSterileMode] SurgicalBed.new).1.isPoweredOn = true
    ∧ (enterSterileMode (Bed.run [Bed.Op.powerOn, Bed.Op.powerOff] SurgicalBed.new).1).1
        = (Bed.run [Bed.Op.powerOn, Bed.Op.powerOff] SurgicalBed.new).1 :=
  ⟨Or.inl (by decide),
    (sterile_or_procedure_implies_powered_on [Bed.Op.powerOn, Bed.Op.enterSterileMode] "").1
      (Or.inl (by decide)),
    ((sterile_or_procedure_implies_powered_on [Bed.Op.powerOn, Bed.Op.powerOff] "").2.2.2
      (by decide)).1⟩

end SurgicalBed

/-! ## The scripting-layer temperature overload, raising and lowering -/

namespace Bed

/-- C39. The overload `setTemperature(int)` is total on integers: on a
powered-on bed, for every integer `m` the resulting mode is COLD if `m = 0`
(`TEMPERATURE_COLD`), WARM if `m = 2` (`TEMPERATURE_WARM`) and NEUTRAL for `m = 1`
and for every other integer, the temperature value is the value of that mode
and nothing else of the bed changes; on a powered-off bed it changes nothing. -/
theorem setTemperatureInt_total (b : Bed) (m : Int) :
    (TEMPERATURE_COLD = 0 ∧ TEMPERATURE_NEUTRAL = 1 ∧ TEMPERATURE_WARM = 2)
    ∧ (b.isPoweredOn = true →
        (setTemperatureInt m b).1.getCurrentTemperature
          = (if m = 0 then Mode.COLD else if m = 2 then Mode.WARM else Mode.NEUTRAL)
        ∧ (setTemperatureInt m b).1.getTemperatureValue
          = (if m = 0 then 18 else if m = 2 then 26 else 22)
        ∧ (setTemperatureInt m b).1
          = { b with temperatureControl := (setTemperatureInt m b).1.temperatureControl })
    ∧ (b.isPoweredOn = false → (setTemperatureInt m b).1 = b) := by
  refine ⟨⟨rfl, rfl, rfl⟩, ?_, ?_⟩
  · intro hon
    unfold setTemperatureInt
    rw [setTemperature_on _ b hon]
    refine ⟨?_, ?_, rfl⟩
    · simp only [TEMPERATURE_COLD, TEMPERATURE_WARM]
      split_ifs <;> rfl
    · simp only [TEMPERATURE_COLD, TEMPERATURE_WARM]
      split_ifs <;> rfl
  · intro hoff
    simp [setTemperatureInt, setTemperature, Act.ite, hoff, say]

theorem setTemperatureInt_total_witness :
    (setTemperatureInt 7 (run [Op.powerOn] PatientBed.new).1).1.getCurrentTemperature
        = Mode.NEUTRAL
    ∧ (setTemperatureInt 0 (run [Op.powerOn] PatientBed.new).1).1.getTemperatureValue = 18
    ∧ (setTemperatureInt 2 PatientBed.new).1 = PatientBed.new :=
  ⟨((setTemperatureInt_total (run [Op.powerOn] PatientBed.new).1 7).2.1 (by decide)).1,
   ((setTemperatureInt_total (run [Op.powerOn] PatientBed.new).1 0).2.1 (by decide)).2.1,
   (setTemperatureInt_total PatientBed.new 2).2.2 rfl⟩

/-- C37. Over exact arithmetic, raising and lowering are inverse and symmetric:
for every bed state and every amount `a`, `raiseHeight(a)` and `lowerHeight(-a)`
produce the same state, hence the same height; and in every powered-on state
reached from construction, with height `h`, whenever `raiseHeight(a)` is accepted
(`minHeight ≤ h + a ≤ maxHeight`) it sets the height to `h + a`, and a following
`lowerHeight(a)` is accepted too and restores the state, hence the height `h`. -/
theorem raise_lower_inverse (k : BedKind) (ops : List Op) (a : ℚ) :
    (∀ b : Bed, (raiseHeight a b).1 = (lowerHeight (-a) b).1)
    ∧ ((run ops k.construct).1.isPoweredOn = true →
        (run ops k.construct).1.minHeight ≤ (run ops k.construct).1.getHeight + a →
        (run ops k.construct).1.getHeight + a ≤ (run ops k.construct).1.maxHeight →
        (raiseHeight a (run ops k.construct).1).1.getHeight
          = (run ops k.construct).1.getHeight + a
        ∧ lowerHeight a (raiseHeight a (run ops k.construct).1).1
          = ((run ops k.construct).1,
              [Event.print [Arg.str "Height lowered to ",
                Arg.num (run ops k.construct).1.getHeight, Arg.str " cm"]])
        ∧ (lowerHeight a (raiseHeight a (run ops k.construct).1).1).1.getHeight
          = (run ops k.construct).1.getHeight) := by
  constructor
  · intro b
    unfold raiseHeight lowerHeight Act.ite
    simp only [sub_neg_eq_add]
    split
    · rfl
    · split <;> rfl
  · obtain ⟨pw, _, hlo, hhi, hh⟩ := run_stable ops false k.construct (construct_stable k)
    have hin : (run ops k.construct).1.minHeight ≤ (run ops k.construct).1.currentHeight
        ∧ (run ops k.construct).1.currentHeight ≤ (run ops k.construct).1.maxHeight := by
      rw [hlo, hhi]
      rcases hh with hf | hin
      · exact absurd hf id
      · exact hin
    generalize (run ops k.construct).1 = b at hin ⊢
    intro hon h1 h2
    simp only [getHeight] at h1 h2 ⊢
    have hr : (raiseHeight a b).1 = { b with currentHeight := b.currentHeight + a } := by
      simp [raiseHeight, Act.ite, hon, validateHeightRange, h1, h2, Act.seq, Act.modify, Act.say]
    rw [hr]
    have hl : lowerHeight a { b with currentHeight := b.currentHeight + a }
        = (b, [Event.print [Arg.str "Height lowered to ", Arg.num b.currentHeight,
            Arg.str " cm"]]) := by
      simp [lowerHeight, Act.ite, hon, validateHeightRange, hin.1, hin.2, Act.seq, Act.modify,
        Act.say]
      cases b
      simp_all
    rw [hl]
    exact ⟨rfl, rfl, rfl⟩

theorem raise_lower_inverse_witness :
    (raiseHeight 10 (run [Op.powerOn] BedKind.patient.construct).1).1.getHeight
        = (run [Op.powerOn] BedKind.patient.construct).1.getHeight + 10
    ∧ (lowerHeight 10
        (raiseHeight 10 (run [Op.powerOn] BedKind.patient.construct).1).1).1.getHeight
        = (run [Op.powerOn] BedKind.patient.construct).1.getHeight := by
  have hmin : (run [Op.powerOn] BedKind.patient.construct).1.minHeight = 40 := by decide
  have hmax : (run [Op.powerOn] BedKind.patient.construct).1.maxHeight = 90 := by decide
  have hh : (run [Op.powerOn] BedKind.patient.construct).1.getHeight = 55 := by decide
  have h := (raise_lower_inverse BedKind.patient [Op.powerOn] 10).2 (by decide)
    (by rw [hmin, hh]; norm_num) (by rw [hmax, hh]; norm_num)
  exact ⟨h.1, h.2.2⟩

end Bed

/-! ## The scanner device: swivel bounds, idle scanner, alerts -/

section ActOutput

theorem seq_cons_out {σ : Type} (a : Act σ) (rest : List (Act σ)) (s : σ) :
    (Act.seq (a :: rest) s).2 = (a s).2 ++ (Act.seq rest (a s).1).2 := rfl

theorem seq_nil_out {σ : Type} (s : σ) : (Act.seq ([] : List (Act σ)) s).2 = [] := rfl

/-- A sequence of conditional prints whose conditions do not read the object
prints the lines whose condition holds and leaves the object unchanged. -/
theorem seq_when_say {σ : Type} (l : List (Bool × List Arg)) (s : σ) :
    Act.seq (l.map (fun p => Act.when (fun _ => p.1) (say p.2))) s
      = (s, (l.filter (fun p => p.1)).map (fun p => Event.print p.2)) := by
  induction l with
  | nil => rfl
  | cons p rest ih =>
    obtain ⟨c, args⟩ := p
    rw [List.map_cons, Act.seq_cons]
    cases c with
    | false =>
      have h1 : Act.when (fun _ : σ => false) (say args) s = (s, []) := rfl
      simp only [h1, ih]
      simp [List.filter_cons]
    | true =>
      have h1 : Act.when (fun _ : σ => true) (say args) s = (s, [Event.print args]) := rfl
      simp only [h1, ih]
      simp [List.filter_cons]

end ActOutput

namespace ScannerDevice

/-- The function `checkCriticalVitals` leaves the device unchanged and prints
the alert lines whose condition holds. -/
theorem checkCriticalVitals_eq (vitals : VitalSigns) (d : ScannerDevice) :
    checkCriticalVitals vitals d
      = (d, ([(decide (vitals.oxygenLevel < 90), [Arg.str "🚨 CRITICAL: Low oxygen level!"]),
              (decide (vitals.heartRate < 50 ∨ vitals.heartRate > 120),
                [Arg.str "🚨 CRITICAL: Abnormal heart rate!"]),
              (decide (vitals.temperature > 385 / 10 ∨ vitals.temperature < 36),
                [Arg.str "⚠️  WARNING: Abnormal temperature!"]),
              (decide (vitals.oxygenLevel < 90
                  ∨ (vitals.heartRate < 50 ∨ vitals.heartRate > 120)),
                [Arg.str "🚨 CRITICAL STATUS: Patient requires immediate attention!"])].filter
              (fun p => p.1)).map (fun p => Event.print p.2)) :=
  seq_when_say
    [(decide (vitals.oxygenLevel < 90), [Arg.str "🚨 CRITICAL: Low oxygen level!"]),
     (decide (vitals.heartRate < 50 ∨ vitals.heartRate > 120),
       [Arg.str "🚨 CRITICAL: Abnormal heart rate!"]),
     (decide (vitals.temperature > 385 / 10 ∨ vitals.temperature < 36),
       [Arg.str "⚠️  WARNING: Abnormal temperature!"]),
     (decide (vitals.oxygenLevel < 90 ∨ (vitals.heartRate < 50 ∨ vitals.heartRate > 120)),
       [Arg.str "🚨 CRITICAL STATUS: Patient requires immediate attention!"])] d

/-- Every line `checkCriticalVitals` prints is one of the four alert lines. -/
theorem checkCriticalVitals_out (vitals : VitalSigns) (d : ScannerDevice) :
    ∀ x ∈ (checkCriticalVitals vitals d).2, x ∈ alerts := by
  intro x hx
  rw [checkCriticalVitals_eq] at hx
  simp only [List.mem_map, List.mem_filter] at hx
  obtain ⟨p, ⟨hp, _⟩, rfl⟩ := hx
  simp only [List.mem_cons, List.mem_singleton, List.not_mem_nil, or_false] at hp
  rcases hp with rfl | rfl | rfl | rfl <;> simp [alerts]

/-- For calm vitals `checkCriticalVitals` prints nothing. -/
theorem checkCriticalVitals_calm (vitals : VitalSigns) (hc : vitals.Calm) (d : ScannerDevice) :
    checkCriticalVitals vitals d = (d, []) := by
  obtain ⟨h1, ⟨h2, h3⟩, h4, h5⟩ := hc
  rw [checkCriticalVitals_eq]
  simp [not_lt.mpr h1, not_lt.mpr h2, not_lt.mpr h3, not_lt.mpr h4, not_lt.mpr h5]

end ScannerDevice

namespace ScannerDevice

/-- One call with a non-negative angle argument keeps the swivel angle within
[-90, 90]. -/
theorem swivel_bounded_step (op : Op) (hop : op.nonnegSwivel = true) (d : ScannerDevice)
    (h : -90 ≤ d.swivelAngle ∧ d.swivelAngle ≤ 90) :
    -90 ≤ (step op d).1.swivelAngle ∧ (step op d).1.swivelAngle ≤ 90 := by
  cases op with
  | startFullBodyScan =>
    simp only [step, startFullBodyScan, (onScanner_parts _ d).2.2.2]
    exact h
  | startBrainScan =>
    simp only [step, startBrainScan, (onScanner_parts _ d).2.2.2]
    exact h
  | stopScan =>
    simp only [step, stopScan, (onScanner_parts _ d).2.2.2]
    exact h
  | startVitalMonitoring =>
    simp only [step, startVitalMonitoring, (onMonitor_parts _ d).2.2.2]
    exact h
  | stopVitalMonitoring =>
    simp only [step, stopVitalMonitoring, (onMonitor_parts _ d).2.2.2]
    exact h
  | updateVitals r1 r2 r3 r4 r5 =>
    simp only [step, updateVitals, (onMonitor_parts _ d).2.2.2]
    exact h
  | swivelLeft a =>
    have ha : 0 ≤ a := by simpa [Op.nonnegSwivel] using hop
    simp only [step, swivelLeft, Act.when, Act.ite]
    split
    · simp only [Act.seq_cons_state, Act.seq_nil_state, Act.saying_state, Act.modify_state]
      unfold stdMax
      split_ifs <;> constructor <;> linarith [h.1, h.2]
    · exact h
  | swivelRight a =>
    have ha : 0 ≤ a := by simpa [Op.nonnegSwivel] using hop
    simp only [step, swivelRight, Act.when, Act.ite]
    split
    · simp only [Act.seq_cons_state, Act.seq_nil_state, Act.saying_state, Act.modify_state]
      unfold stdMin
      split_ifs <;> constructor <;> linarith [h.1, h.2]
    · exact h
  | centerDevice =>
    simp only [step, centerDevice, Act.seq_cons_state, Act.seq_nil_state, say_state,
      Act.modify_state]
    constructor <;> norm_num
  | onScanCompleted data => exact h
  | onVitalSignsUpdated v =>
    exact (keeps_deliver (fun _ _ _ a => -90 ≤ a ∧ a ≤ 90)
      (Event.onVitalSignsUpdated self v)).keeps d h
  | onDeviceError e => exact h

/-- C38. For every sequence of calls on a new `ScannerDevice` (of `swivelLeft(a)`,
`swivelRight(a)` and `centerDevice()` in particular) in which every angle
argument is non-negative, `getSwivelAngle()` stays within [-90, 90];
`centerDevice()` always sets it to 0. The bound needs the sign condition:
`swivelLeft(-200)` on a new device gives the angle 200. -/
theorem swivel_angle_bounded (ops : List Op) (hops : ∀ op ∈ ops, op.nonnegSwivel = true) :
    (-90 ≤ (run ops new).1.getSwivelAngle ∧ (run ops new).1.getSwivelAngle ≤ 90)
    ∧ (∀ d : ScannerDevice, (centerDevice d).1.getSwivelAngle = 0)
    ∧ (swivelLeft (-200) new).1.getSwivelAngle = 200 := by
  have hrun : ∀ (l : List Op), (∀ op ∈ l, op.nonnegSwivel = true) → ∀ d : ScannerDevice,
      (-90 ≤ d.swivelAngle ∧ d.swivelAngle ≤ 90) →
      -90 ≤ (run l d).1.swivelAngle ∧ (run l d).1.swivelAngle ≤ 90 := by
    intro l
    induction l with
    | nil => exact fun _ d h => h
    | cons op rest ih =>
      intro hl d h
      rw [device_run_cons]
      exact ih (fun o ho => hl o (List.mem_cons_of_mem _ ho)) _
        (swivel_bounded_step op (hl op (List.mem_cons_self _ _)) d h)
  refine ⟨hrun ops hops new ?_, fun d => rfl, ?_⟩
  · simp only [new]
    constructor <;> norm_num
  · simp only [swivelLeft, Act.when, Act.ite, new, if_true, Act.seq_cons_state,
      Act.seq_nil_state, Act.saying_state, Act.modify_state, getSwivelAngle]
    unfold stdMax
    norm_num

theorem swivel_angle_bounded_witness :
    (∀ op ∈ [Op.swivelLeft 60, Op.swivelLeft 60, Op.swivelRight 200, Op.centerDevice,
        Op.swivelRight 30], op.nonnegSwivel = true)
    ∧ (-90 ≤ (run [Op.swivelLeft 60, Op.swivelLeft 60, Op.swivelRight 200, Op.centerDevice,
          Op.swivelRight 30] new).1.getSwivelAngle
      ∧ (run [Op.swivelLeft 60, Op.swivelLeft 60, Op.swivelRight 200, Op.centerDevice,
          Op.swivelRight 30] new).1.getSwivelAngle ≤ 90) :=
  ⟨by decide,
    (swivel_angle_bounded [Op.swivelLeft 60, Op.swivelLeft 60, Op.swivelRight 200,
      Op.centerDevice, Op.swivelRight 30] (by decide)).1⟩

end ScannerDevice

namespace ScannerDevice

/-- Delivering an event that is not the refusal line prints no refusal line. -/
theorem deliver_not_busy (e : Event) (he : e ≠ busyMessage) (d : ScannerDevice) :
    ∀ x ∈ (deliver e d).2, x ≠ busyMessage := by
  have halert : ∀ x ∈ alerts, x ≠ busyMessage := by decide
  cases e with
  | onScanCompleted i data =>
    intro x hx
    by_cases hi : i = self
    · simp [deliver, Act.seq, Act.when, Act.ite, hi, onScanCompleted, say, Act.modify] at hx
      rcases hx with rfl | rfl <;> simp [busyMessage]
    · simp [deliver, Act.seq, Act.when, Act.ite, Act.skip, hi] at hx
      rw [hx]
      simp [busyMessage]
  | onVitalSignsUpdated i vitals =>
    intro x hx
    by_cases hi : i = self
    · simp only [deliver, hi, seq_cons_out, seq_nil_out, Act.when, Act.ite, decide_True, if_true,
        onVitalSignsUpdated, List.append_nil, List.mem_append, List.mem_singleton,
        List.not_mem_nil, or_false, false_or, Act.modify, List.nil_append] at hx
      rcases hx with rfl | hx
      · simp [busyMessage]
      · exact halert x (checkCriticalVitals_out vitals _ x hx)
    · simp [deliver, Act.seq, Act.when, Act.ite, Act.skip, hi] at hx
      rw [hx]
      simp [busyMessage]
  | _ =>
    intro x hx
    simp only [deliver, List.mem_singleton] at hx
    rw [hx]
    exact he

/-- Delivering events none of which is the refusal line prints no refusal line. -/
theorem deliver_all_not_busy (evs : List Event) (h : ∀ e ∈ evs, e ≠ busyMessage) :
    ∀ d : ScannerDevice, ∀ x ∈ (Act.seq (evs.map deliver) d).2, x ≠ busyMessage := by
  induction evs with
  | nil => exact fun d x hx => absurd hx (List.not_mem_nil x)
  | cons e rest ih =>
    intro d x hx
    rw [List.map_cons, seq_cons_out, List.mem_append] at hx
    rcases hx with hx | hx
    · exact deliver_not_busy e (h e (List.mem_cons_self _ _)) d x hx
    · exact ih (fun y hy => h y (List.mem_cons_of_mem _ hy)) _ x hx

/-- The output of `updateVitalSigns`: the vitals line and one callback for each
non-null observer. -/
theorem updateVitalSigns_out (m : VitalSignMonitor) :
    (VitalSignMonitor.updateVitalSigns m).2
      = Event.print [Arg.str "💓 Vitals: HR=", Arg.num m.currentVitals.heartRate,
          Arg.str " O2=", Arg.num m.currentVitals.oxygenLevel, Arg.str "%",
          Arg.str " BP=", Arg.num m.currentVitals.bloodPressure,
          Arg.str " Temp=", Arg.num m.currentVitals.temperature, Arg.str "°C"]
        :: m.observers.filterMap
            (fun o => o.map (fun i => Event.onVitalSignsUpdated i m.currentVitals)) := by
  simp [VitalSignMonitor.updateVitalSigns, Act.seq, Act.say]

/-- The events of the three monitor calls: the lines of the monitor and vitals
callbacks carrying the vitals the call leaves in the monitor. -/
theorem monitor_events (m : VitalSignMonitor) (r1 r2 r3 r4 r5 : Nat) (e : Event)
    (he : e ∈ (VitalSignMonitor.startMonitoring m).2
      ∨ e ∈ (VitalSignMonitor.stopMonitoring m).2
      ∨ e ∈ (VitalSignMonitor.simulateVitalSigns r1 r2 r3 r4 r5 m).2) :
    (∃ t rest, e = Event.print (Arg.str t :: rest)
        ∧ t ∈ ["💓 Vital signs monitoring started", "⏹️  Vital signs monitoring stopped",
                "💓 Vitals: HR="])
    ∨ (∃ i, some i ∈ m.observers ∧ (e = Event.onVitalSignsUpdated i m.currentVitals
        ∨ e = Event.onVitalSignsUpdated i
              (VitalSignMonitor.perturb r1 r2 r3 r4 r5 m.currentVitals))) := by
  have hcb : ∀ (v : VitalSigns), e ∈ m.observers.filterMap
      (fun o => o.map (fun i => Event.onVitalSignsUpdated i v)) →
      ∃ i, some i ∈ m.observers ∧ e = Event.onVitalSignsUpdated i v := by
    intro v hv
    rw [List.mem_filterMap] at hv
    obtain ⟨o, ho, hoe⟩ := hv
    cases o with
    | none => simp at hoe
    | some i =>
      simp only [Option.map_some', Option.some.injEq] at hoe
      exact ⟨i, ho, hoe.symm⟩
  cases hm : m.isMonitoring with
  | false =>
    have h1 : (VitalSignMonitor.startMonitoring m).2
        = Event.print [Arg.str "💓 Vital signs monitoring started"]
          :: (VitalSignMonitor.updateVitalSigns { m with isMonitoring := true }).2 := by
      simp [VitalSignMonitor.startMonitoring, Act.when, Act.ite, hm, Act.seq, Act.modify, say]
    have h2 : (VitalSignMonitor.stopMonitoring m).2 = [] := by
      simp [VitalSignMonitor.stopMonitoring, Act.when, Act.ite, hm, Act.skip]
    have h3 : (VitalSignMonitor.simulateVitalSigns r1 r2 r3 r4 r5 m).2 = [] := by
      simp [VitalSignMonitor.simulateVitalSigns, Act.ite, hm, Act.skip]
    rw [h1, h2, h3, updateVitalSigns_out] at he
    simp only [List.mem_cons, List.not_mem_nil, or_false] at he
    rcases he with rfl | rfl | he
    · exact Or.inl ⟨_, _, rfl, by simp⟩
    · exact Or.inl ⟨_, _, rfl, by simp⟩
    · obtain ⟨i, hi, rfl⟩ := hcb _ he
      exact Or.inr ⟨i, hi, Or.inl rfl⟩
  | true =>
    have h1 : (VitalSignMonitor.startMonitoring m).2 = [] := by
      simp [VitalSignMonitor.startMonitoring, Act.when, Act.ite, hm, Act.skip]
    have h2 : (VitalSignMonitor.stopMonitoring m).2
        = [Event.print [Arg.str "⏹️  Vital signs monitoring stopped"]] := by
      simp [VitalSignMonitor.stopMonitoring, Act.when, Act.ite, hm, Act.seq, Act.modify, say]
    have h3 : (VitalSignMonitor.simulateVitalSigns r1 r2 r3 r4 r5 m).2
        = (VitalSignMonitor.updateVitalSigns
            { m with currentVitals := VitalSignMonitor.perturb r1 r2 r3 r4 r5 m.currentVitals }).2 := by
      simp [VitalSignMonitor.simulateVitalSigns, Act.ite, hm, Act.seq, Act.modify]
    rw [h1, h2, h3, updateVitalSigns_out] at he
    simp only [List.mem_cons, List.not_mem_nil, or_false, false_or] at he
    rcases he with rfl | rfl | he
    · exact Or.inl ⟨_, _, rfl, by simp⟩
    · exact Or.inl ⟨_, _, rfl, by simp⟩
    · obtain ⟨i, hi, rfl⟩ := hcb _ he
      exact Or.inr ⟨i, hi, Or.inr rfl⟩

/-- The monitor never prints the refusal line of the scanner. -/
theorem monitor_not_busy (m : VitalSignMonitor) (r1 r2 r3 r4 r5 : Nat) (e : Event)
    (he : e ∈ (VitalSignMonitor.startMonitoring m).2
      ∨ e ∈ (VitalSignMonitor.stopMonitoring m).2
      ∨ e ∈ (VitalSignMonitor.simulateVitalSigns r1 r2 r3 r4 r5 m).2) :
    e ≠ busyMessage := by
  rcases monitor_events m r1 r2 r3 r4 r5 e he with ⟨t, rest, rfl, ht⟩ | ⟨i, _, rfl | rfl⟩
  · simp only [List.mem_cons, List.mem_singleton, List.not_mem_nil, or_false] at ht
    rcases ht with rfl | rfl | rfl <;> simp [busyMessage]
  · simp [busyMessage]
  · simp [busyMessage]

end ScannerDevice

namespace ScannerDevice

/-- A call on a device whose scanner is idle and observed by the device alone
prints no refusal line. -/
theorem step_not_busy (op : Op) (d : ScannerDevice)
    (h1 : d.scanner.currentState = ScanState.IDLE) (h2 : d.scanner.observers = [some self]) :
    ∀ x ∈ (step op d).2, x ≠ busyMessage := by
  have hscan : ∀ t : ScanType, ∀ x ∈ (onScanner (Scanner.startScan t) d).2, x ≠ busyMessage := by
    intro t
    refine deliver_all_not_busy _ ?_ _
    intro e he
    rw [Scanner.startScan_idle t _ h1, h2] at he
    simp only [List.filterMap_cons, Option.map_some', List.filterMap_nil, List.mem_append,
      List.mem_cons, List.mem_singleton, List.not_mem_nil, or_false] at he
    rcases he with (rfl | rfl | rfl | rfl | rfl | rfl | rfl | rfl) | rfl <;>
      simp [busyMessage]
  cases op with
  | startFullBodyScan => exact hscan ScanType.FULL_BODY
  | startBrainScan => exact hscan ScanType.BRAIN
  | stopScan =>
    refine deliver_all_not_busy _ ?_ _
    intro e he
    simp [Scanner.stopScan, Act.when, Act.ite, Act.skip, h1] at he
  | startVitalMonitoring =>
    exact deliver_all_not_busy _
      (fun e he => monitor_not_busy d.vitalMonitor 0 0 0 0 0 e (Or.inl he)) _
  | stopVitalMonitoring =>
    exact deliver_all_not_busy _
      (fun e he => monitor_not_busy d.vitalMonitor 0 0 0 0 0 e (Or.inr (Or.inl he))) _
  | updateVitals r1 r2 r3 r4 r5 =>
    exact deliver_all_not_busy _
      (fun e he => monitor_not_busy d.vitalMonitor r1 r2 r3 r4 r5 e (Or.inr (Or.inr he))) _
  | swivelLeft a =>
    intro x hx
    simp only [step, swivelLeft, Act.when, Act.ite] at hx
    split at hx
    · simp only [seq_cons_out, seq_nil_out, Act.modify, Act.say, List.nil_append,
        List.append_nil, List.mem_singleton] at hx
      rw [hx]
      simp [busyMessage]
    · exact absurd hx (List.not_mem_nil x)
  | swivelRight a =>
    intro x hx
    simp only [step, swivelRight, Act.when, Act.ite] at hx
    split at hx
    · simp only [seq_cons_out, seq_nil_out, Act.modify, Act.say, List.nil_append,
        List.append_nil, List.mem_singleton] at hx
      rw [hx]
      simp [busyMessage]
    · exact absurd hx (List.not_mem_nil x)
  | centerDevice =>
    intro x hx
    simp only [step, centerDevice, seq_cons_out, seq_nil_out, Act.modify, say, List.nil_append,
      List.append_nil, List.mem_singleton] at hx
    rw [hx]
    simp [busyMessage]
  | onScanCompleted data =>
    intro x hx
    simp only [step, onScanCompleted, seq_cons_out, seq_nil_out, Act.modify, say,
      List.append_nil, List.mem_singleton] at hx
    rw [hx]
    simp [busyMessage]
  | onVitalSignsUpdated v =>
    intro x hx
    simp only [step, onVitalSignsUpdated, seq_cons_out, seq_nil_out, Act.modify,
      List.append_nil, List.nil_append] at hx
    have halert : ∀ y ∈ alerts, y ≠ busyMessage := by decide
    exact halert x (checkCriticalVitals_out v _ x hx)
  | onDeviceError e =>
    intro x hx
    simp only [step, onDeviceError, say, List.mem_singleton] at hx
    rw [hx]
    simp [busyMessage]

theorem run_not_busy (ops : List Op) :
    ∀ d : ScannerDevice, d.scanner.currentState = ScanState.IDLE →
      d.scanner.observers = [some self] → ∀ x ∈ (run ops d).2, x ≠ busyMessage := by
  induction ops with
  | nil => exact fun d _ _ x hx => absurd hx (List.not_mem_nil x)
  | cons op rest ih =>
    intro d h1 h2 x hx
    rw [device_run_cons, List.mem_append] at hx
    rcases hx with hx | hx
    · exact step_not_busy op d h1 h2 x hx
    · obtain ⟨h3, h4⟩ := scanner_idle_step op d ⟨h1, h2⟩
      exact ih _ h3 h4 x hx

/-- C35. The scanner is idle between calls: after any sequence of calls on a new
`ScannerDevice` (the scan requests, `stopScan`, the monitoring and swivel calls
and the callbacks), `isScannerBusy()` is false; no call of the sequence printed
the refusal "Cannot start scan - scanner busy", and a further scan request
starts with its "Starting ... scan..." line; `stopScan()` in the reached state
changes nothing and prints nothing. -/
theorem scanner_idle_between_calls (ops : List Op) :
    (run ops new).1.isScannerBusy = false
    ∧ busyMessage ∉ (run ops new).2
    ∧ (startFullBodyScan (run ops new).1).2.head?
        = some (Event.print [Arg.str "🔍 Starting ", Arg.str "full_body", Arg.str " scan..."])
    ∧ (startBrainScan (run ops new).1).2.head?
        = some (Event.print [Arg.str "🔍 Starting ", Arg.str "brain", Arg.str " scan..."])
    ∧ stopScan (run ops new).1 = ((run ops new).1, []) := by
  obtain ⟨h1, h2⟩ := scanner_idle_run ops new ⟨rfl, rfl⟩
  have hhead : ∀ t : ScanType, (onScanner (Scanner.startScan t) (run ops new).1).2.head?
      = some (Event.print [Arg.str "🔍 Starting ", Arg.str (Scanner.getScanTypeName t),
          Arg.str " scan..."]) := by
    intro t
    simp only [onScanner, Scanner.startScan_idle t _ h1, List.map_cons, List.cons_append,
      seq_cons_out, deliver, List.head?_cons]
  refine ⟨?_, ?_, hhead ScanType.FULL_BODY, hhead ScanType.BRAIN, ?_⟩
  · simp [isScannerBusy, Scanner.getState, h1]
  · exact fun hmem => run_not_busy ops new rfl rfl _ hmem rfl
  · have hs : Scanner.stopScan (run ops new).1.scanner = ((run ops new).1.scanner, []) := by
      simp [Scanner.stopScan, Act.when, Act.ite, Act.skip, h1]
    simp only [stopScan, onScanner, hs, List.map_nil]
    rfl

end ScannerDevice

namespace ScannerDevice

/-- Vitals within the clamp ranges of the monitor are calm. -/
theorem calm_of_inRange (v : VitalSigns) (h : v.InRange) : v.Calm := by
  obtain ⟨⟨h1, h2⟩, ⟨h3, _⟩, ⟨h5, h6⟩, _, _⟩ := h
  refine ⟨?_, ⟨?_, ?_⟩, ?_, ?_⟩ <;> linarith

/-- Delivering a line of the monitor or a callback with calm vitals adds nothing
to the output: the device prints no alert. -/
theorem deliver_quiet (e : Event)
    (he : (∃ args, e = Event.print args) ∨ ∃ i v, e = Event.onVitalSignsUpdated i v ∧ v.Calm)
    (d : ScannerDevice) : (deliver e d).2 = [e] := by
  rcases he with ⟨args, rfl⟩ | ⟨i, v, rfl, hv⟩
  · rfl
  · by_cases hi : i = self
    · simp only [deliver, hi, seq_cons_out, seq_nil_out, Act.when, Act.ite, decide_True,
        if_true, onVitalSignsUpdated, Act.modify, List.nil_append, List.append_nil,
        checkCriticalVitals_calm v hv]
    · simp [deliver, Act.seq, Act.when, Act.ite, Act.skip, hi]

theorem deliver_all_quiet (evs : List Event)
    (h : ∀ e ∈ evs, (∃ args, e = Event.print args)
      ∨ ∃ i v, e = Event.onVitalSignsUpdated i v ∧ v.Calm) :
    ∀ d : ScannerDevice, (Act.seq (evs.map deliver) d).2 = evs := by
  induction evs with
  | nil => exact fun _ => rfl
  | cons e rest ih =>
    intro d
    rw [List.map_cons, seq_cons_out, deliver_quiet e (h e (List.mem_cons_self _ _)),
      ih (fun y hy => h y (List.mem_cons_of_mem _ hy))]
    rfl

/-- A call that drives the monitor, made on a device whose monitor holds vitals
within the clamp ranges and is observed by the device alone: the vitals stay
within the ranges, and the output consists of lines of the monitor and of
callbacks to the device with calm vitals. -/
theorem vitals_step_quiet (op : Op) (hop : op.isVitalsCall = true) (d : ScannerDevice)
    (hin : d.vitalMonitor.currentVitals.InRange) (hobs : d.vitalMonitor.observers = [some self]) :
    (step op d).1.vitalMonitor.currentVitals.InRange
    ∧ ∀ e ∈ (step op d).2,
        (∃ t rest, e = Event.print (Arg.str t :: rest)
          ∧ t ∈ ["💓 Vital signs monitoring started", "⏹️  Vital signs monitoring stopped",
                  "💓 Vitals: HR="])
        ∨ ∃ v, e = Event.onVitalSignsUpdated self v ∧ v.Calm := by
  have hev : ∀ (r1 r2 r3 r4 r5 : Nat) (e : Event),
      (e ∈ (VitalSignMonitor.startMonitoring d.vitalMonitor).2
        ∨ e ∈ (VitalSignMonitor.stopMonitoring d.vitalMonitor).2
        ∨ e ∈ (VitalSignMonitor.simulateVitalSigns r1 r2 r3 r4 r5 d.vitalMonitor).2) →
      (∃ t rest, e = Event.print (Arg.str t :: rest)
          ∧ t ∈ ["💓 Vital signs monitoring started", "⏹️  Vital signs monitoring stopped",
                  "💓 Vitals: HR="])
        ∨ ∃ v, e = Event.onVitalSignsUpdated self v ∧ v.Calm := by
    intro r1 r2 r3 r4 r5 e he
    rcases monitor_events d.vitalMonitor r1 r2 r3 r4 r5 e he with h | ⟨i, hi, h | h⟩
    · exact Or.inl h
    · rw [hobs, List.mem_singleton, Option.some.injEq] at hi
      exact Or.inr ⟨_, hi ▸ h, calm_of_inRange _ hin⟩
    · rw [hobs, List.mem_singleton, Option.some.injEq] at hi
      exact Or.inr ⟨_, hi ▸ h,
        calm_of_inRange _ (VitalSignMonitor.perturb_inRange r1 r2 r3 r4 r5 _)⟩
  have hq : ∀ e : Event,
      ((∃ t rest, e = Event.print (Arg.str t :: rest)
          ∧ t ∈ ["💓 Vital signs monitoring started", "⏹️  Vital signs monitoring stopped",
                  "💓 Vitals: HR="])
        ∨ ∃ v, e = Event.onVitalSignsUpdated self v ∧ v.Calm) →
      (∃ args, e = Event.print args) ∨ ∃ i v, e = Event.onVitalSignsUpdated i v ∧ v.Calm := by
    rintro e (⟨t, rest, rfl, _⟩ | ⟨v, rfl, hv⟩)
    · exact Or.inl ⟨_, rfl⟩
    · exact Or.inr ⟨_, _, rfl, hv⟩
  cases op with
  | startVitalMonitoring =>
    refine ⟨?_, ?_⟩
    · simp only [step, startVitalMonitoring, (onMonitor_noted _ d).1]
      exact VitalSignMonitor.step_inRange VitalSignMonitor.Op.startMonitoring _ hin
    · intro e he
      simp only [step, startVitalMonitoring, onMonitor] at he
      rw [deliver_all_quiet _ (fun y hy => hq y (hev 0 0 0 0 0 y (Or.inl hy)))] at he
      exact hev 0 0 0 0 0 e (Or.inl he)
  | stopVitalMonitoring =>
    refine ⟨?_, ?_⟩
    · simp only [step, stopVitalMonitoring, (onMonitor_noted _ d).1]
      exact VitalSignMonitor.step_inRange VitalSignMonitor.Op.stopMonitoring _ hin
    · intro e he
      simp only [step, stopVitalMonitoring, onMonitor] at he
      rw [deliver_all_quiet _ (fun y hy => hq y (hev 0 0 0 0 0 y (Or.inr (Or.inl hy))))] at he
      exact hev 0 0 0 0 0 e (Or.inr (Or.inl he))
  | updateVitals r1 r2 r3 r4 r5 =>
    refine ⟨?_, ?_⟩
    · simp only [step, updateVitals, (onMonitor_noted _ d).1]
      exact VitalSignMonitor.step_inRange
        (VitalSignMonitor.Op.simulateVitalSigns r1 r2 r3 r4 r5) _ hin
    · intro e he
      simp only [step, updateVitals, onMonitor] at he
      rw [deliver_all_quiet _
        (fun y hy => hq y (hev r1 r2 r3 r4 r5 y (Or.inr (Or.inr hy))))] at he
      exact hev r1 r2 r3 r4 r5 e (Or.inr (Or.inr he))
  | _ => simp [Op.isVitalsCall] at hop

theorem vitals_run_quiet (ops : List Op) (hops : ∀ op ∈ ops, op.isVitalsCall = true) :
    ∀ d : ScannerDevice, d.vitalMonitor.currentVitals.InRange →
      d.lastVitals = d.vitalMonitor.currentVitals → d.vitalMonitor.observers = [some self] →
      ∀ e ∈ (run ops d).2,
        (∃ t rest, e = Event.print (Arg.str t :: rest)
          ∧ t ∈ ["💓 Vital signs monitoring started", "⏹️  Vital signs monitoring stopped",
                  "💓 Vitals: HR="])
        ∨ ∃ v, e = Event.onVitalSignsUpdated self v ∧ v.Calm := by
  induction ops with
  | nil => exact fun d _ _ _ e he => absurd he (List.not_mem_nil e)
  | cons op rest ih =>
    intro d hin hl hobs e he
    have hop := hops op (List.mem_cons_self _ _)
    rw [device_run_cons, List.mem_append] at he
    obtain ⟨hin1, hout⟩ := vitals_step_quiet op hop d hin hobs
    obtain ⟨hl1, hobs1⟩ := vitals_synced_step op hop d ⟨hl, hobs⟩
    rcases he with he | he
    · exact hout e he
    · exact ih (fun o ho => hops o (List.mem_cons_of_mem _ ho)) _ hin1 hl1 hobs1 e he

/-- C34. The alerts of `checkCriticalVitals` are unreachable for vitals produced
by the device's own monitor: for every sequence of `startVitalMonitoring`,
`stopVitalMonitoring` and `updateVitals` calls on a new `ScannerDevice`, every
vitals callback in the output is addressed to the device and carries (these are
the values passed to `checkCriticalVitals`) oxygen at least 90, heart rate within
[50,120] and temperature within [36,38.5]; none of the four alert lines is
printed; and for such vitals `checkCriticalVitals` prints nothing. -/
theorem critical_alerts_unreachable (ops : List Op)
    (hops : ∀ op ∈ ops, op.isVitalsCall = true) :
    (∀ (i : Nat) (v : VitalSigns), Event.onVitalSignsUpdated i v ∈ (run ops new).2 →
        i = self ∧ 90 ≤ v.oxygenLevel ∧ (50 ≤ v.heartRate ∧ v.heartRate ≤ 120)
          ∧ (36 ≤ v.temperature ∧ v.temperature ≤ 385 / 10))
    ∧ (∀ e ∈ (run ops new).2, e ∉ alerts)
    ∧ (∀ (v : VitalSigns) (d : ScannerDevice),
        90 ≤ v.oxygenLevel → 50 ≤ v.heartRate → v.heartRate ≤ 120 → 36 ≤ v.temperature →
        v.temperature ≤ 385 / 10 → checkCriticalVitals v d = (d, [])) := by
  have hnew : (new).vitalMonitor.currentVitals.InRange := by
    simp only [new, VitalSignMonitor.new, VitalSigns.new, VitalSigns.InRange]
    norm_num
  have hrun := vitals_run_quiet ops hops new hnew rfl rfl
  refine ⟨?_, ?_, ?_⟩
  · intro i v hmem
    rcases hrun _ hmem with ⟨t, rest, h, _⟩ | ⟨w, h, hw⟩
    · cases h
    · cases h
      exact ⟨rfl, hw⟩
  · intro e hmem halert
    rcases hrun _ hmem with ⟨t, rest, rfl, ht⟩ | ⟨w, rfl, _⟩
    · simp only [List.mem_cons, List.mem_singleton, List.not_mem_nil, or_false] at ht
      rcases ht with rfl | rfl | rfl <;> simp [alerts] at halert
    · simp [alerts] at halert
  · intro v d h1 h2 h3 h4 h5
    exact checkCriticalVitals_calm v ⟨h1, ⟨h2, h3⟩, h4, h5⟩ d

theorem critical_alerts_unreachable_witness :
    (∀ op ∈ [Op.startVitalMonitoring, Op.updateVitals 9 3 5 1 3, Op.updateVitals 0 0 0 0 0,
        Op.stopVitalMonitoring], op.isVitalsCall = true)
    ∧ (∀ e ∈ (run [Op.startVitalMonitoring, Op.updateVitals 9 3 5 1 3,
        Op.updateVitals 0 0 0 0 0, Op.stopVitalMonitoring] new).2, e ∉ alerts) :=
  ⟨by decide,
    (critical_alerts_unreachable [Op.startVitalMonitoring, Op.updateVitals 9 3 5 1 3,
      Op.updateVitals 0 0 0 0 0, Op.stopVitalMonitoring] (by decide)).2.1⟩

end ScannerDevice

/-! ## Power-off keeps height and temperature -/

section OffFrameInstances

variable {h : ℚ} {tc : StandardTemperatureControl}

instance derivedFree_OffFrame : Bed.DerivedFree (Bed.OffFrame h tc) where
  derived := fun _ _ _ hb => hb

instance keeps_off_setHeight (height : ℚ) : Act.Keeps (Bed.OffFrame h tc) (Bed.setHeight height) :=
  ⟨fun b hb => by
    have hs : (Bed.setHeight height b).1 = b := by
      simp [Bed.setHeight, Act.ite, hb.1, say]
    rw [hs]
    exact hb⟩

instance keeps_off_setTemperature (mode : Mode) :
    Act.Keeps (Bed.OffFrame h tc) (Bed.setTemperature mode) :=
  ⟨fun b hb => by
    have hs : (Bed.setTemperature mode b).1 = b := by
      simp [Bed.setTemperature, Act.ite, hb.1, say]
    rw [hs]
    exact hb⟩

instance keeps_off_onLight (f : Act LightStrip) : Act.Keeps (Bed.OffFrame h tc) (Bed.onLight f) :=
  ⟨fun b hb => by
    rw [Bed.onLight_state]
    exact hb⟩

instance keeps_off_onPowerOff : Act.Keeps (Bed.OffFrame h tc) Bed.onPowerOff :=
  ⟨fun b hb => by
    unfold Bed.onPowerOff
    split
    · exact hb
    · exact (by
        unfold PatientBed.onPowerOff PatientBed.disableComfortMode
          PatientBed.resetToDefaultSettings
        infer_instance : Act.Keeps (Bed.OffFrame h tc) PatientBed.onPowerOff).keeps b hb
    · exact (by
        unfold SurgicalBed.onPowerOff SurgicalBed.endProcedure SurgicalBed.exitSterileMode
        infer_instance : Act.Keeps (Bed.OffFrame h tc) SurgicalBed.onPowerOff).keeps b hb⟩

end OffFrameInstances

namespace Bed

/-- C32. For every bed of every type and every powered-on state (the reachable
ones included), `powerOff()` switches the bed off and leaves `getHeight()`, the
temperature mode and the temperature value unchanged, although the power-off
hooks invoke the reset routines: on the bed already switched off,
`resetToDefaultSettings()` returns at once and `setHeight(85)` is refused with
"Cannot set height - bed is powered off". -/
theorem powerOff_keeps_height_and_temperature (b : Bed) (hon : b.isPoweredOn = true) :
    (powerOff b).1.isPoweredOn = false
    ∧ (powerOff b).1.getHeight = b.getHeight
    ∧ (powerOff b).1.getCurrentTemperature = b.getCurrentTemperature
    ∧ (powerOff b).1.getTemperatureValue = b.getTemperatureValue
    ∧ PatientBed.resetToDefaultSettings (powerOff b).1 = ((powerOff b).1, [])
    ∧ setHeight 85 (powerOff b).1
        = ((powerOff b).1, [Event.print [Arg.str "Cannot set height - bed is powered off"]]) := by
  have hk : Bed.OffFrame b.currentHeight b.temperatureControl (powerOff b).1 := by
    simp only [powerOff, Act.when, Act.ite, hon, if_true]
    rw [Act.seq_cons_state]
    exact (inferInstance : Act.Keeps (Bed.OffFrame b.currentHeight b.temperatureControl)
      (Act.seq [Act.say (fun b => [Arg.str b.getClassName, Arg.str " powered OFF"]),
        onLight LightStrip.deactivate, onPowerOff])).keeps _ ⟨rfl, rfl, rfl⟩
  obtain ⟨h1, h2, h3⟩ := hk
  refine ⟨h1, h2, ?_, ?_, ?_, ?_⟩
  · simp only [getCurrentTemperature, h3]
  · simp only [getTemperatureValue, h3]
  · simp [PatientBed.resetToDefaultSettings, Act.ite, Act.skip, h1]
  · simp [setHeight, Act.ite, h1, say]

theorem powerOff_keeps_height_and_temperature_witness :
    (powerOff (run [Op.powerOn, Op.startProcedure "brain_surgery"] SurgicalBed.new).1).1.getHeight
      = (run [Op.powerOn, Op.startProcedure "brain_surgery"] SurgicalBed.new).1.getHeight
    ∧ (powerOff (run [Op.powerOn, Op.startProcedure "brain_surgery"]
        SurgicalBed.new).1).1.getCurrentTemperature
      = (run [Op.powerOn, Op.startProcedure "brain_surgery"]
          SurgicalBed.new).1.getCurrentTemperature :=
  ⟨(powerOff_keeps_height_and_temperature
      (run [Op.powerOn, Op.startProcedure "brain_surgery"] SurgicalBed.new).1 (by decide)).2.1,
   (powerOff_keeps_height_and_temperature
      (run [Op.powerOn, Op.startProcedure "brain_surgery"] SurgicalBed.new).1 (by decide)).2.2.1⟩

end Bed

/-! ## Surgical bed: the configuration a procedure sets -/

namespace SurgicalBed

/-- A call on the medical device leaves the members of the base class. -/
theorem onDevice_base (f : Act ScannerDevice) (b : Bed) :
    (onDevice f b).1.currentHeight = b.currentHeight
    ∧ (onDevice f b).1.temperatureControl = b.temperatureControl
    ∧ (onDevice f b).1.isPoweredOn = b.isPoweredOn
    ∧ (onDevice f b).1.lightStrip = b.lightStrip := by
  unfold onDevice
  split <;> exact ⟨rfl, rfl, rfl, rfl⟩

/-- The height and the temperature after `adjustForProcedure(p)` on a powered-on
bed whose limits admit the heights 95 to 110. -/
theorem adjustForProcedure_on (p : String) (b : Bed) (hon : b.isPoweredOn = true)
    (hlo : b.minHeight ≤ 95) (hhi : 110 ≤ b.maxHeight) :
    (adjustForProcedure p b).1.currentHeight
        = (if p = "brain_surgery" then 110 else if p = "cardiac_surgery" then 95 else 100)
    ∧ (adjustForProcedure p b).1.temperatureControl
        = { currentMode := Mode.COLD, temperature := 18 } := by
  have h1 : b.minHeight ≤ 110 := by linarith
  have h2 : b.minHeight ≤ 100 := by linarith
  have h3 : 95 ≤ b.maxHeight := by linarith
  have h4 : 100 ≤ b.maxHeight := by linarith
  have hstate : ∃ ls, (Act.ite (fun _ => decide (p = "brain_surgery"))
        (Act.seq [Bed.setHeight 110, adjustLightingForProcedure])
        (Act.ite (fun _ => decide (p = "cardiac_surgery"))
          (Act.seq [Bed.setHeight 95, adjustLightingForProcedure])
          (Act.ite (fun _ => decide (p = "general_surgery"))
            (Bed.setHeight 100)
            (Act.seq [say [Arg.str "Using default surgical configuration"],
              setToSurgicalHeight]))) b).1
      = { b with
          lightStrip := ls,
          currentHeight :=
            (if p = "brain_surgery" then 110 else if p = "cardiac_surgery" then 95 else 100) } := by
    by_cases hb : p = "brain_surgery"
    · exact ⟨_, by
        simp [Act.ite, hb, Act.seq_cons_state, Act.seq_nil_state, adjustLightingForProcedure,
          Bed.onLight_state, Bed.setHeight_accepted 110 b hon h1 hhi]; rfl⟩
    · by_cases hc : p = "cardiac_surgery"
      · exact ⟨_, by
          simp [Act.ite, hb, hc, Act.seq_cons_state, Act.seq_nil_state,
            adjustLightingForProcedure, Bed.onLight_state,
            Bed.setHeight_accepted 95 b hon hlo h3]; rfl⟩
      · by_cases hg : p = "general_surgery"
        · exact ⟨b.lightStrip, by
            simp [Act.ite, hb, hc, hg, Bed.setHeight_accepted 100 b hon h2 h4]⟩
        · exact ⟨b.lightStrip, by
            simp [Act.ite, hb, hc, hg, Act.seq_cons_state, Act.seq_nil_state, say_state,
              setToSurgicalHeight, Bed.setHeight_accepted 100 b hon h2 h4]⟩
  obtain ⟨ls, hls⟩ := hstate
  unfold adjustForProcedure adjustTemperatureForProcedure
  have hon1 : ({ b with
      lightStrip := ls,
      currentHeight :=
        (if p = "brain_surgery" then 110 else if p = "cardiac_surgery" then 95 else 100) }
      : Bed).isPoweredOn = true := hon
  rw [Act.seq_cons_state, say_state, Act.seq_cons_state, Act.seq_cons_state, Act.seq_nil_state,
    hls, Bed.setTemperature_on Mode.COLD _ hon1]
  exact ⟨rfl, rfl⟩

/-- C31. On a powered-on SurgicalBed in any state reached from construction,
after `startProcedure(p)` the height is 110 if `p` is "brain_surgery", 95 if `p`
is "cardiac_surgery", and 100 for "general_surgery" and for every other name, and
the temperature mode is COLD with the value 18. -/
theorem startProcedure_height_and_temperature (ops : List Bed.Op) (p : String)
    (hon : (Bed.run ops SurgicalBed.new).1.isPoweredOn = true) :
    (startProcedure p (Bed.run ops SurgicalBed.new).1).1.getHeight
        = (if p = "brain_surgery" then 110 else if p = "cardiac_surgery" then 95 else 100)
    ∧ (startProcedure p (Bed.run ops SurgicalBed.new).1).1.getCurrentTemperature = Mode.COLD
    ∧ (startProcedure p (Bed.run ops SurgicalBed.new).1).1.getTemperatureValue = 18 := by
  obtain ⟨hk, hlo, hhi⟩ := Bed.reached_facts BedKind.surgical ops
  change (Bed.run ops SurgicalBed.new).1.derived.kind = BedKind.surgical at hk
  change (Bed.run ops SurgicalBed.new).1.minHeight = 60 at hlo
  change (Bed.run ops SurgicalBed.new).1.maxHeight = 120 at hhi
  obtain ⟨d, hd⟩ := surgical_data_of_kind _ hk
  generalize (Bed.run ops SurgicalBed.new).1 = b at hon hlo hhi hd
  have hv := Bed.base_frame (validateProcedureRequirements p) (fun P _ => inferInstance)
    { b with derived :=
        BedClass.SurgicalBed { d with procedureInProgress := true, currentProcedure := p } }
  have hstate : (startProcedure p b).1
      = (onDevice ScannerDevice.startVitalMonitoring
          (adjustForProcedure p (validateProcedureRequirements p
            { b with derived :=
                BedClass.SurgicalBed { d with procedureInProgress := true, currentProcedure := p }
            }).1).1).1 := by
    simp only [startProcedure, Act.ite, hon, Bool.not_true, Bool.false_eq_true, if_false,
      Act.seq_cons_state, Act.seq_nil_state, when_say_state, say_state, modify,
      Act.modify_state, hd]
  have ha := adjustForProcedure_on p _ (hv.1.trans hon)
    (by rw [hv.2.1]; show b.minHeight ≤ 95; rw [hlo]; norm_num)
    (by rw [hv.2.2.1]; show 110 ≤ b.maxHeight; rw [hhi]; norm_num)
  rw [hstate]
  simp only [Bed.getHeight, Bed.getCurrentTemperature, Bed.getTemperatureValue,
    (onDevice_base _ _).1, (onDevice_base _ _).2.1, ha.1, ha.2]
  exact ⟨trivial, rfl, rfl⟩

theorem startProcedure_height_and_temperature_witness :
    (startProcedure "cardiac_surgery" (Bed.run [Bed.Op.powerOn] SurgicalBed.new).1).1.getHeight
      = 95
    ∧ (startProcedure "cardiac_surgery"
        (Bed.run [Bed.Op.powerOn] SurgicalBed.new).1).1.getTemperatureValue = 18 :=
  ⟨(startProcedure_height_and_temperature [Bed.Op.powerOn] "cardiac_surgery"
      (by decide)).1.trans (by decide),
   (startProcedure_height_and_temperature [Bed.Op.powerOn] "cardiac_surgery" (by decide)).2.2⟩

end SurgicalBed

/-! ## Power-on restores the defaults of the derived class -/

namespace Bed

/-- The state of a powered-off patient bed after `powerOn()`, when 55 lies
within the height limits. -/
theorem powerOn_patient (b : Bed) (d : PatientBedData) (hd : b.derived = BedClass.PatientBed d)
    (hoff : b.isPoweredOn = false) (hlo : b.minHeight ≤ 55) (hhi : 55 ≤ b.maxHeight) :
    (powerOn b).1
      = { b with
          isPoweredOn := true,
          temperatureControl := { currentMode := Mode.NEUTRAL, temperature := 22 },
          lightStrip := (LightStrip.activate b.lightStrip).1,
          currentHeight := 55 } := by
  have hon1 : ({ b with
      isPoweredOn := true,
      temperatureControl := { currentMode := Mode.NEUTRAL, temperature := 22 },
      lightStrip := (LightStrip.activate b.lightStrip).1,
      derived := BedClass.PatientBed d } : Bed).isPoweredOn = true := rfl
  have hon2 : ({ b with
      isPoweredOn := true,
      temperatureControl := { currentMode := Mode.NEUTRAL, temperature := 22 },
      lightStrip := (LightStrip.activate b.lightStrip).1,
      currentHeight := 55,
      derived := BedClass.PatientBed d } : Bed).isPoweredOn = true := rfl
  simp only [powerOn, Act.when, Act.ite, hoff, Bool.not_false, if_true, Act.seq_cons_state,
    Act.seq_nil_state, Act.modify_state, Act.saying_state, onTemperature,
    StandardTemperatureControl.setTemperature, onLight_state, Bed.onPowerOn, hd,
    PatientBed.onPowerOn, say_state]
  rw [setHeight_accepted 55 _ hon1 hlo hhi, setTemperature_on Mode.NEUTRAL _ hon2]
  rfl

/-- The state of a powered-off surgical bed after `powerOn()`, when 85 lies
within the height limits. -/
theorem powerOn_surgical (b : Bed) (d : SurgicalBedData)
    (hd : b.derived = BedClass.SurgicalBed d)
    (hoff : b.isPoweredOn = false) (hlo : b.minHeight ≤ 85) (hhi : 85 ≤ b.maxHeight) :
    (powerOn b).1
      = { b with
          isPoweredOn := true,
          temperatureControl := { currentMode := Mode.NEUTRAL, temperature := 22 },
          lightStrip := (LightStrip.activate b.lightStrip).1,
          currentHeight := 85,
          derived := BedClass.SurgicalBed
            { d with medicalDevice := { d.medicalDevice with swivelAngle := 0 } } } := by
  have hon1 : ({ b with
      isPoweredOn := true,
      temperatureControl := { currentMode := Mode.NEUTRAL, temperature := 22 },
      lightStrip := (LightStrip.activate b.lightStrip).1,
      derived := BedClass.SurgicalBed d } : Bed).isPoweredOn = true := rfl
  have hon2 : ({ b with
      isPoweredOn := true,
      temperatureControl := { currentMode := Mode.NEUTRAL, temperature := 22 },
      lightStrip := (LightStrip.activate b.lightStrip).1,
      currentHeight := 85,
      derived := BedClass.SurgicalBed d } : Bed).isPoweredOn = true := rfl
  simp only [powerOn, Act.when, Act.ite, hoff, Bool.not_false, if_true, Act.seq_cons_state,
    Act.seq_nil_state, Act.modify_state, Act.saying_state, onTemperature,
    StandardTemperatureControl.setTemperature, onLight_state, Bed.onPowerOn, hd,
    SurgicalBed.onPowerOn, say_state, SurgicalBed.centerDevice]
  rw [setHeight_accepted 85 _ hon1 hlo hhi, setTemperature_on Mode.NEUTRAL _ hon2]
  simp [SurgicalBed.onDevice, ScannerDevice.centerDevice, Act.seq, Act.modify, say,
    Mode.celsius]

/-- C33. `powerOn()` on a powered-off bed restores the defaults of the derived
class whatever the state before: in every powered-off state reached from
construction, a PatientBed ends on with height 55 and temperature NEUTRAL (22),
a SurgicalBed ends on with height 85, temperature NEUTRAL (22) and the swivel
angle of its device at 0. -/
theorem powerOn_restores_defaults (ops : List Op) :
    ((run ops PatientBed.new).1.isPoweredOn = false →
        (powerOn (run ops PatientBed.new).1).1.isPoweredOn = true
        ∧ (powerOn (run ops PatientBed.new).1).1.getHeight = 55
        ∧ (powerOn (run ops PatientBed.new).1).1.getCurrentTemperature = Mode.NEUTRAL
        ∧ (powerOn (run ops PatientBed.new).1).1.getTemperatureValue = 22)
    ∧ ((run ops SurgicalBed.new).1.isPoweredOn = false →
        (powerOn (run ops SurgicalBed.new).1).1.isPoweredOn = true
        ∧ (powerOn (run ops SurgicalBed.new).1).1.getHeight = 85
        ∧ (powerOn (run ops SurgicalBed.new).1).1.getCurrentTemperature = Mode.NEUTRAL
        ∧ (powerOn (run ops SurgicalBed.new).1).1.getTemperatureValue = 22
        ∧ ∃ d, (powerOn (run ops SurgicalBed.new).1).1.derived = BedClass.SurgicalBed d
            ∧ d.medicalDevice.getSwivelAngle = 0) := by
  constructor
  · intro hoff
    obtain ⟨hk, hlo, hhi⟩ := reached_facts BedKind.patient ops
    change (run ops PatientBed.new).1.derived.kind = BedKind.patient at hk
    change (run ops PatientBed.new).1.minHeight = 40 at hlo
    change (run ops PatientBed.new).1.maxHeight = 90 at hhi
    obtain ⟨d, hd⟩ := PatientBed.patient_data_of_kind _ hk
    rw [powerOn_patient _ d hd hoff (by rw [hlo]; norm_num) (by rw [hhi]; norm_num)]
    exact ⟨rfl, rfl, rfl, rfl⟩
  · intro hoff
    obtain ⟨hk, hlo, hhi⟩ := reached_facts BedKind.surgical ops
    change (run ops SurgicalBed.new).1.derived.kind = BedKind.surgical at hk
    change (run ops SurgicalBed.new).1.minHeight = 60 at hlo
    change (run ops SurgicalBed.new).1.maxHeight = 120 at hhi
    obtain ⟨d, hd⟩ := SurgicalBed.surgical_data_of_kind _ hk
    rw [powerOn_surgical _ d hd hoff (by rw [hlo]; norm_num) (by rw [hhi]; norm_num)]
    exact ⟨rfl, rfl, rfl, rfl, _, rfl, rfl⟩

theorem powerOn_restores_defaults_witness :
    (powerOn (run [Op.powerOn, Op.setHeight 70, Op.setTemperature Mode.WARM, Op.powerOff]
        PatientBed.new).1).1.getHeight = 55
    ∧ (powerOn (run [Op.powerOn, Op.setHeight 70, Op.setTemperature Mode.WARM, Op.powerOff]
        PatientBed.new).1).1.getCurrentTemperature = Mode.NEUTRAL
    ∧ (powerOn (run [Op.powerOn, Op.setHeight 110, Op.swivelDeviceLeft 30, Op.powerOff]
        SurgicalBed.new).1).1.getHeight = 85 :=
  ⟨((powerOn_restores_defaults [Op.powerOn, Op.setHeight 70, Op.setTemperature Mode.WARM,
      Op.powerOff]).1 (by decide)).2.1,
   ((powerOn_restores_defaults [Op.powerOn, Op.setHeight 70, Op.setTemperature Mode.WARM,
      Op.powerOff]).1 (by decide)).2.2.1,
   ((powerOn_restores_defaults [Op.powerOn, Op.setHeight 110, Op.swivelDeviceLeft 30,
      Op.powerOff]).2 (by decide)).2.1⟩

end Bed

/-! ## The surgical emergency notifies the observers twice -/

namespace ScannerDevice

/-- What delivering an event of a part can add to the output: the event itself,
an alert line, or the line of the device's `onScanCompleted`. -/
theorem deliver_out (e : Event) (d : ScannerDevice) :
    ∀ x ∈ (deliver e d).2,
      x = e ∨ x ∈ alerts
        ∨ ∃ data : ScanData, x = Event.print [Arg.str "📊 Scan completed: ", Arg.str data.scanType] := by
  cases e with
  | onScanCompleted i data =>
    intro x hx
    by_cases hi : i = self
    · simp [deliver, Act.seq, Act.when, Act.ite, hi, onScanCompleted, say, Act.modify] at hx
      rcases hx with rfl | rfl
      · exact Or.inl (by rw [hi])
      · exact Or.inr (Or.inr ⟨data, rfl⟩)
    · simp [deliver, Act.seq, Act.when, Act.ite, Act.skip, hi] at hx
      exact Or.inl hx
  | onVitalSignsUpdated i vitals =>
    intro x hx
    by_cases hi : i = self
    · simp only [deliver, hi, seq_cons_out, seq_nil_out, Act.when, Act.ite, decide_True, if_true,
        onVitalSignsUpdated, List.append_nil, List.mem_append, List.mem_singleton,
        List.not_mem_nil, or_false, false_or, Act.modify, List.nil_append] at hx
      rcases hx with rfl | hx
      · exact Or.inl (by rw [hi])
      · exact Or.inr (Or.inl (checkCriticalVitals_out vitals _ x hx))
    · simp [deliver, Act.seq, Act.when, Act.ite, Act.skip, hi] at hx
      exact Or.inl hx
  | _ =>
    intro x hx
    simp only [deliver, List.mem_singleton] at hx
    exact Or.inl hx

theorem deliver_all_out (evs : List Event) :
    ∀ d : ScannerDevice, ∀ x ∈ (Act.seq (evs.map deliver) d).2,
      x ∈ evs ∨ x ∈ alerts
        ∨ ∃ data : ScanData, x = Event.print [Arg.str "📊 Scan completed: ", Arg.str data.scanType] := by
  induction evs with
  | nil => exact fun d x hx => absurd hx (List.not_mem_nil x)
  | cons e rest ih =>
    intro d x hx
    rw [List.map_cons, seq_cons_out, List.mem_append] at hx
    rcases hx with hx | hx
    · rcases deliver_out e d x hx with h | h | h
      · exact Or.inl (h ▸ List.mem_cons_self _ _)
      · exact Or.inr (Or.inl h)
      · exact Or.inr (Or.inr h)
    · rcases ih _ x hx with h | h | h
      · exact Or.inl (List.mem_cons_of_mem _ h)
      · exact Or.inr (Or.inl h)
      · exact Or.inr (Or.inr h)

/-- The device makes no emergency callback when vital monitoring is started. -/
theorem startVitalMonitoring_silent (d : ScannerDevice) :
    (startVitalMonitoring d).2.filter Event.isEmergencyActivated = [] := by
  rw [List.filter_eq_nil_iff]
  intro x hx
  have halert : ∀ y ∈ alerts, Event.isEmergencyActivated y = false := by decide
  rcases deliver_all_out _ _ x hx with h | h | ⟨data, rfl⟩
  · rcases monitor_events d.vitalMonitor 0 0 0 0 0 x (Or.inl h) with
      ⟨t, rest, rfl, _⟩ | ⟨i, _, rfl | rfl⟩ <;> simp [Event.isEmergencyActivated]
  · simp [halert x h]
  · simp [Event.isEmergencyActivated]

/-- The device makes no emergency callback when it swivels. -/
theorem swivelRight_silent (a : ℚ) (d : ScannerDevice) :
    (swivelRight a d).2.filter Event.isEmergencyActivated = [] := by
  unfold swivelRight Act.when Act.ite
  split
  · simp [Act.seq, Act.modify, Act.say, Event.isEmergencyActivated]
  · rfl

end ScannerDevice

namespace Bed

theorem filter_seq_cons (q : Event → Bool) (a : Act Bed) (rest : List (Act Bed)) (s : Bed) :
    (Act.seq (a :: rest) s).2.filter q
      = (a s).2.filter q ++ (Act.seq rest (a s).1).2.filter q := by
  rw [seq_cons_out, List.filter_append]

/-- Of what the bed puts out when an event of its light strip is delivered, the
emergency callbacks are the event itself, if it is one. -/
theorem deliver_filter (e : Event) (b : Bed) :
    (deliver e b).2.filter Event.isEmergencyActivated = [e].filter Event.isEmergencyActivated := by
  cases e with
  | onEmergencyActivated i =>
    by_cases hi : i = self <;>
      simp [deliver, Act.seq, Act.when, Act.ite, Act.skip, hi, onEmergencyActivated, Act.say,
        Event.isEmergencyActivated, List.filter_cons]
  | onEmergencyDeactivated i =>
    by_cases hi : i = self <;>
      simp [deliver, Act.seq, Act.when, Act.ite, Act.skip, hi, onEmergencyDeactivated, Act.say,
        Event.isEmergencyActivated, List.filter_cons]
  | _ => rfl

theorem deliver_all_filter (evs : List Event) :
    ∀ b : Bed, (Act.seq (evs.map deliver) b).2.filter Event.isEmergencyActivated
      = evs.filter Event.isEmergencyActivated := by
  induction evs with
  | nil => exact fun _ => rfl
  | cons e rest ih =>
    intro b
    rw [List.map_cons, filter_seq_cons, deliver_filter, ih]
    cases he : e.isEmergencyActivated <;> simp [List.filter_cons, he]

/-- The emergency callbacks in the output of `lightStrip->activateEmergencyMode()`:
one for each non-null observer of the strip, in registration order. -/
theorem activateEmergencyMode_filter (b : Bed) :
    (onLight LightStrip.activateEmergencyMode b).2.filter Event.isEmergencyActivated
      = b.lightStrip.observers.filterMap (fun o => o.map Event.onEmergencyActivated) := by
  unfold onLight
  rw [deliver_all_filter, LightStrip.activateEmergencyMode_eq]
  simp only [List.filter_cons, Event.isEmergencyActivated, Bool.false_eq_true, if_false]
  rw [List.filter_eq_self]
  intro x hx
  rw [List.mem_filterMap] at hx
  obtain ⟨o, _, ho⟩ := hx
  cases o with
  | none => simp at ho
  | some i =>
    simp only [Option.map_some', Option.some.injEq] at ho
    rw [← ho]
    rfl

/-- The height-setting call makes no emergency callback. -/
theorem setHeight_silent (h : ℚ) (b : Bed) :
    (setHeight h b).2.filter Event.isEmergencyActivated = [] := by
  unfold setHeight Act.ite
  split
  · rfl
  · split
    · simp [Act.seq, Act.modify, Act.say, Event.isEmergencyActivated]
    · rfl

/-- In every state reached from construction the bed is the one observer of its
light strip. -/
theorem observers_reached (k : BedKind) (ops : List Op) :
    (run ops k.construct).1.lightStrip.observers = [some self] :=
  @run_keeps (fun b => b.lightStrip.observers = [some self])
    ⟨fun _ _ hls hb => hls.trans hb, fun _ _ hb => hb, fun _ _ _ hb => hb⟩
    ⟨fun _ _ _ hb => hb⟩ (fun _ _ hb => hb) ops k.construct (by cases k <;> rfl)

end Bed

namespace SurgicalBed

/-- A call on the medical device changes at most the derived part of the bed. -/
theorem onDevice_frame (f : Act ScannerDevice) (b : Bed) :
    (onDevice f b).1 = { b with derived := (onDevice f b).1.derived } := by
  unfold onDevice
  split <;> rfl

theorem onDevice_silent (f : Act ScannerDevice)
    (hf : ∀ dev, (f dev).2.filter Event.isEmergencyActivated = []) (b : Bed) :
    (onDevice f b).2.filter Event.isEmergencyActivated = [] := by
  unfold onDevice
  split
  · exact hf _
  · rfl

theorem say_silent (args : List Arg) (b : Bed) :
    (say args b).2.filter Event.isEmergencyActivated = [] := rfl

/-- The emergency callbacks made by `triggerEmergency()`: one for each non-null
observer of the strip. -/
theorem triggerEmergency_filter (b : Bed) :
    (Bed.triggerEmergency b).2.filter Event.isEmergencyActivated
      = b.lightStrip.observers.filterMap (fun o => o.map Event.onEmergencyActivated) := by
  unfold Bed.triggerEmergency
  rw [Bed.filter_seq_cons, Bed.filter_seq_cons, seq_nil_out, Act.saying_state,
    Bed.activateEmergencyMode_filter]
  simp [Act.say, Event.isEmergencyActivated]

/-- The observers of the strip when `activateEmergencyProtocols()` reaches its
call of `activateEmergencyMode()` are those at its start. -/
theorem protocols_observers (b : Bed) :
    (onDevice ScannerDevice.startVitalMonitoring
        (positionForPatientAccess b).1).1.lightStrip.observers
      = b.lightStrip.observers := by
  haveI : Bed.Robust (fun x : Bed => x.lightStrip.observers = b.lightStrip.observers) :=
    ⟨fun _ _ hls hb => hls.trans hb, fun _ _ hb => hb, fun _ _ _ hb => hb⟩
  haveI : Bed.DerivedFree (fun x : Bed => x.lightStrip.observers = b.lightStrip.observers) :=
    ⟨fun _ _ _ hb => hb⟩
  exact (inferInstance : Act.Keeps
    (fun x : Bed => x.lightStrip.observers = b.lightStrip.observers)
    (Act.seq [positionForPatientAccess, onDevice ScannerDevice.startVitalMonitoring])).keeps b rfl

/-- The emergency callbacks made by `activateEmergencyProtocols()`: one for each
non-null observer of the strip. -/
theorem activateEmergencyProtocols_filter (b : Bed) :
    (activateEmergencyProtocols b).2.filter Event.isEmergencyActivated
      = b.lightStrip.observers.filterMap (fun o => o.map Event.onEmergencyActivated) := by
  have hpos : (positionForPatientAccess b).2.filter Event.isEmergencyActivated = [] := by
    unfold positionForPatientAccess
    rw [Bed.filter_seq_cons, Bed.filter_seq_cons, Bed.filter_seq_cons, seq_nil_out,
      say_silent, onDevice_silent _ (ScannerDevice.swivelRight_silent 90), Bed.setHeight_silent]
    rfl
  unfold activateEmergencyProtocols
  rw [Bed.filter_seq_cons, Bed.filter_seq_cons, Bed.filter_seq_cons, Bed.filter_seq_cons,
    Bed.filter_seq_cons, seq_nil_out, say_silent, say_state, hpos,
    onDevice_silent _ ScannerDevice.startVitalMonitoring_silent,
    Bed.activateEmergencyMode_filter, protocols_observers, say_silent]
  simp

/-- The strip is in emergency mode after `activateEmergencyProtocols()`, and a
powered-on bed whose limits admit the height 70 is at 70. -/
theorem activateEmergencyProtocols_state (b : Bed) :
    (activateEmergencyProtocols b).1.lightStrip.isEmergencyMode = true
    ∧ (b.isPoweredOn = true → b.minHeight ≤ 70 → 70 ≤ b.maxHeight →
        (activateEmergencyProtocols b).1.currentHeight = 70) := by
  have hstate : (activateEmergencyProtocols b).1
      = (Bed.onLight LightStrip.activateEmergencyMode
          (onDevice ScannerDevice.startVitalMonitoring
            (Bed.setHeight 70 (onDevice (ScannerDevice.swivelRight 90) b).1).1).1).1 := by
    simp only [activateEmergencyProtocols, positionForPatientAccess, Act.seq_cons_state,
      Act.seq_nil_state, say_state]
  rw [hstate, Bed.onLight_state]
  refine ⟨?_, ?_⟩
  · simp [LightStrip.activateEmergencyMode_eq, LightStrip.isEmergencyMode,
      LightBehavior.isEmergencyMode]
  · intro hon hlo hhi
    show (onDevice ScannerDevice.startVitalMonitoring
      (Bed.setHeight 70 (onDevice (ScannerDevice.swivelRight 90) b).1).1).1.currentHeight = 70
    rw [(onDevice_base _ _).1]
    have hx := onDevice_frame (ScannerDevice.swivelRight 90) b
    have h1 : (onDevice (ScannerDevice.swivelRight 90) b).1.isPoweredOn = true := by
      rw [hx]; exact hon
    have h2 : (onDevice (ScannerDevice.swivelRight 90) b).1.minHeight ≤ 70 := by
      rw [hx]; exact hlo
    have h3 : 70 ≤ (onDevice (ScannerDevice.swivelRight 90) b).1.maxHeight := by
      rw [hx]; exact hhi
    rw [Bed.setHeight_accepted 70 _ h1 h2 h3]

end SurgicalBed

namespace SurgicalBed

/-- The state after `triggerEmergency()`: only the light strip has changed, and
its observers are the same. -/
theorem triggerEmergency_state (b : Bed) :
    (Bed.triggerEmergency b).1
      = { b with lightStrip := (LightStrip.activateEmergencyMode b.lightStrip).1 } := by
  simp only [Bed.triggerEmergency, Act.seq_cons_state, Act.seq_nil_state, Act.saying_state,
    Bed.onLight_state]

/-- The emergency callbacks made by one `triggerSurgicalEmergency()` call on any
bed state: the callbacks to the observers of the strip, twice over. -/
theorem triggerSurgicalEmergency_filter (b : Bed) :
    (triggerSurgicalEmergency b).2.filter Event.isEmergencyActivated
      = b.lightStrip.observers.filterMap (fun o => o.map Event.onEmergencyActivated)
        ++ b.lightStrip.observers.filterMap (fun o => o.map Event.onEmergencyActivated) := by
  unfold triggerSurgicalEmergency
  rw [Bed.filter_seq_cons, Bed.filter_seq_cons, Bed.filter_seq_cons, seq_nil_out, say_silent,
    say_state, triggerEmergency_filter, activateEmergencyProtocols_filter,
    triggerEmergency_state]
  simp [LightStrip.activateEmergencyMode_eq]

/-- C36. A single `triggerSurgicalEmergency()` call activates the light strip's
emergency mode twice, once through `triggerEmergency()` and once through
`activateEmergencyProtocols()`: on any bed state the emergency callbacks in its
output are the callbacks to the observers of the strip, twice over. In every
state of a SurgicalBed reached from construction the bed itself is the one
registered observer, so the output holds exactly two `onEmergencyActivated`
callbacks, both to the bed, one from each of the two parts; afterwards the strip
is in emergency mode and, if the bed is powered on, the height is 70. -/
theorem triggerSurgicalEmergency_notifies_twice (ops : List Bed.Op) :
    (∀ b : Bed, (triggerSurgicalEmergency b).2.filter Event.isEmergencyActivated
      = b.lightStrip.observers.filterMap (fun o => o.map Event.onEmergencyActivated)
        ++ b.lightStrip.observers.filterMap (fun o => o.map Event.onEmergencyActivated))
    ∧ (Bed.run ops SurgicalBed.new).1.lightStrip.observers = [some Bed.self]
    ∧ (Bed.triggerEmergency (Bed.run ops SurgicalBed.new).1).2.filter Event.isEmergencyActivated
        = [Event.onEmergencyActivated Bed.self]
    ∧ (activateEmergencyProtocols
          (Bed.triggerEmergency (Bed.run ops SurgicalBed.new).1).1).2.filter
            Event.isEmergencyActivated
        = [Event.onEmergencyActivated Bed.self]
    ∧ (triggerSurgicalEmergency (Bed.run ops SurgicalBed.new).1).2.filter
          Event.isEmergencyActivated
        = [Event.onEmergencyActivated Bed.self, Event.onEmergencyActivated Bed.self]
    ∧ (triggerSurgicalEmergency (Bed.run ops SurgicalBed.new).1).1.lightStrip.isEmergencyMode
        = true
    ∧ ((Bed.run ops SurgicalBed.new).1.isPoweredOn = true →
        (triggerSurgicalEmergency (Bed.run ops SurgicalBed.new).1).1.getHeight = 70) := by
  have hobs : (Bed.run ops SurgicalBed.new).1.lightStrip.observers = [some Bed.self] :=
    Bed.observers_reached BedKind.surgical ops
  obtain ⟨_, hlo, hhi⟩ := Bed.reached_facts BedKind.surgical ops
  change (Bed.run ops SurgicalBed.new).1.minHeight = 60 at hlo
  change (Bed.run ops SurgicalBed.new).1.maxHeight = 120 at hhi
  generalize (Bed.run ops SurgicalBed.new).1 = b at hobs hlo hhi
  have hstate : (triggerSurgicalEmergency b).1
      = (activateEmergencyProtocols (Bed.triggerEmergency b).1).1 := by
    simp only [triggerSurgicalEmergency, Act.seq_cons_state, Act.seq_nil_state, say_state]
  have hs := activateEmergencyProtocols_state (Bed.triggerEmergency b).1
  refine ⟨triggerSurgicalEmergency_filter, hobs, ?_, ?_, ?_, ?_, ?_⟩
  · rw [triggerEmergency_filter, hobs]
    rfl
  · rw [activateEmergencyProtocols_filter, triggerEmergency_state]
    show (LightStrip.activateEmergencyMode b.lightStrip).1.observers.filterMap _ = _
    rw [LightStrip.observers_activateEmergencyMode, hobs]
    rfl
  · rw [triggerSurgicalEmergency_filter, hobs]
    rfl
  · rw [hstate]
    exact hs.1
  · intro hon
    rw [hstate]
    refine hs.2 ?_ ?_ ?_
    · rw [triggerEmergency_state]; exact hon
    · rw [triggerEmergency_state]; show b.minHeight ≤ 70; rw [hlo]; norm_num
    · rw [triggerEmergency_state]; show 70 ≤ b.maxHeight; rw [hhi]; norm_num

theorem triggerSurgicalEmergency_notifies_twice_witness :
    (triggerSurgicalEmergency (Bed.run [Bed.Op.powerOn] SurgicalBed.new).1).1.getHeight = 70
    ∧ (triggerSurgicalEmergency (Bed.run [Bed.Op.powerOn] SurgicalBed.new).1).2.filter
          Event.isEmergencyActivated
        = [Event.onEmergencyActivated Bed.self, Event.onEmergencyActivated Bed.self] :=
  ⟨(triggerSurgicalEmergency_notifies_twice [Bed.Op.powerOn]).2.2.2.2.2.2 (by decide),
   (triggerSurgicalEmergency_notifies_twice [Bed.Op.powerOn]).2.2.2.2.1⟩

end SurgicalBed

end MedicalEquipment
